import Mathlib

/-!
Verification of the `copads` random-number module (`copads/randomize.py`).

The Python code is shallowly embedded: Python unbounded integers become `ℤ`
(or `ℕ` where the code only manipulates non-negative words), Python `%` on
integers is flooring modulo, hence `Int.fmod`; operations that can raise are
modelled with `Except PyErr`.  The Mersenne Twister state is the 624-word
list `block` plus the cursor `index`; the LCG state is the structure holding
`seed` and the profile parameters chosen by `LCG.__init__`.
-/

/-- Python runtime errors that the embedded code can raise. -/
inductive PyErr where
  | zeroDivisionError
  | nameError
  deriving DecidableEq

namespace MersenneTwister

/-- Embedding of `MersenneTwister._int32(x)`: the 32 least significant bits, `0xFFFFFFFF & x`. -/
def _int32 (x : ℕ) : ℕ := 0xFFFFFFFF &&& x

/-- One iteration of the seeding loop:
`t = block[i-1] ^ (block[i-1] >> 30); block[i] = _int32(1812433253 * t + i)`,
where `prev` is `block[i-1]`. -/
def seedStep (prev i : ℕ) : ℕ :=
  _int32 (1812433253 * (prev ^^^ (prev >>> 30)) + i)

/-- The seeding loop `for i in range(1, 624)`: the list of the `n` values
`block[i], block[i+1], ...` produced starting from `prev = block[i-1]`. -/
def seedFrom (prev i : ℕ) : ℕ → List ℕ
  | 0 => []
  | n + 1 =>
    let v := seedStep prev i
    v :: seedFrom v (i + 1) n

/-- The mutable state of a `MersenneTwister` object. -/
structure State where
  seed : ℕ
  block : List ℕ
  index : ℕ
  deriving DecidableEq

/-- Embedding of `MersenneTwister.__init__` for a given integer seed:
`index = 624`, `block = [0]*624`, `block[0] = int(seed)`, then the seeding loop. -/
def init (seed : ℕ) : State :=
  { seed := seed, index := 624, block := seed :: seedFrom seed 1 623 }

/-- The body of the `_twist` loop at index `i`:
`t = block[(i+1) % 624] & 0x7fffffff`;
`y = _int32((block[i] & 0x80000000) + t)`;
`block[i] = block[(i+397) % 624] ^ (y >> 1)`;
`if y % 2 != 0: block[i] = block[i] ^ 0x9908b0df`. -/
def twistStep (block : List ℕ) (i : ℕ) : List ℕ :=
  let t := block.getD ((i + 1) % 624) 0 &&& 0x7fffffff
  let y := _int32 ((block.getD i 0 &&& 0x80000000) + t)
  let b := block.set i (block.getD ((i + 397) % 624) 0 ^^^ (y >>> 1))
  if y % 2 ≠ 0 then b.set i (b.getD i 0 ^^^ 0x9908b0df) else b

/-- The `for i in range(624)` loop of `_twist`, with `n` iterations left,
the next one at index `i`. -/
def twistLoop (block : List ℕ) (i : ℕ) : ℕ → List ℕ
  | 0 => block
  | n + 1 => twistLoop (twistStep block i) (i + 1) n

/-- Embedding of `MersenneTwister._twist`: regenerate the whole block in place, reset `index` to 0. -/
def _twist (st : State) : State :=
  { st with block := twistLoop st.block 0 624, index := 0 }

/-- Embedding of `MersenneTwister._random`: twist when `index >= 624`, temper `block[index]`
with the masks 2636928640 and 4022730752, advance `index`, return the 32-bit result. -/
def _random (st : State) : ℕ × State :=
  let st1 := if 624 ≤ st.index then _twist st else st
  let y0 := st1.block.getD st1.index 0
  let y1 := y0 ^^^ (y0 >>> 11)
  let y2 := y1 ^^^ ((y1 <<< 7) &&& 2636928640)
  let y3 := y2 ^^^ ((y2 <<< 15) &&& 4022730752)
  let y4 := y3 ^^^ (y3 >>> 18)
  (_int32 y4, { st1 with index := st1.index + 1 })

/-- The list of the next `n` raw draws from state `st`. -/
def draws (st : State) : ℕ → List ℕ
  | 0 => []
  | n + 1 =>
    let r := _random st
    r.1 :: draws r.2 n

/-- Iterated twisting: `k`-fold application of `_twist` (the only operation that ever rewrites `block`). -/
def twistIter (st : State) : ℕ → State
  | 0 => st
  | k + 1 => _twist (twistIter st k)

end MersenneTwister

/-- The state of an `LCG` object: the evolving `seed` plus the profile
parameters fixed by `LCG.__init__`. -/
structure LCG where
  seed : ℤ
  multiplier : ℤ
  increment : ℤ
  modulus : ℤ
  deriving DecidableEq

namespace LCG

/-- Embedding of `LCG.__init__` for a given integer seed: the profile parameters are selected
by the if/elif chain on the generator name, any unrecognized name (including
`"mmix"` itself) taking the final `else` branch with the MMIX parameters. -/
def init (seed : ℤ) (generator : String) : LCG :=
  if generator = "nr" then ⟨seed, 1664525, 1013904223, 2 ^ 32⟩
  else if generator = "borlandc" then ⟨seed, 22695477, 1, 2 ^ 32⟩
  else if generator = "pascal" then ⟨seed, 134775813, 1, 2 ^ 32⟩
  else if generator = "visualc" then ⟨seed, 214013, 2531011, 2 ^ 32⟩
  else if generator = "vb6" then ⟨seed, 1140671485, 12820163, 2 ^ 24⟩
  else if generator = "nag" then ⟨seed, 13 ^ 13, 0, 2 ^ 59⟩
  else if generator = "newlib" then ⟨seed, 6364136223846793005, 1, 2 ^ 64⟩
  else if generator = "java" then ⟨seed, 25214903917, 11, 2 ^ 48⟩
  else if generator = "lehmer" then ⟨seed, 16807, 0, 2 ^ 31 - 1⟩
  else if generator = "ansic" then ⟨seed, 1103515245, 12345, 2 ^ 31⟩
  else ⟨seed, 6364136223846793005, 1442695040888963407, 2 ^ 64⟩

/-- Embedding of `LCG._random`: `t = multiplier * seed + increment; seed = t % modulus; return seed`
(Python `%` on integers is flooring modulo, i.e. `Int.fmod`). -/
def _random (g : LCG) : ℤ × LCG :=
  let t := g.multiplier * g.seed + g.increment
  let s := Int.fmod t g.modulus
  (s, { g with seed := s })

/-- The state after `n` raw draws. -/
def iter (g : LCG) : ℕ → LCG
  | 0 => g
  | n + 1 => (_random (iter g n)).2

/-- The value returned by the `(n+1)`-st raw draw (`n` counted from 0). -/
def output (g : LCG) (n : ℕ) : ℤ := (_random (iter g n)).1

end LCG

namespace Randomizer

/-- Embedding of `Randomizer.randrange`: `x = self._random() + int(start); return int(x % int(stop))`.
The raw draw happens first; `x % 0` raises `ZeroDivisionError`. -/
def randrange {σ : Type} (rand : σ → ℤ × σ) (s : σ) (start stop : ℤ) :
    Except PyErr ℤ × σ :=
  let r := rand s
  let x := r.1 + start
  if stop = 0 then (Except.error PyErr.zeroDivisionError, r.2)
  else (Except.ok (Int.fmod x stop), r.2)

/-- Embedding of `Randomizer.random`: `x = float(a) / float(b); return abs(x) % 1` for two raw
draws `a`, `b`.  The division is modelled exactly on `ℚ`; for the non-negative
value `abs x`, Python float `% 1` is the fractional part, `Int.fract`.
A zero second draw raises `ZeroDivisionError`. -/
def random {σ : Type} (rand : σ → ℤ × σ) (s : σ) : Except PyErr ℚ × σ :=
  let r1 := rand s
  let r2 := rand r1.2
  if r2.1 = 0 then (Except.error PyErr.zeroDivisionError, r2.2)
  else (Except.ok (Int.fract |(r1.1 : ℚ) / (r2.1 : ℚ)|), r2.2)

/-- Embedding of `Randomizer.choice`: `index = self.randrange(0, len(sequence)-1); return seq[index]`.
If `randrange` raises (it does iff its `stop`, `len(sequence) - 1`, is 0) that error
propagates; otherwise the body reads the undefined global name `seq` and raises
`NameError` before any indexing happens. -/
def choice {σ : Type} {α : Type} (rand : σ → ℤ × σ) (s : σ) (sequence : List α) :
    Except PyErr α × σ :=
  let r := randrange rand s 0 ((sequence.length : ℤ) - 1)
  match r.1 with
  | Except.error e => (Except.error e, r.2)
  | Except.ok _ => (Except.error PyErr.nameError, r.2)

end Randomizer

/-- The closed set of profile names recognized by the table of the specification. -/
def recognizedProfiles : List String :=
  ["ansic", "borlandc", "java", "lehmer", "mmix", "newlib", "nag", "nr", "pascal", "vb6",
    "visualc"]

/-- The 624 words of the Mersenne Twister block seeded with 5489, exactly as
the seeding loop computes them; reference data staging the C1 evaluation. -/
def mtSeedBlock5489 : List ℕ :=
  [5489, 1301868182, 2938499221, 2950281878, 1875628136, 751856242, 944701696, 2243192071,
   694061057, 219885934, 2066767472, 3182869408, 485472502, 2336857883, 1071588843, 3418470598,
   951210697, 3693558366, 2923482051, 1793174584, 2982310801, 1586906132, 1951078751, 1808158765,
   1733897588, 431328322, 4202539044, 530658942, 1714810322, 3025256284, 3342585396, 1937033938,
   2640572511, 1654299090, 3692403553, 4233871309, 3497650794, 862629010, 2943236032, 2426458545,
   1603307207, 1133453895, 3099196360, 2208657629, 2747653927, 931059398, 761573964, 3157853227,
   785880413, 730313442, 124945756, 2937117055, 3295982469, 1724353043, 3021675344, 3884886417,
   4010150098, 4056961966, 699635835, 2681338818, 1339167484, 720757518, 2800161476, 2376097373,
   1532957371, 3902664099, 1238982754, 3725394514, 3449176889, 3570962471, 4287636090, 4087307012,
   3603343627, 202242161, 2995682783, 1620962684, 3704723357, 371613603, 2814834333, 2111005706,
   624778151, 2094172212, 4284947003, 1211977835, 991917094, 1570449747, 2962370480, 1259410321,
   170182696, 146300961, 2836829791, 619452428, 2723670296, 1881399711, 1161269684, 1675188680,
   4132175277, 780088327, 3409462821, 1036518241, 1834958505, 3048448173, 161811569, 618488316,
   44795092, 3918322701, 1924681712, 3239478144, 383254043, 4042306580, 2146983041, 3992780527,
   3518029708, 3545545436, 3901231469, 1896136409, 2028528556, 2339662006, 501326714, 2060962201,
   2502746480, 561575027, 581893337, 3393774360, 1778912547, 3626131687, 2175155826, 319853231,
   986875531, 819755096, 2915734330, 2688355739, 3482074849, 2736559, 2296975761, 1029741190,
   2876812646, 690154749, 579200347, 4027461746, 1285330465, 2701024045, 4117700889, 759495121,
   3332270341, 2313004527, 2277067795, 4131855432, 2722057515, 1264804546, 3848622725, 2211267957,
   4100593547, 959123777, 2130745407, 3194437393, 486673947, 1377371204, 17472727, 352317554,
   3955548058, 159652094, 1232063192, 3835177280, 49423123, 3083993636, 733092, 2120519771,
   2573409834, 1112952433, 3239502554, 761045320, 1087580692, 2540165110, 641058802, 1792435497,
   2261799288, 1579184083, 627146892, 2165744623, 2200142389, 2167590760, 2381418376, 1793358889,
   3081659520, 1663384067, 2009658756, 2689600308, 739136266, 2304581039, 3529067263, 591360555,
   525209271, 3131882996, 294230224, 2076220115, 3113580446, 1245621585, 1386885462, 3203270426,
   123512128, 12350217, 354956375, 4282398238, 3356876605, 3888857667, 157639694, 2616064085,
   1563068963, 2762125883, 4045394511, 4180452559, 3294769488, 1684529556, 1002945951, 3181438866,
   22506664, 691783457, 2685221343, 171579916, 3878728600, 2475806724, 2030324028, 3331164912,
   1708711359, 1970023127, 2859691344, 2588476477, 2748146879, 136111222, 2967685492, 909517429,
   2835297809, 3206906216, 3186870716, 341264097, 2542035121, 3353277068, 548223577, 3170936588,
   1678403446, 297435620, 2337555430, 466603495, 1132321815, 1208589219, 696392160, 894244439,
   2562678859, 470224582, 3306867480, 201364898, 2075966438, 1767227936, 2929737987, 3674877796,
   2654196643, 3692734598, 3528895099, 2796780123, 3048728353, 842329300, 191554730, 2922459673,
   3489020079, 3979110629, 1022523848, 2202932467, 3583655201, 3565113719, 587085778, 4176046313,
   3013713762, 950944241, 396426791, 3784844662, 3477431613, 3594592395, 2782043838, 3392093507,
   3106564952, 2829419931, 1358665591, 2206918825, 3170783123, 31522386, 2988194168, 1782249537,
   1105080928, 843500134, 1225290080, 1521001832, 3605886097, 2802786495, 2728923319, 3996284304,
   903417639, 1171249804, 1020374987, 2824535874, 423621996, 1988534473, 2493544470, 1008604435,
   1756003503, 1488867287, 1386808992, 732088248, 1780630732, 2482101014, 976561178, 1543448953,
   2602866064, 2021139923, 1952599828, 2360242564, 2117959962, 2753061860, 2388623612, 4138193781,
   2962920654, 2284970429, 766920861, 3457264692, 2879611383, 815055854, 2332929068, 1254853997,
   3740375268, 3799380844, 4091048725, 2006331129, 1982546212, 686850534, 1907447564, 2682801776,
   2780821066, 998290361, 1342433871, 4195430425, 607905174, 3902331779, 2454067926, 1708133115,
   1170874362, 2008609376, 3260320415, 2211196135, 433538229, 2728786374, 2189520818, 262554063,
   1182318347, 3710237267, 1221022450, 715966018, 2417068910, 2591870721, 2870691989, 3418190842,
   4238214053, 1540704231, 1575580968, 2095917976, 4078310857, 2313532447, 2110690783, 4056346629,
   4061784526, 1123218514, 551538993, 597148360, 4120175196, 3581618160, 3181170517, 422862282,
   3227524138, 1713114790, 662317149, 1230418732, 928171837, 1324564878, 1928816105, 1786535431,
   2878099422, 3290185549, 539474248, 1657512683, 552370646, 1671741683, 3655312128, 1552739510,
   2605208763, 1441755014, 181878989, 3124053868, 1447103986, 3183906156, 1728556020, 3502241336,
   3055466967, 1013272474, 818402132, 1715099063, 2900113506, 397254517, 4194863039, 1009068739,
   232864647, 2540223708, 2608288560, 2415367765, 478404847, 3455100648, 3182600021, 2115988978,
   434269567, 4117179324, 3461774077, 887256537, 3545801025, 286388911, 3451742129, 1981164769,
   786667016, 3310123729, 3097811076, 2224235657, 2959658883, 3370969234, 2514770915, 3345656436,
   2677010851, 2206236470, 271648054, 2342188545, 4292848611, 3646533909, 3754009956, 3803931226,
   4160647125, 1477814055, 4043852216, 1876372354, 3133294443, 3871104810, 3177020907, 2074304428,
   3479393793, 759562891, 164128153, 1839069216, 2114162633, 3989947309, 3611054956, 1333547922,
   835429831, 494987340, 171987910, 1252001001, 370809172, 3508925425, 2535703112, 1276855041,
   1922855120, 835673414, 3030664304, 613287117, 171219893, 3423096126, 3376881639, 2287770315,
   1658692645, 1262815245, 3957234326, 1168096164, 2968737525, 2655813712, 2132313144, 3976047964,
   326516571, 353088456, 3679188938, 3205649712, 2654036126, 1249024881, 880166166, 691800469,
   2229503665, 1673458056, 4032208375, 1851778863, 2563757330, 376742205, 1794655231, 340247333,
   1505873033, 396524441, 879666767, 3335579166, 3260764261, 3335999539, 506221798, 4214658741,
   975887814, 2080536343, 3360539560, 571586418, 138896374, 4234352651, 2737620262, 3928362291,
   1516365296, 38056726, 3599462320, 3585007266, 3850961033, 471667319, 1536883193, 2310166751,
   1861637689, 2530999841, 4139843801, 2710569485, 827578615, 2012334720, 2907369459, 3029312804,
   2820112398, 1965028045, 35518606, 2478379033, 643747771, 1924139484, 4123405127, 3811735531,
   3429660832, 3285177704, 1948416081, 1311525291, 1183517742, 1739192232, 3979815115, 2567840007,
   4116821529, 213304419, 4125718577, 1473064925, 2442436592, 1893310111, 4195361916, 3747569474,
   828465101, 2991227658, 750582866, 1205170309, 1409813056, 678418130, 1171531016, 3821236156,
   354504587, 4202874632, 3882511497, 1893248677, 1903078632, 26340130, 2069166240, 3657122492,
   3725758099, 831344905, 811453383, 3447711422, 2434543565, 4166886888, 3358210805, 4142984013,
   2988152326, 3527824853, 982082992, 2809155763, 190157081, 3340214818, 2365432395, 2548636180,
   2894533366, 3474657421, 2372634704, 2845748389, 43024175, 2774226648, 1987702864, 3186502468,
   453610222, 4204736567, 1392892630, 2471323686, 2470534280, 3541393095, 4269885866, 3909911300,
   759132955, 1482612480, 667715263, 1795580598, 2337923983, 3390586366, 581426223, 1515718634,
   476374295, 705213300, 363062054, 2084697697, 2407503428, 2292957699, 2426213835, 2199989172,
   1987356470, 4026755612, 2147252133, 270400031, 1367820199, 2369854699, 2844269403, 79981964]

/-- The block seeded with 5489 after the first 26 iterations of the twist
loop; reference data staging the C1 evaluation. -/
def mtTwistStage1_5489 : List ℕ :=
  [2601187879, 3919438689, 2270374771, 3254473187, 705526435, 752899028, 4259895275, 1635503293,
   287311810, 3348146311, 587101971, 1133963260, 197444494, 1569747226, 2853653046, 3654449492,
   3823320007, 1939491435, 191871982, 2550916200, 2586577334, 1836795533, 2550787344, 3774101499,
   499856526, 4035163043, 4202539044, 530658942, 1714810322, 3025256284, 3342585396, 1937033938,
   2640572511, 1654299090, 3692403553, 4233871309, 3497650794, 862629010, 2943236032, 2426458545,
   1603307207, 1133453895, 3099196360, 2208657629, 2747653927, 931059398, 761573964, 3157853227,
   785880413, 730313442, 124945756, 2937117055, 3295982469, 1724353043, 3021675344, 3884886417,
   4010150098, 4056961966, 699635835, 2681338818, 1339167484, 720757518, 2800161476, 2376097373,
   1532957371, 3902664099, 1238982754, 3725394514, 3449176889, 3570962471, 4287636090, 4087307012,
   3603343627, 202242161, 2995682783, 1620962684, 3704723357, 371613603, 2814834333, 2111005706,
   624778151, 2094172212, 4284947003, 1211977835, 991917094, 1570449747, 2962370480, 1259410321,
   170182696, 146300961, 2836829791, 619452428, 2723670296, 1881399711, 1161269684, 1675188680,
   4132175277, 780088327, 3409462821, 1036518241, 1834958505, 3048448173, 161811569, 618488316,
   44795092, 3918322701, 1924681712, 3239478144, 383254043, 4042306580, 2146983041, 3992780527,
   3518029708, 3545545436, 3901231469, 1896136409, 2028528556, 2339662006, 501326714, 2060962201,
   2502746480, 561575027, 581893337, 3393774360, 1778912547, 3626131687, 2175155826, 319853231,
   986875531, 819755096, 2915734330, 2688355739, 3482074849, 2736559, 2296975761, 1029741190,
   2876812646, 690154749, 579200347, 4027461746, 1285330465, 2701024045, 4117700889, 759495121,
   3332270341, 2313004527, 2277067795, 4131855432, 2722057515, 1264804546, 3848622725, 2211267957,
   4100593547, 959123777, 2130745407, 3194437393, 486673947, 1377371204, 17472727, 352317554,
   3955548058, 159652094, 1232063192, 3835177280, 49423123, 3083993636, 733092, 2120519771,
   2573409834, 1112952433, 3239502554, 761045320, 1087580692, 2540165110, 641058802, 1792435497,
   2261799288, 1579184083, 627146892, 2165744623, 2200142389, 2167590760, 2381418376, 1793358889,
   3081659520, 1663384067, 2009658756, 2689600308, 739136266, 2304581039, 3529067263, 591360555,
   525209271, 3131882996, 294230224, 2076220115, 3113580446, 1245621585, 1386885462, 3203270426,
   123512128, 12350217, 354956375, 4282398238, 3356876605, 3888857667, 157639694, 2616064085,
   1563068963, 2762125883, 4045394511, 4180452559, 3294769488, 1684529556, 1002945951, 3181438866,
   22506664, 691783457, 2685221343, 171579916, 3878728600, 2475806724, 2030324028, 3331164912,
   1708711359, 1970023127, 2859691344, 2588476477, 2748146879, 136111222, 2967685492, 909517429,
   2835297809, 3206906216, 3186870716, 341264097, 2542035121, 3353277068, 548223577, 3170936588,
   1678403446, 297435620, 2337555430, 466603495, 1132321815, 1208589219, 696392160, 894244439,
   2562678859, 470224582, 3306867480, 201364898, 2075966438, 1767227936, 2929737987, 3674877796,
   2654196643, 3692734598, 3528895099, 2796780123, 3048728353, 842329300, 191554730, 2922459673,
   3489020079, 3979110629, 1022523848, 2202932467, 3583655201, 3565113719, 587085778, 4176046313,
   3013713762, 950944241, 396426791, 3784844662, 3477431613, 3594592395, 2782043838, 3392093507,
   3106564952, 2829419931, 1358665591, 2206918825, 3170783123, 31522386, 2988194168, 1782249537,
   1105080928, 843500134, 1225290080, 1521001832, 3605886097, 2802786495, 2728923319, 3996284304,
   903417639, 1171249804, 1020374987, 2824535874, 423621996, 1988534473, 2493544470, 1008604435,
   1756003503, 1488867287, 1386808992, 732088248, 1780630732, 2482101014, 976561178, 1543448953,
   2602866064, 2021139923, 1952599828, 2360242564, 2117959962, 2753061860, 2388623612, 4138193781,
   2962920654, 2284970429, 766920861, 3457264692, 2879611383, 815055854, 2332929068, 1254853997,
   3740375268, 3799380844, 4091048725, 2006331129, 1982546212, 686850534, 1907447564, 2682801776,
   2780821066, 998290361, 1342433871, 4195430425, 607905174, 3902331779, 2454067926, 1708133115,
   1170874362, 2008609376, 3260320415, 2211196135, 433538229, 2728786374, 2189520818, 262554063,
   1182318347, 3710237267, 1221022450, 715966018, 2417068910, 2591870721, 2870691989, 3418190842,
   4238214053, 1540704231, 1575580968, 2095917976, 4078310857, 2313532447, 2110690783, 4056346629,
   4061784526, 1123218514, 551538993, 597148360, 4120175196, 3581618160, 3181170517, 422862282,
   3227524138, 1713114790, 662317149, 1230418732, 928171837, 1324564878, 1928816105, 1786535431,
   2878099422, 3290185549, 539474248, 1657512683, 552370646, 1671741683, 3655312128, 1552739510,
   2605208763, 1441755014, 181878989, 3124053868, 1447103986, 3183906156, 1728556020, 3502241336,
   3055466967, 1013272474, 818402132, 1715099063, 2900113506, 397254517, 4194863039, 1009068739,
   232864647, 2540223708, 2608288560, 2415367765, 478404847, 3455100648, 3182600021, 2115988978,
   434269567, 4117179324, 3461774077, 887256537, 3545801025, 286388911, 3451742129, 1981164769,
   786667016, 3310123729, 3097811076, 2224235657, 2959658883, 3370969234, 2514770915, 3345656436,
   2677010851, 2206236470, 271648054, 2342188545, 4292848611, 3646533909, 3754009956, 3803931226,
   4160647125, 1477814055, 4043852216, 1876372354, 3133294443, 3871104810, 3177020907, 2074304428,
   3479393793, 759562891, 164128153, 1839069216, 2114162633, 3989947309, 3611054956, 1333547922,
   835429831, 494987340, 171987910, 1252001001, 370809172, 3508925425, 2535703112, 1276855041,
   1922855120, 835673414, 3030664304, 613287117, 171219893, 3423096126, 3376881639, 2287770315,
   1658692645, 1262815245, 3957234326, 1168096164, 2968737525, 2655813712, 2132313144, 3976047964,
   326516571, 353088456, 3679188938, 3205649712, 2654036126, 1249024881, 880166166, 691800469,
   2229503665, 1673458056, 4032208375, 1851778863, 2563757330, 376742205, 1794655231, 340247333,
   1505873033, 396524441, 879666767, 3335579166, 3260764261, 3335999539, 506221798, 4214658741,
   975887814, 2080536343, 3360539560, 571586418, 138896374, 4234352651, 2737620262, 3928362291,
   1516365296, 38056726, 3599462320, 3585007266, 3850961033, 471667319, 1536883193, 2310166751,
   1861637689, 2530999841, 4139843801, 2710569485, 827578615, 2012334720, 2907369459, 3029312804,
   2820112398, 1965028045, 35518606, 2478379033, 643747771, 1924139484, 4123405127, 3811735531,
   3429660832, 3285177704, 1948416081, 1311525291, 1183517742, 1739192232, 3979815115, 2567840007,
   4116821529, 213304419, 4125718577, 1473064925, 2442436592, 1893310111, 4195361916, 3747569474,
   828465101, 2991227658, 750582866, 1205170309, 1409813056, 678418130, 1171531016, 3821236156,
   354504587, 4202874632, 3882511497, 1893248677, 1903078632, 26340130, 2069166240, 3657122492,
   3725758099, 831344905, 811453383, 3447711422, 2434543565, 4166886888, 3358210805, 4142984013,
   2988152326, 3527824853, 982082992, 2809155763, 190157081, 3340214818, 2365432395, 2548636180,
   2894533366, 3474657421, 2372634704, 2845748389, 43024175, 2774226648, 1987702864, 3186502468,
   453610222, 4204736567, 1392892630, 2471323686, 2470534280, 3541393095, 4269885866, 3909911300,
   759132955, 1482612480, 667715263, 1795580598, 2337923983, 3390586366, 581426223, 1515718634,
   476374295, 705213300, 363062054, 2084697697, 2407503428, 2292957699, 2426213835, 2199989172,
   1987356470, 4026755612, 2147252133, 270400031, 1367820199, 2369854699, 2844269403, 79981964]

/-- The block seeded with 5489 after the first 52 iterations of the twist
loop; reference data staging the C1 evaluation. -/
def mtTwistStage2_5489 : List ℕ :=
  [2601187879, 3919438689, 2270374771, 3254473187, 705526435, 752899028, 4259895275, 1635503293,
   287311810, 3348146311, 587101971, 1133963260, 197444494, 1569747226, 2853653046, 3654449492,
   3823320007, 1939491435, 191871982, 2550916200, 2586577334, 1836795533, 2550787344, 3774101499,
   499856526, 4035163043, 969324510, 502882529, 3747915135, 3677962142, 4247339488, 668043123,
   3114378363, 585508492, 542098765, 4155704470, 3660917119, 126230230, 1522675206, 153049183,
   1637257449, 3281868928, 979462891, 1058287769, 61525060, 3887730846, 3905100104, 1956723994,
   4085220955, 3202629445, 4112745420, 877772572, 3295982469, 1724353043, 3021675344, 3884886417,
   4010150098, 4056961966, 699635835, 2681338818, 1339167484, 720757518, 2800161476, 2376097373,
   1532957371, 3902664099, 1238982754, 3725394514, 3449176889, 3570962471, 4287636090, 4087307012,
   3603343627, 202242161, 2995682783, 1620962684, 3704723357, 371613603, 2814834333, 2111005706,
   624778151, 2094172212, 4284947003, 1211977835, 991917094, 1570449747, 2962370480, 1259410321,
   170182696, 146300961, 2836829791, 619452428, 2723670296, 1881399711, 1161269684, 1675188680,
   4132175277, 780088327, 3409462821, 1036518241, 1834958505, 3048448173, 161811569, 618488316,
   44795092, 3918322701, 1924681712, 3239478144, 383254043, 4042306580, 2146983041, 3992780527,
   3518029708, 3545545436, 3901231469, 1896136409, 2028528556, 2339662006, 501326714, 2060962201,
   2502746480, 561575027, 581893337, 3393774360, 1778912547, 3626131687, 2175155826, 319853231,
   986875531, 819755096, 2915734330, 2688355739, 3482074849, 2736559, 2296975761, 1029741190,
   2876812646, 690154749, 579200347, 4027461746, 1285330465, 2701024045, 4117700889, 759495121,
   3332270341, 2313004527, 2277067795, 4131855432, 2722057515, 1264804546, 3848622725, 2211267957,
   4100593547, 959123777, 2130745407, 3194437393, 486673947, 1377371204, 17472727, 352317554,
   3955548058, 159652094, 1232063192, 3835177280, 49423123, 3083993636, 733092, 2120519771,
   2573409834, 1112952433, 3239502554, 761045320, 1087580692, 2540165110, 641058802, 1792435497,
   2261799288, 1579184083, 627146892, 2165744623, 2200142389, 2167590760, 2381418376, 1793358889,
   3081659520, 1663384067, 2009658756, 2689600308, 739136266, 2304581039, 3529067263, 591360555,
   525209271, 3131882996, 294230224, 2076220115, 3113580446, 1245621585, 1386885462, 3203270426,
   123512128, 12350217, 354956375, 4282398238, 3356876605, 3888857667, 157639694, 2616064085,
   1563068963, 2762125883, 4045394511, 4180452559, 3294769488, 1684529556, 1002945951, 3181438866,
   22506664, 691783457, 2685221343, 171579916, 3878728600, 2475806724, 2030324028, 3331164912,
   1708711359, 1970023127, 2859691344, 2588476477, 2748146879, 136111222, 2967685492, 909517429,
   2835297809, 3206906216, 3186870716, 341264097, 2542035121, 3353277068, 548223577, 3170936588,
   1678403446, 297435620, 2337555430, 466603495, 1132321815, 1208589219, 696392160, 894244439,
   2562678859, 470224582, 3306867480, 201364898, 2075966438, 1767227936, 2929737987, 3674877796,
   2654196643, 3692734598, 3528895099, 2796780123, 3048728353, 842329300, 191554730, 2922459673,
   3489020079, 3979110629, 1022523848, 2202932467, 3583655201, 3565113719, 587085778, 4176046313,
   3013713762, 950944241, 396426791, 3784844662, 3477431613, 3594592395, 2782043838, 3392093507,
   3106564952, 2829419931, 1358665591, 2206918825, 3170783123, 31522386, 2988194168, 1782249537,
   1105080928, 843500134, 1225290080, 1521001832, 3605886097, 2802786495, 2728923319, 3996284304,
   903417639, 1171249804, 1020374987, 2824535874, 423621996, 1988534473, 2493544470, 1008604435,
   1756003503, 1488867287, 1386808992, 732088248, 1780630732, 2482101014, 976561178, 1543448953,
   2602866064, 2021139923, 1952599828, 2360242564, 2117959962, 2753061860, 2388623612, 4138193781,
   2962920654, 2284970429, 766920861, 3457264692, 2879611383, 815055854, 2332929068, 1254853997,
   3740375268, 3799380844, 4091048725, 2006331129, 1982546212, 686850534, 1907447564, 2682801776,
   2780821066, 998290361, 1342433871, 4195430425, 607905174, 3902331779, 2454067926, 1708133115,
   1170874362, 2008609376, 3260320415, 2211196135, 433538229, 2728786374, 2189520818, 262554063,
   1182318347, 3710237267, 1221022450, 715966018, 2417068910, 2591870721, 2870691989, 3418190842,
   4238214053, 1540704231, 1575580968, 2095917976, 4078310857, 2313532447, 2110690783, 4056346629,
   4061784526, 1123218514, 551538993, 597148360, 4120175196, 3581618160, 3181170517, 422862282,
   3227524138, 1713114790, 662317149, 1230418732, 928171837, 1324564878, 1928816105, 1786535431,
   2878099422, 3290185549, 539474248, 1657512683, 552370646, 1671741683, 3655312128, 1552739510,
   2605208763, 1441755014, 181878989, 3124053868, 1447103986, 3183906156, 1728556020, 3502241336,
   3055466967, 1013272474, 818402132, 1715099063, 2900113506, 397254517, 4194863039, 1009068739,
   232864647, 2540223708, 2608288560, 2415367765, 478404847, 3455100648, 3182600021, 2115988978,
   434269567, 4117179324, 3461774077, 887256537, 3545801025, 286388911, 3451742129, 1981164769,
   786667016, 3310123729, 3097811076, 2224235657, 2959658883, 3370969234, 2514770915, 3345656436,
   2677010851, 2206236470, 271648054, 2342188545, 4292848611, 3646533909, 3754009956, 3803931226,
   4160647125, 1477814055, 4043852216, 1876372354, 3133294443, 3871104810, 3177020907, 2074304428,
   3479393793, 759562891, 164128153, 1839069216, 2114162633, 3989947309, 3611054956, 1333547922,
   835429831, 494987340, 171987910, 1252001001, 370809172, 3508925425, 2535703112, 1276855041,
   1922855120, 835673414, 3030664304, 613287117, 171219893, 3423096126, 3376881639, 2287770315,
   1658692645, 1262815245, 3957234326, 1168096164, 2968737525, 2655813712, 2132313144, 3976047964,
   326516571, 353088456, 3679188938, 3205649712, 2654036126, 1249024881, 880166166, 691800469,
   2229503665, 1673458056, 4032208375, 1851778863, 2563757330, 376742205, 1794655231, 340247333,
   1505873033, 396524441, 879666767, 3335579166, 3260764261, 3335999539, 506221798, 4214658741,
   975887814, 2080536343, 3360539560, 571586418, 138896374, 4234352651, 2737620262, 3928362291,
   1516365296, 38056726, 3599462320, 3585007266, 3850961033, 471667319, 1536883193, 2310166751,
   1861637689, 2530999841, 4139843801, 2710569485, 827578615, 2012334720, 2907369459, 3029312804,
   2820112398, 1965028045, 35518606, 2478379033, 643747771, 1924139484, 4123405127, 3811735531,
   3429660832, 3285177704, 1948416081, 1311525291, 1183517742, 1739192232, 3979815115, 2567840007,
   4116821529, 213304419, 4125718577, 1473064925, 2442436592, 1893310111, 4195361916, 3747569474,
   828465101, 2991227658, 750582866, 1205170309, 1409813056, 678418130, 1171531016, 3821236156,
   354504587, 4202874632, 3882511497, 1893248677, 1903078632, 26340130, 2069166240, 3657122492,
   3725758099, 831344905, 811453383, 3447711422, 2434543565, 4166886888, 3358210805, 4142984013,
   2988152326, 3527824853, 982082992, 2809155763, 190157081, 3340214818, 2365432395, 2548636180,
   2894533366, 3474657421, 2372634704, 2845748389, 43024175, 2774226648, 1987702864, 3186502468,
   453610222, 4204736567, 1392892630, 2471323686, 2470534280, 3541393095, 4269885866, 3909911300,
   759132955, 1482612480, 667715263, 1795580598, 2337923983, 3390586366, 581426223, 1515718634,
   476374295, 705213300, 363062054, 2084697697, 2407503428, 2292957699, 2426213835, 2199989172,
   1987356470, 4026755612, 2147252133, 270400031, 1367820199, 2369854699, 2844269403, 79981964]

/-- The block seeded with 5489 after the first 78 iterations of the twist
loop; reference data staging the C1 evaluation. -/
def mtTwistStage3_5489 : List ℕ :=
  [2601187879, 3919438689, 2270374771, 3254473187, 705526435, 752899028, 4259895275, 1635503293,
   287311810, 3348146311, 587101971, 1133963260, 197444494, 1569747226, 2853653046, 3654449492,
   3823320007, 1939491435, 191871982, 2550916200, 2586577334, 1836795533, 2550787344, 3774101499,
   499856526, 4035163043, 969324510, 502882529, 3747915135, 3677962142, 4247339488, 668043123,
   3114378363, 585508492, 542098765, 4155704470, 3660917119, 126230230, 1522675206, 153049183,
   1637257449, 3281868928, 979462891, 1058287769, 61525060, 3887730846, 3905100104, 1956723994,
   4085220955, 3202629445, 4112745420, 877772572, 3341645661, 331737137, 2270305335, 159419296,
   2503600762, 451751822, 1083485811, 1445113017, 150608331, 422828708, 2507709208, 3804045526,
   2086909439, 4090458745, 1662894632, 2371871123, 3266028938, 3412874573, 1564584271, 4167008239,
   319160793, 1225298391, 4161956981, 3585990452, 2573113091, 1630884103, 2814834333, 2111005706,
   624778151, 2094172212, 4284947003, 1211977835, 991917094, 1570449747, 2962370480, 1259410321,
   170182696, 146300961, 2836829791, 619452428, 2723670296, 1881399711, 1161269684, 1675188680,
   4132175277, 780088327, 3409462821, 1036518241, 1834958505, 3048448173, 161811569, 618488316,
   44795092, 3918322701, 1924681712, 3239478144, 383254043, 4042306580, 2146983041, 3992780527,
   3518029708, 3545545436, 3901231469, 1896136409, 2028528556, 2339662006, 501326714, 2060962201,
   2502746480, 561575027, 581893337, 3393774360, 1778912547, 3626131687, 2175155826, 319853231,
   986875531, 819755096, 2915734330, 2688355739, 3482074849, 2736559, 2296975761, 1029741190,
   2876812646, 690154749, 579200347, 4027461746, 1285330465, 2701024045, 4117700889, 759495121,
   3332270341, 2313004527, 2277067795, 4131855432, 2722057515, 1264804546, 3848622725, 2211267957,
   4100593547, 959123777, 2130745407, 3194437393, 486673947, 1377371204, 17472727, 352317554,
   3955548058, 159652094, 1232063192, 3835177280, 49423123, 3083993636, 733092, 2120519771,
   2573409834, 1112952433, 3239502554, 761045320, 1087580692, 2540165110, 641058802, 1792435497,
   2261799288, 1579184083, 627146892, 2165744623, 2200142389, 2167590760, 2381418376, 1793358889,
   3081659520, 1663384067, 2009658756, 2689600308, 739136266, 2304581039, 3529067263, 591360555,
   525209271, 3131882996, 294230224, 2076220115, 3113580446, 1245621585, 1386885462, 3203270426,
   123512128, 12350217, 354956375, 4282398238, 3356876605, 3888857667, 157639694, 2616064085,
   1563068963, 2762125883, 4045394511, 4180452559, 3294769488, 1684529556, 1002945951, 3181438866,
   22506664, 691783457, 2685221343, 171579916, 3878728600, 2475806724, 2030324028, 3331164912,
   1708711359, 1970023127, 2859691344, 2588476477, 2748146879, 136111222, 2967685492, 909517429,
   2835297809, 3206906216, 3186870716, 341264097, 2542035121, 3353277068, 548223577, 3170936588,
   1678403446, 297435620, 2337555430, 466603495, 1132321815, 1208589219, 696392160, 894244439,
   2562678859, 470224582, 3306867480, 201364898, 2075966438, 1767227936, 2929737987, 3674877796,
   2654196643, 3692734598, 3528895099, 2796780123, 3048728353, 842329300, 191554730, 2922459673,
   3489020079, 3979110629, 1022523848, 2202932467, 3583655201, 3565113719, 587085778, 4176046313,
   3013713762, 950944241, 396426791, 3784844662, 3477431613, 3594592395, 2782043838, 3392093507,
   3106564952, 2829419931, 1358665591, 2206918825, 3170783123, 31522386, 2988194168, 1782249537,
   1105080928, 843500134, 1225290080, 1521001832, 3605886097, 2802786495, 2728923319, 3996284304,
   903417639, 1171249804, 1020374987, 2824535874, 423621996, 1988534473, 2493544470, 1008604435,
   1756003503, 1488867287, 1386808992, 732088248, 1780630732, 2482101014, 976561178, 1543448953,
   2602866064, 2021139923, 1952599828, 2360242564, 2117959962, 2753061860, 2388623612, 4138193781,
   2962920654, 2284970429, 766920861, 3457264692, 2879611383, 815055854, 2332929068, 1254853997,
   3740375268, 3799380844, 4091048725, 2006331129, 1982546212, 686850534, 1907447564, 2682801776,
   2780821066, 998290361, 1342433871, 4195430425, 607905174, 3902331779, 2454067926, 1708133115,
   1170874362, 2008609376, 3260320415, 2211196135, 433538229, 2728786374, 2189520818, 262554063,
   1182318347, 3710237267, 1221022450, 715966018, 2417068910, 2591870721, 2870691989, 3418190842,
   4238214053, 1540704231, 1575580968, 2095917976, 4078310857, 2313532447, 2110690783, 4056346629,
   4061784526, 1123218514, 551538993, 597148360, 4120175196, 3581618160, 3181170517, 422862282,
   3227524138, 1713114790, 662317149, 1230418732, 928171837, 1324564878, 1928816105, 1786535431,
   2878099422, 3290185549, 539474248, 1657512683, 552370646, 1671741683, 3655312128, 1552739510,
   2605208763, 1441755014, 181878989, 3124053868, 1447103986, 3183906156, 1728556020, 3502241336,
   3055466967, 1013272474, 818402132, 1715099063, 2900113506, 397254517, 4194863039, 1009068739,
   232864647, 2540223708, 2608288560, 2415367765, 478404847, 3455100648, 3182600021, 2115988978,
   434269567, 4117179324, 3461774077, 887256537, 3545801025, 286388911, 3451742129, 1981164769,
   786667016, 3310123729, 3097811076, 2224235657, 2959658883, 3370969234, 2514770915, 3345656436,
   2677010851, 2206236470, 271648054, 2342188545, 4292848611, 3646533909, 3754009956, 3803931226,
   4160647125, 1477814055, 4043852216, 1876372354, 3133294443, 3871104810, 3177020907, 2074304428,
   3479393793, 759562891, 164128153, 1839069216, 2114162633, 3989947309, 3611054956, 1333547922,
   835429831, 494987340, 171987910, 1252001001, 370809172, 3508925425, 2535703112, 1276855041,
   1922855120, 835673414, 3030664304, 613287117, 171219893, 3423096126, 3376881639, 2287770315,
   1658692645, 1262815245, 3957234326, 1168096164, 2968737525, 2655813712, 2132313144, 3976047964,
   326516571, 353088456, 3679188938, 3205649712, 2654036126, 1249024881, 880166166, 691800469,
   2229503665, 1673458056, 4032208375, 1851778863, 2563757330, 376742205, 1794655231, 340247333,
   1505873033, 396524441, 879666767, 3335579166, 3260764261, 3335999539, 506221798, 4214658741,
   975887814, 2080536343, 3360539560, 571586418, 138896374, 4234352651, 2737620262, 3928362291,
   1516365296, 38056726, 3599462320, 3585007266, 3850961033, 471667319, 1536883193, 2310166751,
   1861637689, 2530999841, 4139843801, 2710569485, 827578615, 2012334720, 2907369459, 3029312804,
   2820112398, 1965028045, 35518606, 2478379033, 643747771, 1924139484, 4123405127, 3811735531,
   3429660832, 3285177704, 1948416081, 1311525291, 1183517742, 1739192232, 3979815115, 2567840007,
   4116821529, 213304419, 4125718577, 1473064925, 2442436592, 1893310111, 4195361916, 3747569474,
   828465101, 2991227658, 750582866, 1205170309, 1409813056, 678418130, 1171531016, 3821236156,
   354504587, 4202874632, 3882511497, 1893248677, 1903078632, 26340130, 2069166240, 3657122492,
   3725758099, 831344905, 811453383, 3447711422, 2434543565, 4166886888, 3358210805, 4142984013,
   2988152326, 3527824853, 982082992, 2809155763, 190157081, 3340214818, 2365432395, 2548636180,
   2894533366, 3474657421, 2372634704, 2845748389, 43024175, 2774226648, 1987702864, 3186502468,
   453610222, 4204736567, 1392892630, 2471323686, 2470534280, 3541393095, 4269885866, 3909911300,
   759132955, 1482612480, 667715263, 1795580598, 2337923983, 3390586366, 581426223, 1515718634,
   476374295, 705213300, 363062054, 2084697697, 2407503428, 2292957699, 2426213835, 2199989172,
   1987356470, 4026755612, 2147252133, 270400031, 1367820199, 2369854699, 2844269403, 79981964]

/-- The block seeded with 5489 after the first 104 iterations of the twist
loop; reference data staging the C1 evaluation. -/
def mtTwistStage4_5489 : List ℕ :=
  [2601187879, 3919438689, 2270374771, 3254473187, 705526435, 752899028, 4259895275, 1635503293,
   287311810, 3348146311, 587101971, 1133963260, 197444494, 1569747226, 2853653046, 3654449492,
   3823320007, 1939491435, 191871982, 2550916200, 2586577334, 1836795533, 2550787344, 3774101499,
   499856526, 4035163043, 969324510, 502882529, 3747915135, 3677962142, 4247339488, 668043123,
   3114378363, 585508492, 542098765, 4155704470, 3660917119, 126230230, 1522675206, 153049183,
   1637257449, 3281868928, 979462891, 1058287769, 61525060, 3887730846, 3905100104, 1956723994,
   4085220955, 3202629445, 4112745420, 877772572, 3341645661, 331737137, 2270305335, 159419296,
   2503600762, 451751822, 1083485811, 1445113017, 150608331, 422828708, 2507709208, 3804045526,
   2086909439, 4090458745, 1662894632, 2371871123, 3266028938, 3412874573, 1564584271, 4167008239,
   319160793, 1225298391, 4161956981, 3585990452, 2573113091, 1630884103, 997591457, 996494329,
   2686829642, 3651385850, 300660150, 251233608, 2731448254, 3271745554, 1133669415, 2602763402,
   3609598910, 3119890150, 2068448659, 2512941629, 2192028056, 3536672045, 1605585867, 987929371,
   3628305377, 3597455410, 3551228490, 4133937922, 2490571536, 3920924840, 3569243872, 3272512015,
   44795092, 3918322701, 1924681712, 3239478144, 383254043, 4042306580, 2146983041, 3992780527,
   3518029708, 3545545436, 3901231469, 1896136409, 2028528556, 2339662006, 501326714, 2060962201,
   2502746480, 561575027, 581893337, 3393774360, 1778912547, 3626131687, 2175155826, 319853231,
   986875531, 819755096, 2915734330, 2688355739, 3482074849, 2736559, 2296975761, 1029741190,
   2876812646, 690154749, 579200347, 4027461746, 1285330465, 2701024045, 4117700889, 759495121,
   3332270341, 2313004527, 2277067795, 4131855432, 2722057515, 1264804546, 3848622725, 2211267957,
   4100593547, 959123777, 2130745407, 3194437393, 486673947, 1377371204, 17472727, 352317554,
   3955548058, 159652094, 1232063192, 3835177280, 49423123, 3083993636, 733092, 2120519771,
   2573409834, 1112952433, 3239502554, 761045320, 1087580692, 2540165110, 641058802, 1792435497,
   2261799288, 1579184083, 627146892, 2165744623, 2200142389, 2167590760, 2381418376, 1793358889,
   3081659520, 1663384067, 2009658756, 2689600308, 739136266, 2304581039, 3529067263, 591360555,
   525209271, 3131882996, 294230224, 2076220115, 3113580446, 1245621585, 1386885462, 3203270426,
   123512128, 12350217, 354956375, 4282398238, 3356876605, 3888857667, 157639694, 2616064085,
   1563068963, 2762125883, 4045394511, 4180452559, 3294769488, 1684529556, 1002945951, 3181438866,
   22506664, 691783457, 2685221343, 171579916, 3878728600, 2475806724, 2030324028, 3331164912,
   1708711359, 1970023127, 2859691344, 2588476477, 2748146879, 136111222, 2967685492, 909517429,
   2835297809, 3206906216, 3186870716, 341264097, 2542035121, 3353277068, 548223577, 3170936588,
   1678403446, 297435620, 2337555430, 466603495, 1132321815, 1208589219, 696392160, 894244439,
   2562678859, 470224582, 3306867480, 201364898, 2075966438, 1767227936, 2929737987, 3674877796,
   2654196643, 3692734598, 3528895099, 2796780123, 3048728353, 842329300, 191554730, 2922459673,
   3489020079, 3979110629, 1022523848, 2202932467, 3583655201, 3565113719, 587085778, 4176046313,
   3013713762, 950944241, 396426791, 3784844662, 3477431613, 3594592395, 2782043838, 3392093507,
   3106564952, 2829419931, 1358665591, 2206918825, 3170783123, 31522386, 2988194168, 1782249537,
   1105080928, 843500134, 1225290080, 1521001832, 3605886097, 2802786495, 2728923319, 3996284304,
   903417639, 1171249804, 1020374987, 2824535874, 423621996, 1988534473, 2493544470, 1008604435,
   1756003503, 1488867287, 1386808992, 732088248, 1780630732, 2482101014, 976561178, 1543448953,
   2602866064, 2021139923, 1952599828, 2360242564, 2117959962, 2753061860, 2388623612, 4138193781,
   2962920654, 2284970429, 766920861, 3457264692, 2879611383, 815055854, 2332929068, 1254853997,
   3740375268, 3799380844, 4091048725, 2006331129, 1982546212, 686850534, 1907447564, 2682801776,
   2780821066, 998290361, 1342433871, 4195430425, 607905174, 3902331779, 2454067926, 1708133115,
   1170874362, 2008609376, 3260320415, 2211196135, 433538229, 2728786374, 2189520818, 262554063,
   1182318347, 3710237267, 1221022450, 715966018, 2417068910, 2591870721, 2870691989, 3418190842,
   4238214053, 1540704231, 1575580968, 2095917976, 4078310857, 2313532447, 2110690783, 4056346629,
   4061784526, 1123218514, 551538993, 597148360, 4120175196, 3581618160, 3181170517, 422862282,
   3227524138, 1713114790, 662317149, 1230418732, 928171837, 1324564878, 1928816105, 1786535431,
   2878099422, 3290185549, 539474248, 1657512683, 552370646, 1671741683, 3655312128, 1552739510,
   2605208763, 1441755014, 181878989, 3124053868, 1447103986, 3183906156, 1728556020, 3502241336,
   3055466967, 1013272474, 818402132, 1715099063, 2900113506, 397254517, 4194863039, 1009068739,
   232864647, 2540223708, 2608288560, 2415367765, 478404847, 3455100648, 3182600021, 2115988978,
   434269567, 4117179324, 3461774077, 887256537, 3545801025, 286388911, 3451742129, 1981164769,
   786667016, 3310123729, 3097811076, 2224235657, 2959658883, 3370969234, 2514770915, 3345656436,
   2677010851, 2206236470, 271648054, 2342188545, 4292848611, 3646533909, 3754009956, 3803931226,
   4160647125, 1477814055, 4043852216, 1876372354, 3133294443, 3871104810, 3177020907, 2074304428,
   3479393793, 759562891, 164128153, 1839069216, 2114162633, 3989947309, 3611054956, 1333547922,
   835429831, 494987340, 171987910, 1252001001, 370809172, 3508925425, 2535703112, 1276855041,
   1922855120, 835673414, 3030664304, 613287117, 171219893, 3423096126, 3376881639, 2287770315,
   1658692645, 1262815245, 3957234326, 1168096164, 2968737525, 2655813712, 2132313144, 3976047964,
   326516571, 353088456, 3679188938, 3205649712, 2654036126, 1249024881, 880166166, 691800469,
   2229503665, 1673458056, 4032208375, 1851778863, 2563757330, 376742205, 1794655231, 340247333,
   1505873033, 396524441, 879666767, 3335579166, 3260764261, 3335999539, 506221798, 4214658741,
   975887814, 2080536343, 3360539560, 571586418, 138896374, 4234352651, 2737620262, 3928362291,
   1516365296, 38056726, 3599462320, 3585007266, 3850961033, 471667319, 1536883193, 2310166751,
   1861637689, 2530999841, 4139843801, 2710569485, 827578615, 2012334720, 2907369459, 3029312804,
   2820112398, 1965028045, 35518606, 2478379033, 643747771, 1924139484, 4123405127, 3811735531,
   3429660832, 3285177704, 1948416081, 1311525291, 1183517742, 1739192232, 3979815115, 2567840007,
   4116821529, 213304419, 4125718577, 1473064925, 2442436592, 1893310111, 4195361916, 3747569474,
   828465101, 2991227658, 750582866, 1205170309, 1409813056, 678418130, 1171531016, 3821236156,
   354504587, 4202874632, 3882511497, 1893248677, 1903078632, 26340130, 2069166240, 3657122492,
   3725758099, 831344905, 811453383, 3447711422, 2434543565, 4166886888, 3358210805, 4142984013,
   2988152326, 3527824853, 982082992, 2809155763, 190157081, 3340214818, 2365432395, 2548636180,
   2894533366, 3474657421, 2372634704, 2845748389, 43024175, 2774226648, 1987702864, 3186502468,
   453610222, 4204736567, 1392892630, 2471323686, 2470534280, 3541393095, 4269885866, 3909911300,
   759132955, 1482612480, 667715263, 1795580598, 2337923983, 3390586366, 581426223, 1515718634,
   476374295, 705213300, 363062054, 2084697697, 2407503428, 2292957699, 2426213835, 2199989172,
   1987356470, 4026755612, 2147252133, 270400031, 1367820199, 2369854699, 2844269403, 79981964]

/-- The block seeded with 5489 after the first 130 iterations of the twist
loop; reference data staging the C1 evaluation. -/
def mtTwistStage5_5489 : List ℕ :=
  [2601187879, 3919438689, 2270374771, 3254473187, 705526435, 752899028, 4259895275, 1635503293,
   287311810, 3348146311, 587101971, 1133963260, 197444494, 1569747226, 2853653046, 3654449492,
   3823320007, 1939491435, 191871982, 2550916200, 2586577334, 1836795533, 2550787344, 3774101499,
   499856526, 4035163043, 969324510, 502882529, 3747915135, 3677962142, 4247339488, 668043123,
   3114378363, 585508492, 542098765, 4155704470, 3660917119, 126230230, 1522675206, 153049183,
   1637257449, 3281868928, 979462891, 1058287769, 61525060, 3887730846, 3905100104, 1956723994,
   4085220955, 3202629445, 4112745420, 877772572, 3341645661, 331737137, 2270305335, 159419296,
   2503600762, 451751822, 1083485811, 1445113017, 150608331, 422828708, 2507709208, 3804045526,
   2086909439, 4090458745, 1662894632, 2371871123, 3266028938, 3412874573, 1564584271, 4167008239,
   319160793, 1225298391, 4161956981, 3585990452, 2573113091, 1630884103, 997591457, 996494329,
   2686829642, 3651385850, 300660150, 251233608, 2731448254, 3271745554, 1133669415, 2602763402,
   3609598910, 3119890150, 2068448659, 2512941629, 2192028056, 3536672045, 1605585867, 987929371,
   3628305377, 3597455410, 3551228490, 4133937922, 2490571536, 3920924840, 3569243872, 3272512015,
   1796837098, 1735422750, 3686651765, 3897135636, 1148857629, 783899959, 2380757210, 1621036080,
   2512995685, 1314946383, 195879552, 1712690214, 134121293, 2558246413, 1909295793, 4011814961,
   3584678033, 3552917322, 2895522131, 2197479543, 599948941, 3054641120, 1896938373, 3039964013,
   1872754348, 3148850798, 2915734330, 2688355739, 3482074849, 2736559, 2296975761, 1029741190,
   2876812646, 690154749, 579200347, 4027461746, 1285330465, 2701024045, 4117700889, 759495121,
   3332270341, 2313004527, 2277067795, 4131855432, 2722057515, 1264804546, 3848622725, 2211267957,
   4100593547, 959123777, 2130745407, 3194437393, 486673947, 1377371204, 17472727, 352317554,
   3955548058, 159652094, 1232063192, 3835177280, 49423123, 3083993636, 733092, 2120519771,
   2573409834, 1112952433, 3239502554, 761045320, 1087580692, 2540165110, 641058802, 1792435497,
   2261799288, 1579184083, 627146892, 2165744623, 2200142389, 2167590760, 2381418376, 1793358889,
   3081659520, 1663384067, 2009658756, 2689600308, 739136266, 2304581039, 3529067263, 591360555,
   525209271, 3131882996, 294230224, 2076220115, 3113580446, 1245621585, 1386885462, 3203270426,
   123512128, 12350217, 354956375, 4282398238, 3356876605, 3888857667, 157639694, 2616064085,
   1563068963, 2762125883, 4045394511, 4180452559, 3294769488, 1684529556, 1002945951, 3181438866,
   22506664, 691783457, 2685221343, 171579916, 3878728600, 2475806724, 2030324028, 3331164912,
   1708711359, 1970023127, 2859691344, 2588476477, 2748146879, 136111222, 2967685492, 909517429,
   2835297809, 3206906216, 3186870716, 341264097, 2542035121, 3353277068, 548223577, 3170936588,
   1678403446, 297435620, 2337555430, 466603495, 1132321815, 1208589219, 696392160, 894244439,
   2562678859, 470224582, 3306867480, 201364898, 2075966438, 1767227936, 2929737987, 3674877796,
   2654196643, 3692734598, 3528895099, 2796780123, 3048728353, 842329300, 191554730, 2922459673,
   3489020079, 3979110629, 1022523848, 2202932467, 3583655201, 3565113719, 587085778, 4176046313,
   3013713762, 950944241, 396426791, 3784844662, 3477431613, 3594592395, 2782043838, 3392093507,
   3106564952, 2829419931, 1358665591, 2206918825, 3170783123, 31522386, 2988194168, 1782249537,
   1105080928, 843500134, 1225290080, 1521001832, 3605886097, 2802786495, 2728923319, 3996284304,
   903417639, 1171249804, 1020374987, 2824535874, 423621996, 1988534473, 2493544470, 1008604435,
   1756003503, 1488867287, 1386808992, 732088248, 1780630732, 2482101014, 976561178, 1543448953,
   2602866064, 2021139923, 1952599828, 2360242564, 2117959962, 2753061860, 2388623612, 4138193781,
   2962920654, 2284970429, 766920861, 3457264692, 2879611383, 815055854, 2332929068, 1254853997,
   3740375268, 3799380844, 4091048725, 2006331129, 1982546212, 686850534, 1907447564, 2682801776,
   2780821066, 998290361, 1342433871, 4195430425, 607905174, 3902331779, 2454067926, 1708133115,
   1170874362, 2008609376, 3260320415, 2211196135, 433538229, 2728786374, 2189520818, 262554063,
   1182318347, 3710237267, 1221022450, 715966018, 2417068910, 2591870721, 2870691989, 3418190842,
   4238214053, 1540704231, 1575580968, 2095917976, 4078310857, 2313532447, 2110690783, 4056346629,
   4061784526, 1123218514, 551538993, 597148360, 4120175196, 3581618160, 3181170517, 422862282,
   3227524138, 1713114790, 662317149, 1230418732, 928171837, 1324564878, 1928816105, 1786535431,
   2878099422, 3290185549, 539474248, 1657512683, 552370646, 1671741683, 3655312128, 1552739510,
   2605208763, 1441755014, 181878989, 3124053868, 1447103986, 3183906156, 1728556020, 3502241336,
   3055466967, 1013272474, 818402132, 1715099063, 2900113506, 397254517, 4194863039, 1009068739,
   232864647, 2540223708, 2608288560, 2415367765, 478404847, 3455100648, 3182600021, 2115988978,
   434269567, 4117179324, 3461774077, 887256537, 3545801025, 286388911, 3451742129, 1981164769,
   786667016, 3310123729, 3097811076, 2224235657, 2959658883, 3370969234, 2514770915, 3345656436,
   2677010851, 2206236470, 271648054, 2342188545, 4292848611, 3646533909, 3754009956, 3803931226,
   4160647125, 1477814055, 4043852216, 1876372354, 3133294443, 3871104810, 3177020907, 2074304428,
   3479393793, 759562891, 164128153, 1839069216, 2114162633, 3989947309, 3611054956, 1333547922,
   835429831, 494987340, 171987910, 1252001001, 370809172, 3508925425, 2535703112, 1276855041,
   1922855120, 835673414, 3030664304, 613287117, 171219893, 3423096126, 3376881639, 2287770315,
   1658692645, 1262815245, 3957234326, 1168096164, 2968737525, 2655813712, 2132313144, 3976047964,
   326516571, 353088456, 3679188938, 3205649712, 2654036126, 1249024881, 880166166, 691800469,
   2229503665, 1673458056, 4032208375, 1851778863, 2563757330, 376742205, 1794655231, 340247333,
   1505873033, 396524441, 879666767, 3335579166, 3260764261, 3335999539, 506221798, 4214658741,
   975887814, 2080536343, 3360539560, 571586418, 138896374, 4234352651, 2737620262, 3928362291,
   1516365296, 38056726, 3599462320, 3585007266, 3850961033, 471667319, 1536883193, 2310166751,
   1861637689, 2530999841, 4139843801, 2710569485, 827578615, 2012334720, 2907369459, 3029312804,
   2820112398, 1965028045, 35518606, 2478379033, 643747771, 1924139484, 4123405127, 3811735531,
   3429660832, 3285177704, 1948416081, 1311525291, 1183517742, 1739192232, 3979815115, 2567840007,
   4116821529, 213304419, 4125718577, 1473064925, 2442436592, 1893310111, 4195361916, 3747569474,
   828465101, 2991227658, 750582866, 1205170309, 1409813056, 678418130, 1171531016, 3821236156,
   354504587, 4202874632, 3882511497, 1893248677, 1903078632, 26340130, 2069166240, 3657122492,
   3725758099, 831344905, 811453383, 3447711422, 2434543565, 4166886888, 3358210805, 4142984013,
   2988152326, 3527824853, 982082992, 2809155763, 190157081, 3340214818, 2365432395, 2548636180,
   2894533366, 3474657421, 2372634704, 2845748389, 43024175, 2774226648, 1987702864, 3186502468,
   453610222, 4204736567, 1392892630, 2471323686, 2470534280, 3541393095, 4269885866, 3909911300,
   759132955, 1482612480, 667715263, 1795580598, 2337923983, 3390586366, 581426223, 1515718634,
   476374295, 705213300, 363062054, 2084697697, 2407503428, 2292957699, 2426213835, 2199989172,
   1987356470, 4026755612, 2147252133, 270400031, 1367820199, 2369854699, 2844269403, 79981964]

/-- The block seeded with 5489 after the first 156 iterations of the twist
loop; reference data staging the C1 evaluation. -/
def mtTwistStage6_5489 : List ℕ :=
  [2601187879, 3919438689, 2270374771, 3254473187, 705526435, 752899028, 4259895275, 1635503293,
   287311810, 3348146311, 587101971, 1133963260, 197444494, 1569747226, 2853653046, 3654449492,
   3823320007, 1939491435, 191871982, 2550916200, 2586577334, 1836795533, 2550787344, 3774101499,
   499856526, 4035163043, 969324510, 502882529, 3747915135, 3677962142, 4247339488, 668043123,
   3114378363, 585508492, 542098765, 4155704470, 3660917119, 126230230, 1522675206, 153049183,
   1637257449, 3281868928, 979462891, 1058287769, 61525060, 3887730846, 3905100104, 1956723994,
   4085220955, 3202629445, 4112745420, 877772572, 3341645661, 331737137, 2270305335, 159419296,
   2503600762, 451751822, 1083485811, 1445113017, 150608331, 422828708, 2507709208, 3804045526,
   2086909439, 4090458745, 1662894632, 2371871123, 3266028938, 3412874573, 1564584271, 4167008239,
   319160793, 1225298391, 4161956981, 3585990452, 2573113091, 1630884103, 997591457, 996494329,
   2686829642, 3651385850, 300660150, 251233608, 2731448254, 3271745554, 1133669415, 2602763402,
   3609598910, 3119890150, 2068448659, 2512941629, 2192028056, 3536672045, 1605585867, 987929371,
   3628305377, 3597455410, 3551228490, 4133937922, 2490571536, 3920924840, 3569243872, 3272512015,
   1796837098, 1735422750, 3686651765, 3897135636, 1148857629, 783899959, 2380757210, 1621036080,
   2512995685, 1314946383, 195879552, 1712690214, 134121293, 2558246413, 1909295793, 4011814961,
   3584678033, 3552917322, 2895522131, 2197479543, 599948941, 3054641120, 1896938373, 3039964013,
   1872754348, 3148850798, 2107216694, 1457074081, 2885919429, 2673983641, 3439943002, 870488328,
   3207188349, 2106353973, 3677712338, 858424175, 1253591073, 2543671298, 2173076892, 4241262707,
   3125777792, 937639453, 3794644771, 1031184467, 1762096386, 1582522796, 2401451448, 1923687658,
   3041175264, 1553520828, 1499754517, 3874023455, 486673947, 1377371204, 17472727, 352317554,
   3955548058, 159652094, 1232063192, 3835177280, 49423123, 3083993636, 733092, 2120519771,
   2573409834, 1112952433, 3239502554, 761045320, 1087580692, 2540165110, 641058802, 1792435497,
   2261799288, 1579184083, 627146892, 2165744623, 2200142389, 2167590760, 2381418376, 1793358889,
   3081659520, 1663384067, 2009658756, 2689600308, 739136266, 2304581039, 3529067263, 591360555,
   525209271, 3131882996, 294230224, 2076220115, 3113580446, 1245621585, 1386885462, 3203270426,
   123512128, 12350217, 354956375, 4282398238, 3356876605, 3888857667, 157639694, 2616064085,
   1563068963, 2762125883, 4045394511, 4180452559, 3294769488, 1684529556, 1002945951, 3181438866,
   22506664, 691783457, 2685221343, 171579916, 3878728600, 2475806724, 2030324028, 3331164912,
   1708711359, 1970023127, 2859691344, 2588476477, 2748146879, 136111222, 2967685492, 909517429,
   2835297809, 3206906216, 3186870716, 341264097, 2542035121, 3353277068, 548223577, 3170936588,
   1678403446, 297435620, 2337555430, 466603495, 1132321815, 1208589219, 696392160, 894244439,
   2562678859, 470224582, 3306867480, 201364898, 2075966438, 1767227936, 2929737987, 3674877796,
   2654196643, 3692734598, 3528895099, 2796780123, 3048728353, 842329300, 191554730, 2922459673,
   3489020079, 3979110629, 1022523848, 2202932467, 3583655201, 3565113719, 587085778, 4176046313,
   3013713762, 950944241, 396426791, 3784844662, 3477431613, 3594592395, 2782043838, 3392093507,
   3106564952, 2829419931, 1358665591, 2206918825, 3170783123, 31522386, 2988194168, 1782249537,
   1105080928, 843500134, 1225290080, 1521001832, 3605886097, 2802786495, 2728923319, 3996284304,
   903417639, 1171249804, 1020374987, 2824535874, 423621996, 1988534473, 2493544470, 1008604435,
   1756003503, 1488867287, 1386808992, 732088248, 1780630732, 2482101014, 976561178, 1543448953,
   2602866064, 2021139923, 1952599828, 2360242564, 2117959962, 2753061860, 2388623612, 4138193781,
   2962920654, 2284970429, 766920861, 3457264692, 2879611383, 815055854, 2332929068, 1254853997,
   3740375268, 3799380844, 4091048725, 2006331129, 1982546212, 686850534, 1907447564, 2682801776,
   2780821066, 998290361, 1342433871, 4195430425, 607905174, 3902331779, 2454067926, 1708133115,
   1170874362, 2008609376, 3260320415, 2211196135, 433538229, 2728786374, 2189520818, 262554063,
   1182318347, 3710237267, 1221022450, 715966018, 2417068910, 2591870721, 2870691989, 3418190842,
   4238214053, 1540704231, 1575580968, 2095917976, 4078310857, 2313532447, 2110690783, 4056346629,
   4061784526, 1123218514, 551538993, 597148360, 4120175196, 3581618160, 3181170517, 422862282,
   3227524138, 1713114790, 662317149, 1230418732, 928171837, 1324564878, 1928816105, 1786535431,
   2878099422, 3290185549, 539474248, 1657512683, 552370646, 1671741683, 3655312128, 1552739510,
   2605208763, 1441755014, 181878989, 3124053868, 1447103986, 3183906156, 1728556020, 3502241336,
   3055466967, 1013272474, 818402132, 1715099063, 2900113506, 397254517, 4194863039, 1009068739,
   232864647, 2540223708, 2608288560, 2415367765, 478404847, 3455100648, 3182600021, 2115988978,
   434269567, 4117179324, 3461774077, 887256537, 3545801025, 286388911, 3451742129, 1981164769,
   786667016, 3310123729, 3097811076, 2224235657, 2959658883, 3370969234, 2514770915, 3345656436,
   2677010851, 2206236470, 271648054, 2342188545, 4292848611, 3646533909, 3754009956, 3803931226,
   4160647125, 1477814055, 4043852216, 1876372354, 3133294443, 3871104810, 3177020907, 2074304428,
   3479393793, 759562891, 164128153, 1839069216, 2114162633, 3989947309, 3611054956, 1333547922,
   835429831, 494987340, 171987910, 1252001001, 370809172, 3508925425, 2535703112, 1276855041,
   1922855120, 835673414, 3030664304, 613287117, 171219893, 3423096126, 3376881639, 2287770315,
   1658692645, 1262815245, 3957234326, 1168096164, 2968737525, 2655813712, 2132313144, 3976047964,
   326516571, 353088456, 3679188938, 3205649712, 2654036126, 1249024881, 880166166, 691800469,
   2229503665, 1673458056, 4032208375, 1851778863, 2563757330, 376742205, 1794655231, 340247333,
   1505873033, 396524441, 879666767, 3335579166, 3260764261, 3335999539, 506221798, 4214658741,
   975887814, 2080536343, 3360539560, 571586418, 138896374, 4234352651, 2737620262, 3928362291,
   1516365296, 38056726, 3599462320, 3585007266, 3850961033, 471667319, 1536883193, 2310166751,
   1861637689, 2530999841, 4139843801, 2710569485, 827578615, 2012334720, 2907369459, 3029312804,
   2820112398, 1965028045, 35518606, 2478379033, 643747771, 1924139484, 4123405127, 3811735531,
   3429660832, 3285177704, 1948416081, 1311525291, 1183517742, 1739192232, 3979815115, 2567840007,
   4116821529, 213304419, 4125718577, 1473064925, 2442436592, 1893310111, 4195361916, 3747569474,
   828465101, 2991227658, 750582866, 1205170309, 1409813056, 678418130, 1171531016, 3821236156,
   354504587, 4202874632, 3882511497, 1893248677, 1903078632, 26340130, 2069166240, 3657122492,
   3725758099, 831344905, 811453383, 3447711422, 2434543565, 4166886888, 3358210805, 4142984013,
   2988152326, 3527824853, 982082992, 2809155763, 190157081, 3340214818, 2365432395, 2548636180,
   2894533366, 3474657421, 2372634704, 2845748389, 43024175, 2774226648, 1987702864, 3186502468,
   453610222, 4204736567, 1392892630, 2471323686, 2470534280, 3541393095, 4269885866, 3909911300,
   759132955, 1482612480, 667715263, 1795580598, 2337923983, 3390586366, 581426223, 1515718634,
   476374295, 705213300, 363062054, 2084697697, 2407503428, 2292957699, 2426213835, 2199989172,
   1987356470, 4026755612, 2147252133, 270400031, 1367820199, 2369854699, 2844269403, 79981964]

/-- The block seeded with 5489 after the first 182 iterations of the twist
loop; reference data staging the C1 evaluation. -/
def mtTwistStage7_5489 : List ℕ :=
  [2601187879, 3919438689, 2270374771, 3254473187, 705526435, 752899028, 4259895275, 1635503293,
   287311810, 3348146311, 587101971, 1133963260, 197444494, 1569747226, 2853653046, 3654449492,
   3823320007, 1939491435, 191871982, 2550916200, 2586577334, 1836795533, 2550787344, 3774101499,
   499856526, 4035163043, 969324510, 502882529, 3747915135, 3677962142, 4247339488, 668043123,
   3114378363, 585508492, 542098765, 4155704470, 3660917119, 126230230, 1522675206, 153049183,
   1637257449, 3281868928, 979462891, 1058287769, 61525060, 3887730846, 3905100104, 1956723994,
   4085220955, 3202629445, 4112745420, 877772572, 3341645661, 331737137, 2270305335, 159419296,
   2503600762, 451751822, 1083485811, 1445113017, 150608331, 422828708, 2507709208, 3804045526,
   2086909439, 4090458745, 1662894632, 2371871123, 3266028938, 3412874573, 1564584271, 4167008239,
   319160793, 1225298391, 4161956981, 3585990452, 2573113091, 1630884103, 997591457, 996494329,
   2686829642, 3651385850, 300660150, 251233608, 2731448254, 3271745554, 1133669415, 2602763402,
   3609598910, 3119890150, 2068448659, 2512941629, 2192028056, 3536672045, 1605585867, 987929371,
   3628305377, 3597455410, 3551228490, 4133937922, 2490571536, 3920924840, 3569243872, 3272512015,
   1796837098, 1735422750, 3686651765, 3897135636, 1148857629, 783899959, 2380757210, 1621036080,
   2512995685, 1314946383, 195879552, 1712690214, 134121293, 2558246413, 1909295793, 4011814961,
   3584678033, 3552917322, 2895522131, 2197479543, 599948941, 3054641120, 1896938373, 3039964013,
   1872754348, 3148850798, 2107216694, 1457074081, 2885919429, 2673983641, 3439943002, 870488328,
   3207188349, 2106353973, 3677712338, 858424175, 1253591073, 2543671298, 2173076892, 4241262707,
   3125777792, 937639453, 3794644771, 1031184467, 1762096386, 1582522796, 2401451448, 1923687658,
   3041175264, 1553520828, 1499754517, 3874023455, 2605056296, 3039888102, 1303021756, 1642751373,
   1823333037, 1633927268, 3515841308, 3444633309, 3781936666, 2809133915, 3605157463, 2111775741,
   4189224133, 1541376461, 2404717080, 4269480857, 977189618, 1665607742, 1629250805, 2457077617,
   239411934, 3667589811, 1869810277, 1786963907, 2464100961, 2087821940, 2381418376, 1793358889,
   3081659520, 1663384067, 2009658756, 2689600308, 739136266, 2304581039, 3529067263, 591360555,
   525209271, 3131882996, 294230224, 2076220115, 3113580446, 1245621585, 1386885462, 3203270426,
   123512128, 12350217, 354956375, 4282398238, 3356876605, 3888857667, 157639694, 2616064085,
   1563068963, 2762125883, 4045394511, 4180452559, 3294769488, 1684529556, 1002945951, 3181438866,
   22506664, 691783457, 2685221343, 171579916, 3878728600, 2475806724, 2030324028, 3331164912,
   1708711359, 1970023127, 2859691344, 2588476477, 2748146879, 136111222, 2967685492, 909517429,
   2835297809, 3206906216, 3186870716, 341264097, 2542035121, 3353277068, 548223577, 3170936588,
   1678403446, 297435620, 2337555430, 466603495, 1132321815, 1208589219, 696392160, 894244439,
   2562678859, 470224582, 3306867480, 201364898, 2075966438, 1767227936, 2929737987, 3674877796,
   2654196643, 3692734598, 3528895099, 2796780123, 3048728353, 842329300, 191554730, 2922459673,
   3489020079, 3979110629, 1022523848, 2202932467, 3583655201, 3565113719, 587085778, 4176046313,
   3013713762, 950944241, 396426791, 3784844662, 3477431613, 3594592395, 2782043838, 3392093507,
   3106564952, 2829419931, 1358665591, 2206918825, 3170783123, 31522386, 2988194168, 1782249537,
   1105080928, 843500134, 1225290080, 1521001832, 3605886097, 2802786495, 2728923319, 3996284304,
   903417639, 1171249804, 1020374987, 2824535874, 423621996, 1988534473, 2493544470, 1008604435,
   1756003503, 1488867287, 1386808992, 732088248, 1780630732, 2482101014, 976561178, 1543448953,
   2602866064, 2021139923, 1952599828, 2360242564, 2117959962, 2753061860, 2388623612, 4138193781,
   2962920654, 2284970429, 766920861, 3457264692, 2879611383, 815055854, 2332929068, 1254853997,
   3740375268, 3799380844, 4091048725, 2006331129, 1982546212, 686850534, 1907447564, 2682801776,
   2780821066, 998290361, 1342433871, 4195430425, 607905174, 3902331779, 2454067926, 1708133115,
   1170874362, 2008609376, 3260320415, 2211196135, 433538229, 2728786374, 2189520818, 262554063,
   1182318347, 3710237267, 1221022450, 715966018, 2417068910, 2591870721, 2870691989, 3418190842,
   4238214053, 1540704231, 1575580968, 2095917976, 4078310857, 2313532447, 2110690783, 4056346629,
   4061784526, 1123218514, 551538993, 597148360, 4120175196, 3581618160, 3181170517, 422862282,
   3227524138, 1713114790, 662317149, 1230418732, 928171837, 1324564878, 1928816105, 1786535431,
   2878099422, 3290185549, 539474248, 1657512683, 552370646, 1671741683, 3655312128, 1552739510,
   2605208763, 1441755014, 181878989, 3124053868, 1447103986, 3183906156, 1728556020, 3502241336,
   3055466967, 1013272474, 818402132, 1715099063, 2900113506, 397254517, 4194863039, 1009068739,
   232864647, 2540223708, 2608288560, 2415367765, 478404847, 3455100648, 3182600021, 2115988978,
   434269567, 4117179324, 3461774077, 887256537, 3545801025, 286388911, 3451742129, 1981164769,
   786667016, 3310123729, 3097811076, 2224235657, 2959658883, 3370969234, 2514770915, 3345656436,
   2677010851, 2206236470, 271648054, 2342188545, 4292848611, 3646533909, 3754009956, 3803931226,
   4160647125, 1477814055, 4043852216, 1876372354, 3133294443, 3871104810, 3177020907, 2074304428,
   3479393793, 759562891, 164128153, 1839069216, 2114162633, 3989947309, 3611054956, 1333547922,
   835429831, 494987340, 171987910, 1252001001, 370809172, 3508925425, 2535703112, 1276855041,
   1922855120, 835673414, 3030664304, 613287117, 171219893, 3423096126, 3376881639, 2287770315,
   1658692645, 1262815245, 3957234326, 1168096164, 2968737525, 2655813712, 2132313144, 3976047964,
   326516571, 353088456, 3679188938, 3205649712, 2654036126, 1249024881, 880166166, 691800469,
   2229503665, 1673458056, 4032208375, 1851778863, 2563757330, 376742205, 1794655231, 340247333,
   1505873033, 396524441, 879666767, 3335579166, 3260764261, 3335999539, 506221798, 4214658741,
   975887814, 2080536343, 3360539560, 571586418, 138896374, 4234352651, 2737620262, 3928362291,
   1516365296, 38056726, 3599462320, 3585007266, 3850961033, 471667319, 1536883193, 2310166751,
   1861637689, 2530999841, 4139843801, 2710569485, 827578615, 2012334720, 2907369459, 3029312804,
   2820112398, 1965028045, 35518606, 2478379033, 643747771, 1924139484, 4123405127, 3811735531,
   3429660832, 3285177704, 1948416081, 1311525291, 1183517742, 1739192232, 3979815115, 2567840007,
   4116821529, 213304419, 4125718577, 1473064925, 2442436592, 1893310111, 4195361916, 3747569474,
   828465101, 2991227658, 750582866, 1205170309, 1409813056, 678418130, 1171531016, 3821236156,
   354504587, 4202874632, 3882511497, 1893248677, 1903078632, 26340130, 2069166240, 3657122492,
   3725758099, 831344905, 811453383, 3447711422, 2434543565, 4166886888, 3358210805, 4142984013,
   2988152326, 3527824853, 982082992, 2809155763, 190157081, 3340214818, 2365432395, 2548636180,
   2894533366, 3474657421, 2372634704, 2845748389, 43024175, 2774226648, 1987702864, 3186502468,
   453610222, 4204736567, 1392892630, 2471323686, 2470534280, 3541393095, 4269885866, 3909911300,
   759132955, 1482612480, 667715263, 1795580598, 2337923983, 3390586366, 581426223, 1515718634,
   476374295, 705213300, 363062054, 2084697697, 2407503428, 2292957699, 2426213835, 2199989172,
   1987356470, 4026755612, 2147252133, 270400031, 1367820199, 2369854699, 2844269403, 79981964]

/-- The block seeded with 5489 after the first 208 iterations of the twist
loop; reference data staging the C1 evaluation. -/
def mtTwistStage8_5489 : List ℕ :=
  [2601187879, 3919438689, 2270374771, 3254473187, 705526435, 752899028, 4259895275, 1635503293,
   287311810, 3348146311, 587101971, 1133963260, 197444494, 1569747226, 2853653046, 3654449492,
   3823320007, 1939491435, 191871982, 2550916200, 2586577334, 1836795533, 2550787344, 3774101499,
   499856526, 4035163043, 969324510, 502882529, 3747915135, 3677962142, 4247339488, 668043123,
   3114378363, 585508492, 542098765, 4155704470, 3660917119, 126230230, 1522675206, 153049183,
   1637257449, 3281868928, 979462891, 1058287769, 61525060, 3887730846, 3905100104, 1956723994,
   4085220955, 3202629445, 4112745420, 877772572, 3341645661, 331737137, 2270305335, 159419296,
   2503600762, 451751822, 1083485811, 1445113017, 150608331, 422828708, 2507709208, 3804045526,
   2086909439, 4090458745, 1662894632, 2371871123, 3266028938, 3412874573, 1564584271, 4167008239,
   319160793, 1225298391, 4161956981, 3585990452, 2573113091, 1630884103, 997591457, 996494329,
   2686829642, 3651385850, 300660150, 251233608, 2731448254, 3271745554, 1133669415, 2602763402,
   3609598910, 3119890150, 2068448659, 2512941629, 2192028056, 3536672045, 1605585867, 987929371,
   3628305377, 3597455410, 3551228490, 4133937922, 2490571536, 3920924840, 3569243872, 3272512015,
   1796837098, 1735422750, 3686651765, 3897135636, 1148857629, 783899959, 2380757210, 1621036080,
   2512995685, 1314946383, 195879552, 1712690214, 134121293, 2558246413, 1909295793, 4011814961,
   3584678033, 3552917322, 2895522131, 2197479543, 599948941, 3054641120, 1896938373, 3039964013,
   1872754348, 3148850798, 2107216694, 1457074081, 2885919429, 2673983641, 3439943002, 870488328,
   3207188349, 2106353973, 3677712338, 858424175, 1253591073, 2543671298, 2173076892, 4241262707,
   3125777792, 937639453, 3794644771, 1031184467, 1762096386, 1582522796, 2401451448, 1923687658,
   3041175264, 1553520828, 1499754517, 3874023455, 2605056296, 3039888102, 1303021756, 1642751373,
   1823333037, 1633927268, 3515841308, 3444633309, 3781936666, 2809133915, 3605157463, 2111775741,
   4189224133, 1541376461, 2404717080, 4269480857, 977189618, 1665607742, 1629250805, 2457077617,
   239411934, 3667589811, 1869810277, 1786963907, 2464100961, 2087821940, 1259003512, 276996953,
   797806588, 3071924361, 2277580686, 4202707827, 1388129925, 2102369776, 1628022127, 2487208107,
   3087861794, 1052589112, 419878642, 130232609, 109631040, 2052113021, 2352638891, 3505327656,
   1245960092, 1830675294, 3601635339, 3493669978, 2998128382, 1669215416, 4294454851, 2093225537,
   1563068963, 2762125883, 4045394511, 4180452559, 3294769488, 1684529556, 1002945951, 3181438866,
   22506664, 691783457, 2685221343, 171579916, 3878728600, 2475806724, 2030324028, 3331164912,
   1708711359, 1970023127, 2859691344, 2588476477, 2748146879, 136111222, 2967685492, 909517429,
   2835297809, 3206906216, 3186870716, 341264097, 2542035121, 3353277068, 548223577, 3170936588,
   1678403446, 297435620, 2337555430, 466603495, 1132321815, 1208589219, 696392160, 894244439,
   2562678859, 470224582, 3306867480, 201364898, 2075966438, 1767227936, 2929737987, 3674877796,
   2654196643, 3692734598, 3528895099, 2796780123, 3048728353, 842329300, 191554730, 2922459673,
   3489020079, 3979110629, 1022523848, 2202932467, 3583655201, 3565113719, 587085778, 4176046313,
   3013713762, 950944241, 396426791, 3784844662, 3477431613, 3594592395, 2782043838, 3392093507,
   3106564952, 2829419931, 1358665591, 2206918825, 3170783123, 31522386, 2988194168, 1782249537,
   1105080928, 843500134, 1225290080, 1521001832, 3605886097, 2802786495, 2728923319, 3996284304,
   903417639, 1171249804, 1020374987, 2824535874, 423621996, 1988534473, 2493544470, 1008604435,
   1756003503, 1488867287, 1386808992, 732088248, 1780630732, 2482101014, 976561178, 1543448953,
   2602866064, 2021139923, 1952599828, 2360242564, 2117959962, 2753061860, 2388623612, 4138193781,
   2962920654, 2284970429, 766920861, 3457264692, 2879611383, 815055854, 2332929068, 1254853997,
   3740375268, 3799380844, 4091048725, 2006331129, 1982546212, 686850534, 1907447564, 2682801776,
   2780821066, 998290361, 1342433871, 4195430425, 607905174, 3902331779, 2454067926, 1708133115,
   1170874362, 2008609376, 3260320415, 2211196135, 433538229, 2728786374, 2189520818, 262554063,
   1182318347, 3710237267, 1221022450, 715966018, 2417068910, 2591870721, 2870691989, 3418190842,
   4238214053, 1540704231, 1575580968, 2095917976, 4078310857, 2313532447, 2110690783, 4056346629,
   4061784526, 1123218514, 551538993, 597148360, 4120175196, 3581618160, 3181170517, 422862282,
   3227524138, 1713114790, 662317149, 1230418732, 928171837, 1324564878, 1928816105, 1786535431,
   2878099422, 3290185549, 539474248, 1657512683, 552370646, 1671741683, 3655312128, 1552739510,
   2605208763, 1441755014, 181878989, 3124053868, 1447103986, 3183906156, 1728556020, 3502241336,
   3055466967, 1013272474, 818402132, 1715099063, 2900113506, 397254517, 4194863039, 1009068739,
   232864647, 2540223708, 2608288560, 2415367765, 478404847, 3455100648, 3182600021, 2115988978,
   434269567, 4117179324, 3461774077, 887256537, 3545801025, 286388911, 3451742129, 1981164769,
   786667016, 3310123729, 3097811076, 2224235657, 2959658883, 3370969234, 2514770915, 3345656436,
   2677010851, 2206236470, 271648054, 2342188545, 4292848611, 3646533909, 3754009956, 3803931226,
   4160647125, 1477814055, 4043852216, 1876372354, 3133294443, 3871104810, 3177020907, 2074304428,
   3479393793, 759562891, 164128153, 1839069216, 2114162633, 3989947309, 3611054956, 1333547922,
   835429831, 494987340, 171987910, 1252001001, 370809172, 3508925425, 2535703112, 1276855041,
   1922855120, 835673414, 3030664304, 613287117, 171219893, 3423096126, 3376881639, 2287770315,
   1658692645, 1262815245, 3957234326, 1168096164, 2968737525, 2655813712, 2132313144, 3976047964,
   326516571, 353088456, 3679188938, 3205649712, 2654036126, 1249024881, 880166166, 691800469,
   2229503665, 1673458056, 4032208375, 1851778863, 2563757330, 376742205, 1794655231, 340247333,
   1505873033, 396524441, 879666767, 3335579166, 3260764261, 3335999539, 506221798, 4214658741,
   975887814, 2080536343, 3360539560, 571586418, 138896374, 4234352651, 2737620262, 3928362291,
   1516365296, 38056726, 3599462320, 3585007266, 3850961033, 471667319, 1536883193, 2310166751,
   1861637689, 2530999841, 4139843801, 2710569485, 827578615, 2012334720, 2907369459, 3029312804,
   2820112398, 1965028045, 35518606, 2478379033, 643747771, 1924139484, 4123405127, 3811735531,
   3429660832, 3285177704, 1948416081, 1311525291, 1183517742, 1739192232, 3979815115, 2567840007,
   4116821529, 213304419, 4125718577, 1473064925, 2442436592, 1893310111, 4195361916, 3747569474,
   828465101, 2991227658, 750582866, 1205170309, 1409813056, 678418130, 1171531016, 3821236156,
   354504587, 4202874632, 3882511497, 1893248677, 1903078632, 26340130, 2069166240, 3657122492,
   3725758099, 831344905, 811453383, 3447711422, 2434543565, 4166886888, 3358210805, 4142984013,
   2988152326, 3527824853, 982082992, 2809155763, 190157081, 3340214818, 2365432395, 2548636180,
   2894533366, 3474657421, 2372634704, 2845748389, 43024175, 2774226648, 1987702864, 3186502468,
   453610222, 4204736567, 1392892630, 2471323686, 2470534280, 3541393095, 4269885866, 3909911300,
   759132955, 1482612480, 667715263, 1795580598, 2337923983, 3390586366, 581426223, 1515718634,
   476374295, 705213300, 363062054, 2084697697, 2407503428, 2292957699, 2426213835, 2199989172,
   1987356470, 4026755612, 2147252133, 270400031, 1367820199, 2369854699, 2844269403, 79981964]

/-- The block seeded with 5489 after the first 234 iterations of the twist
loop; reference data staging the C1 evaluation. -/
def mtTwistStage9_5489 : List ℕ :=
  [2601187879, 3919438689, 2270374771, 3254473187, 705526435, 752899028, 4259895275, 1635503293,
   287311810, 3348146311, 587101971, 1133963260, 197444494, 1569747226, 2853653046, 3654449492,
   3823320007, 1939491435, 191871982, 2550916200, 2586577334, 1836795533, 2550787344, 3774101499,
   499856526, 4035163043, 969324510, 502882529, 3747915135, 3677962142, 4247339488, 668043123,
   3114378363, 585508492, 542098765, 4155704470, 3660917119, 126230230, 1522675206, 153049183,
   1637257449, 3281868928, 979462891, 1058287769, 61525060, 3887730846, 3905100104, 1956723994,
   4085220955, 3202629445, 4112745420, 877772572, 3341645661, 331737137, 2270305335, 159419296,
   2503600762, 451751822, 1083485811, 1445113017, 150608331, 422828708, 2507709208, 3804045526,
   2086909439, 4090458745, 1662894632, 2371871123, 3266028938, 3412874573, 1564584271, 4167008239,
   319160793, 1225298391, 4161956981, 3585990452, 2573113091, 1630884103, 997591457, 996494329,
   2686829642, 3651385850, 300660150, 251233608, 2731448254, 3271745554, 1133669415, 2602763402,
   3609598910, 3119890150, 2068448659, 2512941629, 2192028056, 3536672045, 1605585867, 987929371,
   3628305377, 3597455410, 3551228490, 4133937922, 2490571536, 3920924840, 3569243872, 3272512015,
   1796837098, 1735422750, 3686651765, 3897135636, 1148857629, 783899959, 2380757210, 1621036080,
   2512995685, 1314946383, 195879552, 1712690214, 134121293, 2558246413, 1909295793, 4011814961,
   3584678033, 3552917322, 2895522131, 2197479543, 599948941, 3054641120, 1896938373, 3039964013,
   1872754348, 3148850798, 2107216694, 1457074081, 2885919429, 2673983641, 3439943002, 870488328,
   3207188349, 2106353973, 3677712338, 858424175, 1253591073, 2543671298, 2173076892, 4241262707,
   3125777792, 937639453, 3794644771, 1031184467, 1762096386, 1582522796, 2401451448, 1923687658,
   3041175264, 1553520828, 1499754517, 3874023455, 2605056296, 3039888102, 1303021756, 1642751373,
   1823333037, 1633927268, 3515841308, 3444633309, 3781936666, 2809133915, 3605157463, 2111775741,
   4189224133, 1541376461, 2404717080, 4269480857, 977189618, 1665607742, 1629250805, 2457077617,
   239411934, 3667589811, 1869810277, 1786963907, 2464100961, 2087821940, 1259003512, 276996953,
   797806588, 3071924361, 2277580686, 4202707827, 1388129925, 2102369776, 1628022127, 2487208107,
   3087861794, 1052589112, 419878642, 130232609, 109631040, 2052113021, 2352638891, 3505327656,
   1245960092, 1830675294, 3601635339, 3493669978, 2998128382, 1669215416, 4294454851, 2093225537,
   1094833212, 3273688535, 3217483090, 2119564735, 1480278974, 2437451062, 1653704104, 3486785552,
   87986508, 429079035, 3325830834, 1173159674, 3117122078, 58610491, 861618023, 3127089575,
   788511071, 3165761011, 3504889677, 1407514791, 2912129370, 2669842377, 65597446, 2809811316,
   1936888672, 2735813429, 3186870716, 341264097, 2542035121, 3353277068, 548223577, 3170936588,
   1678403446, 297435620, 2337555430, 466603495, 1132321815, 1208589219, 696392160, 894244439,
   2562678859, 470224582, 3306867480, 201364898, 2075966438, 1767227936, 2929737987, 3674877796,
   2654196643, 3692734598, 3528895099, 2796780123, 3048728353, 842329300, 191554730, 2922459673,
   3489020079, 3979110629, 1022523848, 2202932467, 3583655201, 3565113719, 587085778, 4176046313,
   3013713762, 950944241, 396426791, 3784844662, 3477431613, 3594592395, 2782043838, 3392093507,
   3106564952, 2829419931, 1358665591, 2206918825, 3170783123, 31522386, 2988194168, 1782249537,
   1105080928, 843500134, 1225290080, 1521001832, 3605886097, 2802786495, 2728923319, 3996284304,
   903417639, 1171249804, 1020374987, 2824535874, 423621996, 1988534473, 2493544470, 1008604435,
   1756003503, 1488867287, 1386808992, 732088248, 1780630732, 2482101014, 976561178, 1543448953,
   2602866064, 2021139923, 1952599828, 2360242564, 2117959962, 2753061860, 2388623612, 4138193781,
   2962920654, 2284970429, 766920861, 3457264692, 2879611383, 815055854, 2332929068, 1254853997,
   3740375268, 3799380844, 4091048725, 2006331129, 1982546212, 686850534, 1907447564, 2682801776,
   2780821066, 998290361, 1342433871, 4195430425, 607905174, 3902331779, 2454067926, 1708133115,
   1170874362, 2008609376, 3260320415, 2211196135, 433538229, 2728786374, 2189520818, 262554063,
   1182318347, 3710237267, 1221022450, 715966018, 2417068910, 2591870721, 2870691989, 3418190842,
   4238214053, 1540704231, 1575580968, 2095917976, 4078310857, 2313532447, 2110690783, 4056346629,
   4061784526, 1123218514, 551538993, 597148360, 4120175196, 3581618160, 3181170517, 422862282,
   3227524138, 1713114790, 662317149, 1230418732, 928171837, 1324564878, 1928816105, 1786535431,
   2878099422, 3290185549, 539474248, 1657512683, 552370646, 1671741683, 3655312128, 1552739510,
   2605208763, 1441755014, 181878989, 3124053868, 1447103986, 3183906156, 1728556020, 3502241336,
   3055466967, 1013272474, 818402132, 1715099063, 2900113506, 397254517, 4194863039, 1009068739,
   232864647, 2540223708, 2608288560, 2415367765, 478404847, 3455100648, 3182600021, 2115988978,
   434269567, 4117179324, 3461774077, 887256537, 3545801025, 286388911, 3451742129, 1981164769,
   786667016, 3310123729, 3097811076, 2224235657, 2959658883, 3370969234, 2514770915, 3345656436,
   2677010851, 2206236470, 271648054, 2342188545, 4292848611, 3646533909, 3754009956, 3803931226,
   4160647125, 1477814055, 4043852216, 1876372354, 3133294443, 3871104810, 3177020907, 2074304428,
   3479393793, 759562891, 164128153, 1839069216, 2114162633, 3989947309, 3611054956, 1333547922,
   835429831, 494987340, 171987910, 1252001001, 370809172, 3508925425, 2535703112, 1276855041,
   1922855120, 835673414, 3030664304, 613287117, 171219893, 3423096126, 3376881639, 2287770315,
   1658692645, 1262815245, 3957234326, 1168096164, 2968737525, 2655813712, 2132313144, 3976047964,
   326516571, 353088456, 3679188938, 3205649712, 2654036126, 1249024881, 880166166, 691800469,
   2229503665, 1673458056, 4032208375, 1851778863, 2563757330, 376742205, 1794655231, 340247333,
   1505873033, 396524441, 879666767, 3335579166, 3260764261, 3335999539, 506221798, 4214658741,
   975887814, 2080536343, 3360539560, 571586418, 138896374, 4234352651, 2737620262, 3928362291,
   1516365296, 38056726, 3599462320, 3585007266, 3850961033, 471667319, 1536883193, 2310166751,
   1861637689, 2530999841, 4139843801, 2710569485, 827578615, 2012334720, 2907369459, 3029312804,
   2820112398, 1965028045, 35518606, 2478379033, 643747771, 1924139484, 4123405127, 3811735531,
   3429660832, 3285177704, 1948416081, 1311525291, 1183517742, 1739192232, 3979815115, 2567840007,
   4116821529, 213304419, 4125718577, 1473064925, 2442436592, 1893310111, 4195361916, 3747569474,
   828465101, 2991227658, 750582866, 1205170309, 1409813056, 678418130, 1171531016, 3821236156,
   354504587, 4202874632, 3882511497, 1893248677, 1903078632, 26340130, 2069166240, 3657122492,
   3725758099, 831344905, 811453383, 3447711422, 2434543565, 4166886888, 3358210805, 4142984013,
   2988152326, 3527824853, 982082992, 2809155763, 190157081, 3340214818, 2365432395, 2548636180,
   2894533366, 3474657421, 2372634704, 2845748389, 43024175, 2774226648, 1987702864, 3186502468,
   453610222, 4204736567, 1392892630, 2471323686, 2470534280, 3541393095, 4269885866, 3909911300,
   759132955, 1482612480, 667715263, 1795580598, 2337923983, 3390586366, 581426223, 1515718634,
   476374295, 705213300, 363062054, 2084697697, 2407503428, 2292957699, 2426213835, 2199989172,
   1987356470, 4026755612, 2147252133, 270400031, 1367820199, 2369854699, 2844269403, 79981964]

/-- The block seeded with 5489 after the first 260 iterations of the twist
loop; reference data staging the C1 evaluation. -/
def mtTwistStage10_5489 : List ℕ :=
  [2601187879, 3919438689, 2270374771, 3254473187, 705526435, 752899028, 4259895275, 1635503293,
   287311810, 3348146311, 587101971, 1133963260, 197444494, 1569747226, 2853653046, 3654449492,
   3823320007, 1939491435, 191871982, 2550916200, 2586577334, 1836795533, 2550787344, 3774101499,
   499856526, 4035163043, 969324510, 502882529, 3747915135, 3677962142, 4247339488, 668043123,
   3114378363, 585508492, 542098765, 4155704470, 3660917119, 126230230, 1522675206, 153049183,
   1637257449, 3281868928, 979462891, 1058287769, 61525060, 3887730846, 3905100104, 1956723994,
   4085220955, 3202629445, 4112745420, 877772572, 3341645661, 331737137, 2270305335, 159419296,
   2503600762, 451751822, 1083485811, 1445113017, 150608331, 422828708, 2507709208, 3804045526,
   2086909439, 4090458745, 1662894632, 2371871123, 3266028938, 3412874573, 1564584271, 4167008239,
   319160793, 1225298391, 4161956981, 3585990452, 2573113091, 1630884103, 997591457, 996494329,
   2686829642, 3651385850, 300660150, 251233608, 2731448254, 3271745554, 1133669415, 2602763402,
   3609598910, 3119890150, 2068448659, 2512941629, 2192028056, 3536672045, 1605585867, 987929371,
   3628305377, 3597455410, 3551228490, 4133937922, 2490571536, 3920924840, 3569243872, 3272512015,
   1796837098, 1735422750, 3686651765, 3897135636, 1148857629, 783899959, 2380757210, 1621036080,
   2512995685, 1314946383, 195879552, 1712690214, 134121293, 2558246413, 1909295793, 4011814961,
   3584678033, 3552917322, 2895522131, 2197479543, 599948941, 3054641120, 1896938373, 3039964013,
   1872754348, 3148850798, 2107216694, 1457074081, 2885919429, 2673983641, 3439943002, 870488328,
   3207188349, 2106353973, 3677712338, 858424175, 1253591073, 2543671298, 2173076892, 4241262707,
   3125777792, 937639453, 3794644771, 1031184467, 1762096386, 1582522796, 2401451448, 1923687658,
   3041175264, 1553520828, 1499754517, 3874023455, 2605056296, 3039888102, 1303021756, 1642751373,
   1823333037, 1633927268, 3515841308, 3444633309, 3781936666, 2809133915, 3605157463, 2111775741,
   4189224133, 1541376461, 2404717080, 4269480857, 977189618, 1665607742, 1629250805, 2457077617,
   239411934, 3667589811, 1869810277, 1786963907, 2464100961, 2087821940, 1259003512, 276996953,
   797806588, 3071924361, 2277580686, 4202707827, 1388129925, 2102369776, 1628022127, 2487208107,
   3087861794, 1052589112, 419878642, 130232609, 109631040, 2052113021, 2352638891, 3505327656,
   1245960092, 1830675294, 3601635339, 3493669978, 2998128382, 1669215416, 4294454851, 2093225537,
   1094833212, 3273688535, 3217483090, 2119564735, 1480278974, 2437451062, 1653704104, 3486785552,
   87986508, 429079035, 3325830834, 1173159674, 3117122078, 58610491, 861618023, 3127089575,
   788511071, 3165761011, 3504889677, 1407514791, 2912129370, 2669842377, 65597446, 2809811316,
   1936888672, 2735813429, 2992168722, 2213185349, 2759840193, 3953154784, 1561769082, 2042753077,
   1431122408, 2948426693, 222113656, 1532323091, 3465951077, 531543838, 463855516, 259721548,
   595116526, 3129247900, 2801040682, 538274173, 3291042483, 3080595328, 1887205203, 158727281,
   3040111581, 218801154, 3984624257, 2054350644, 3048728353, 842329300, 191554730, 2922459673,
   3489020079, 3979110629, 1022523848, 2202932467, 3583655201, 3565113719, 587085778, 4176046313,
   3013713762, 950944241, 396426791, 3784844662, 3477431613, 3594592395, 2782043838, 3392093507,
   3106564952, 2829419931, 1358665591, 2206918825, 3170783123, 31522386, 2988194168, 1782249537,
   1105080928, 843500134, 1225290080, 1521001832, 3605886097, 2802786495, 2728923319, 3996284304,
   903417639, 1171249804, 1020374987, 2824535874, 423621996, 1988534473, 2493544470, 1008604435,
   1756003503, 1488867287, 1386808992, 732088248, 1780630732, 2482101014, 976561178, 1543448953,
   2602866064, 2021139923, 1952599828, 2360242564, 2117959962, 2753061860, 2388623612, 4138193781,
   2962920654, 2284970429, 766920861, 3457264692, 2879611383, 815055854, 2332929068, 1254853997,
   3740375268, 3799380844, 4091048725, 2006331129, 1982546212, 686850534, 1907447564, 2682801776,
   2780821066, 998290361, 1342433871, 4195430425, 607905174, 3902331779, 2454067926, 1708133115,
   1170874362, 2008609376, 3260320415, 2211196135, 433538229, 2728786374, 2189520818, 262554063,
   1182318347, 3710237267, 1221022450, 715966018, 2417068910, 2591870721, 2870691989, 3418190842,
   4238214053, 1540704231, 1575580968, 2095917976, 4078310857, 2313532447, 2110690783, 4056346629,
   4061784526, 1123218514, 551538993, 597148360, 4120175196, 3581618160, 3181170517, 422862282,
   3227524138, 1713114790, 662317149, 1230418732, 928171837, 1324564878, 1928816105, 1786535431,
   2878099422, 3290185549, 539474248, 1657512683, 552370646, 1671741683, 3655312128, 1552739510,
   2605208763, 1441755014, 181878989, 3124053868, 1447103986, 3183906156, 1728556020, 3502241336,
   3055466967, 1013272474, 818402132, 1715099063, 2900113506, 397254517, 4194863039, 1009068739,
   232864647, 2540223708, 2608288560, 2415367765, 478404847, 3455100648, 3182600021, 2115988978,
   434269567, 4117179324, 3461774077, 887256537, 3545801025, 286388911, 3451742129, 1981164769,
   786667016, 3310123729, 3097811076, 2224235657, 2959658883, 3370969234, 2514770915, 3345656436,
   2677010851, 2206236470, 271648054, 2342188545, 4292848611, 3646533909, 3754009956, 3803931226,
   4160647125, 1477814055, 4043852216, 1876372354, 3133294443, 3871104810, 3177020907, 2074304428,
   3479393793, 759562891, 164128153, 1839069216, 2114162633, 3989947309, 3611054956, 1333547922,
   835429831, 494987340, 171987910, 1252001001, 370809172, 3508925425, 2535703112, 1276855041,
   1922855120, 835673414, 3030664304, 613287117, 171219893, 3423096126, 3376881639, 2287770315,
   1658692645, 1262815245, 3957234326, 1168096164, 2968737525, 2655813712, 2132313144, 3976047964,
   326516571, 353088456, 3679188938, 3205649712, 2654036126, 1249024881, 880166166, 691800469,
   2229503665, 1673458056, 4032208375, 1851778863, 2563757330, 376742205, 1794655231, 340247333,
   1505873033, 396524441, 879666767, 3335579166, 3260764261, 3335999539, 506221798, 4214658741,
   975887814, 2080536343, 3360539560, 571586418, 138896374, 4234352651, 2737620262, 3928362291,
   1516365296, 38056726, 3599462320, 3585007266, 3850961033, 471667319, 1536883193, 2310166751,
   1861637689, 2530999841, 4139843801, 2710569485, 827578615, 2012334720, 2907369459, 3029312804,
   2820112398, 1965028045, 35518606, 2478379033, 643747771, 1924139484, 4123405127, 3811735531,
   3429660832, 3285177704, 1948416081, 1311525291, 1183517742, 1739192232, 3979815115, 2567840007,
   4116821529, 213304419, 4125718577, 1473064925, 2442436592, 1893310111, 4195361916, 3747569474,
   828465101, 2991227658, 750582866, 1205170309, 1409813056, 678418130, 1171531016, 3821236156,
   354504587, 4202874632, 3882511497, 1893248677, 1903078632, 26340130, 2069166240, 3657122492,
   3725758099, 831344905, 811453383, 3447711422, 2434543565, 4166886888, 3358210805, 4142984013,
   2988152326, 3527824853, 982082992, 2809155763, 190157081, 3340214818, 2365432395, 2548636180,
   2894533366, 3474657421, 2372634704, 2845748389, 43024175, 2774226648, 1987702864, 3186502468,
   453610222, 4204736567, 1392892630, 2471323686, 2470534280, 3541393095, 4269885866, 3909911300,
   759132955, 1482612480, 667715263, 1795580598, 2337923983, 3390586366, 581426223, 1515718634,
   476374295, 705213300, 363062054, 2084697697, 2407503428, 2292957699, 2426213835, 2199989172,
   1987356470, 4026755612, 2147252133, 270400031, 1367820199, 2369854699, 2844269403, 79981964]

/-- The block seeded with 5489 after the first 286 iterations of the twist
loop; reference data staging the C1 evaluation. -/
def mtTwistStage11_5489 : List ℕ :=
  [2601187879, 3919438689, 2270374771, 3254473187, 705526435, 752899028, 4259895275, 1635503293,
   287311810, 3348146311, 587101971, 1133963260, 197444494, 1569747226, 2853653046, 3654449492,
   3823320007, 1939491435, 191871982, 2550916200, 2586577334, 1836795533, 2550787344, 3774101499,
   499856526, 4035163043, 969324510, 502882529, 3747915135, 3677962142, 4247339488, 668043123,
   3114378363, 585508492, 542098765, 4155704470, 3660917119, 126230230, 1522675206, 153049183,
   1637257449, 3281868928, 979462891, 1058287769, 61525060, 3887730846, 3905100104, 1956723994,
   4085220955, 3202629445, 4112745420, 877772572, 3341645661, 331737137, 2270305335, 159419296,
   2503600762, 451751822, 1083485811, 1445113017, 150608331, 422828708, 2507709208, 3804045526,
   2086909439, 4090458745, 1662894632, 2371871123, 3266028938, 3412874573, 1564584271, 4167008239,
   319160793, 1225298391, 4161956981, 3585990452, 2573113091, 1630884103, 997591457, 996494329,
   2686829642, 3651385850, 300660150, 251233608, 2731448254, 3271745554, 1133669415, 2602763402,
   3609598910, 3119890150, 2068448659, 2512941629, 2192028056, 3536672045, 1605585867, 987929371,
   3628305377, 3597455410, 3551228490, 4133937922, 2490571536, 3920924840, 3569243872, 3272512015,
   1796837098, 1735422750, 3686651765, 3897135636, 1148857629, 783899959, 2380757210, 1621036080,
   2512995685, 1314946383, 195879552, 1712690214, 134121293, 2558246413, 1909295793, 4011814961,
   3584678033, 3552917322, 2895522131, 2197479543, 599948941, 3054641120, 1896938373, 3039964013,
   1872754348, 3148850798, 2107216694, 1457074081, 2885919429, 2673983641, 3439943002, 870488328,
   3207188349, 2106353973, 3677712338, 858424175, 1253591073, 2543671298, 2173076892, 4241262707,
   3125777792, 937639453, 3794644771, 1031184467, 1762096386, 1582522796, 2401451448, 1923687658,
   3041175264, 1553520828, 1499754517, 3874023455, 2605056296, 3039888102, 1303021756, 1642751373,
   1823333037, 1633927268, 3515841308, 3444633309, 3781936666, 2809133915, 3605157463, 2111775741,
   4189224133, 1541376461, 2404717080, 4269480857, 977189618, 1665607742, 1629250805, 2457077617,
   239411934, 3667589811, 1869810277, 1786963907, 2464100961, 2087821940, 1259003512, 276996953,
   797806588, 3071924361, 2277580686, 4202707827, 1388129925, 2102369776, 1628022127, 2487208107,
   3087861794, 1052589112, 419878642, 130232609, 109631040, 2052113021, 2352638891, 3505327656,
   1245960092, 1830675294, 3601635339, 3493669978, 2998128382, 1669215416, 4294454851, 2093225537,
   1094833212, 3273688535, 3217483090, 2119564735, 1480278974, 2437451062, 1653704104, 3486785552,
   87986508, 429079035, 3325830834, 1173159674, 3117122078, 58610491, 861618023, 3127089575,
   788511071, 3165761011, 3504889677, 1407514791, 2912129370, 2669842377, 65597446, 2809811316,
   1936888672, 2735813429, 2992168722, 2213185349, 2759840193, 3953154784, 1561769082, 2042753077,
   1431122408, 2948426693, 222113656, 1532323091, 3465951077, 531543838, 463855516, 259721548,
   595116526, 3129247900, 2801040682, 538274173, 3291042483, 3080595328, 1887205203, 158727281,
   3040111581, 218801154, 3984624257, 2054350644, 2080133350, 637187864, 2040737093, 616990199,
   3893926523, 79368930, 2444288761, 2454929062, 816464100, 1797157122, 2590520370, 1517945845,
   585466041, 2048644740, 1148006305, 232096794, 1288445919, 2815085715, 3360592226, 2612544241,
   3735001635, 1982293843, 2437762859, 1380875628, 1511870631, 1503310543, 2988194168, 1782249537,
   1105080928, 843500134, 1225290080, 1521001832, 3605886097, 2802786495, 2728923319, 3996284304,
   903417639, 1171249804, 1020374987, 2824535874, 423621996, 1988534473, 2493544470, 1008604435,
   1756003503, 1488867287, 1386808992, 732088248, 1780630732, 2482101014, 976561178, 1543448953,
   2602866064, 2021139923, 1952599828, 2360242564, 2117959962, 2753061860, 2388623612, 4138193781,
   2962920654, 2284970429, 766920861, 3457264692, 2879611383, 815055854, 2332929068, 1254853997,
   3740375268, 3799380844, 4091048725, 2006331129, 1982546212, 686850534, 1907447564, 2682801776,
   2780821066, 998290361, 1342433871, 4195430425, 607905174, 3902331779, 2454067926, 1708133115,
   1170874362, 2008609376, 3260320415, 2211196135, 433538229, 2728786374, 2189520818, 262554063,
   1182318347, 3710237267, 1221022450, 715966018, 2417068910, 2591870721, 2870691989, 3418190842,
   4238214053, 1540704231, 1575580968, 2095917976, 4078310857, 2313532447, 2110690783, 4056346629,
   4061784526, 1123218514, 551538993, 597148360, 4120175196, 3581618160, 3181170517, 422862282,
   3227524138, 1713114790, 662317149, 1230418732, 928171837, 1324564878, 1928816105, 1786535431,
   2878099422, 3290185549, 539474248, 1657512683, 552370646, 1671741683, 3655312128, 1552739510,
   2605208763, 1441755014, 181878989, 3124053868, 1447103986, 3183906156, 1728556020, 3502241336,
   3055466967, 1013272474, 818402132, 1715099063, 2900113506, 397254517, 4194863039, 1009068739,
   232864647, 2540223708, 2608288560, 2415367765, 478404847, 3455100648, 3182600021, 2115988978,
   434269567, 4117179324, 3461774077, 887256537, 3545801025, 286388911, 3451742129, 1981164769,
   786667016, 3310123729, 3097811076, 2224235657, 2959658883, 3370969234, 2514770915, 3345656436,
   2677010851, 2206236470, 271648054, 2342188545, 4292848611, 3646533909, 3754009956, 3803931226,
   4160647125, 1477814055, 4043852216, 1876372354, 3133294443, 3871104810, 3177020907, 2074304428,
   3479393793, 759562891, 164128153, 1839069216, 2114162633, 3989947309, 3611054956, 1333547922,
   835429831, 494987340, 171987910, 1252001001, 370809172, 3508925425, 2535703112, 1276855041,
   1922855120, 835673414, 3030664304, 613287117, 171219893, 3423096126, 3376881639, 2287770315,
   1658692645, 1262815245, 3957234326, 1168096164, 2968737525, 2655813712, 2132313144, 3976047964,
   326516571, 353088456, 3679188938, 3205649712, 2654036126, 1249024881, 880166166, 691800469,
   2229503665, 1673458056, 4032208375, 1851778863, 2563757330, 376742205, 1794655231, 340247333,
   1505873033, 396524441, 879666767, 3335579166, 3260764261, 3335999539, 506221798, 4214658741,
   975887814, 2080536343, 3360539560, 571586418, 138896374, 4234352651, 2737620262, 3928362291,
   1516365296, 38056726, 3599462320, 3585007266, 3850961033, 471667319, 1536883193, 2310166751,
   1861637689, 2530999841, 4139843801, 2710569485, 827578615, 2012334720, 2907369459, 3029312804,
   2820112398, 1965028045, 35518606, 2478379033, 643747771, 1924139484, 4123405127, 3811735531,
   3429660832, 3285177704, 1948416081, 1311525291, 1183517742, 1739192232, 3979815115, 2567840007,
   4116821529, 213304419, 4125718577, 1473064925, 2442436592, 1893310111, 4195361916, 3747569474,
   828465101, 2991227658, 750582866, 1205170309, 1409813056, 678418130, 1171531016, 3821236156,
   354504587, 4202874632, 3882511497, 1893248677, 1903078632, 26340130, 2069166240, 3657122492,
   3725758099, 831344905, 811453383, 3447711422, 2434543565, 4166886888, 3358210805, 4142984013,
   2988152326, 3527824853, 982082992, 2809155763, 190157081, 3340214818, 2365432395, 2548636180,
   2894533366, 3474657421, 2372634704, 2845748389, 43024175, 2774226648, 1987702864, 3186502468,
   453610222, 4204736567, 1392892630, 2471323686, 2470534280, 3541393095, 4269885866, 3909911300,
   759132955, 1482612480, 667715263, 1795580598, 2337923983, 3390586366, 581426223, 1515718634,
   476374295, 705213300, 363062054, 2084697697, 2407503428, 2292957699, 2426213835, 2199989172,
   1987356470, 4026755612, 2147252133, 270400031, 1367820199, 2369854699, 2844269403, 79981964]

/-- The block seeded with 5489 after the first 312 iterations of the twist
loop; reference data staging the C1 evaluation. -/
def mtTwistStage12_5489 : List ℕ :=
  [2601187879, 3919438689, 2270374771, 3254473187, 705526435, 752899028, 4259895275, 1635503293,
   287311810, 3348146311, 587101971, 1133963260, 197444494, 1569747226, 2853653046, 3654449492,
   3823320007, 1939491435, 191871982, 2550916200, 2586577334, 1836795533, 2550787344, 3774101499,
   499856526, 4035163043, 969324510, 502882529, 3747915135, 3677962142, 4247339488, 668043123,
   3114378363, 585508492, 542098765, 4155704470, 3660917119, 126230230, 1522675206, 153049183,
   1637257449, 3281868928, 979462891, 1058287769, 61525060, 3887730846, 3905100104, 1956723994,
   4085220955, 3202629445, 4112745420, 877772572, 3341645661, 331737137, 2270305335, 159419296,
   2503600762, 451751822, 1083485811, 1445113017, 150608331, 422828708, 2507709208, 3804045526,
   2086909439, 4090458745, 1662894632, 2371871123, 3266028938, 3412874573, 1564584271, 4167008239,
   319160793, 1225298391, 4161956981, 3585990452, 2573113091, 1630884103, 997591457, 996494329,
   2686829642, 3651385850, 300660150, 251233608, 2731448254, 3271745554, 1133669415, 2602763402,
   3609598910, 3119890150, 2068448659, 2512941629, 2192028056, 3536672045, 1605585867, 987929371,
   3628305377, 3597455410, 3551228490, 4133937922, 2490571536, 3920924840, 3569243872, 3272512015,
   1796837098, 1735422750, 3686651765, 3897135636, 1148857629, 783899959, 2380757210, 1621036080,
   2512995685, 1314946383, 195879552, 1712690214, 134121293, 2558246413, 1909295793, 4011814961,
   3584678033, 3552917322, 2895522131, 2197479543, 599948941, 3054641120, 1896938373, 3039964013,
   1872754348, 3148850798, 2107216694, 1457074081, 2885919429, 2673983641, 3439943002, 870488328,
   3207188349, 2106353973, 3677712338, 858424175, 1253591073, 2543671298, 2173076892, 4241262707,
   3125777792, 937639453, 3794644771, 1031184467, 1762096386, 1582522796, 2401451448, 1923687658,
   3041175264, 1553520828, 1499754517, 3874023455, 2605056296, 3039888102, 1303021756, 1642751373,
   1823333037, 1633927268, 3515841308, 3444633309, 3781936666, 2809133915, 3605157463, 2111775741,
   4189224133, 1541376461, 2404717080, 4269480857, 977189618, 1665607742, 1629250805, 2457077617,
   239411934, 3667589811, 1869810277, 1786963907, 2464100961, 2087821940, 1259003512, 276996953,
   797806588, 3071924361, 2277580686, 4202707827, 1388129925, 2102369776, 1628022127, 2487208107,
   3087861794, 1052589112, 419878642, 130232609, 109631040, 2052113021, 2352638891, 3505327656,
   1245960092, 1830675294, 3601635339, 3493669978, 2998128382, 1669215416, 4294454851, 2093225537,
   1094833212, 3273688535, 3217483090, 2119564735, 1480278974, 2437451062, 1653704104, 3486785552,
   87986508, 429079035, 3325830834, 1173159674, 3117122078, 58610491, 861618023, 3127089575,
   788511071, 3165761011, 3504889677, 1407514791, 2912129370, 2669842377, 65597446, 2809811316,
   1936888672, 2735813429, 2992168722, 2213185349, 2759840193, 3953154784, 1561769082, 2042753077,
   1431122408, 2948426693, 222113656, 1532323091, 3465951077, 531543838, 463855516, 259721548,
   595116526, 3129247900, 2801040682, 538274173, 3291042483, 3080595328, 1887205203, 158727281,
   3040111581, 218801154, 3984624257, 2054350644, 2080133350, 637187864, 2040737093, 616990199,
   3893926523, 79368930, 2444288761, 2454929062, 816464100, 1797157122, 2590520370, 1517945845,
   585466041, 2048644740, 1148006305, 232096794, 1288445919, 2815085715, 3360592226, 2612544241,
   3735001635, 1982293843, 2437762859, 1380875628, 1511870631, 1503310543, 3124191302, 672465147,
   1097623, 2986124200, 3488182882, 3458056040, 960516857, 2873195180, 4198947675, 21992134,
   3918247947, 3659648629, 3966894158, 1603926895, 3947065708, 4064432254, 314205538, 872618379,
   3563243059, 304253681, 783558693, 2503271980, 3495646321, 1290872763, 3121520939, 2942098806,
   2602866064, 2021139923, 1952599828, 2360242564, 2117959962, 2753061860, 2388623612, 4138193781,
   2962920654, 2284970429, 766920861, 3457264692, 2879611383, 815055854, 2332929068, 1254853997,
   3740375268, 3799380844, 4091048725, 2006331129, 1982546212, 686850534, 1907447564, 2682801776,
   2780821066, 998290361, 1342433871, 4195430425, 607905174, 3902331779, 2454067926, 1708133115,
   1170874362, 2008609376, 3260320415, 2211196135, 433538229, 2728786374, 2189520818, 262554063,
   1182318347, 3710237267, 1221022450, 715966018, 2417068910, 2591870721, 2870691989, 3418190842,
   4238214053, 1540704231, 1575580968, 2095917976, 4078310857, 2313532447, 2110690783, 4056346629,
   4061784526, 1123218514, 551538993, 597148360, 4120175196, 3581618160, 3181170517, 422862282,
   3227524138, 1713114790, 662317149, 1230418732, 928171837, 1324564878, 1928816105, 1786535431,
   2878099422, 3290185549, 539474248, 1657512683, 552370646, 1671741683, 3655312128, 1552739510,
   2605208763, 1441755014, 181878989, 3124053868, 1447103986, 3183906156, 1728556020, 3502241336,
   3055466967, 1013272474, 818402132, 1715099063, 2900113506, 397254517, 4194863039, 1009068739,
   232864647, 2540223708, 2608288560, 2415367765, 478404847, 3455100648, 3182600021, 2115988978,
   434269567, 4117179324, 3461774077, 887256537, 3545801025, 286388911, 3451742129, 1981164769,
   786667016, 3310123729, 3097811076, 2224235657, 2959658883, 3370969234, 2514770915, 3345656436,
   2677010851, 2206236470, 271648054, 2342188545, 4292848611, 3646533909, 3754009956, 3803931226,
   4160647125, 1477814055, 4043852216, 1876372354, 3133294443, 3871104810, 3177020907, 2074304428,
   3479393793, 759562891, 164128153, 1839069216, 2114162633, 3989947309, 3611054956, 1333547922,
   835429831, 494987340, 171987910, 1252001001, 370809172, 3508925425, 2535703112, 1276855041,
   1922855120, 835673414, 3030664304, 613287117, 171219893, 3423096126, 3376881639, 2287770315,
   1658692645, 1262815245, 3957234326, 1168096164, 2968737525, 2655813712, 2132313144, 3976047964,
   326516571, 353088456, 3679188938, 3205649712, 2654036126, 1249024881, 880166166, 691800469,
   2229503665, 1673458056, 4032208375, 1851778863, 2563757330, 376742205, 1794655231, 340247333,
   1505873033, 396524441, 879666767, 3335579166, 3260764261, 3335999539, 506221798, 4214658741,
   975887814, 2080536343, 3360539560, 571586418, 138896374, 4234352651, 2737620262, 3928362291,
   1516365296, 38056726, 3599462320, 3585007266, 3850961033, 471667319, 1536883193, 2310166751,
   1861637689, 2530999841, 4139843801, 2710569485, 827578615, 2012334720, 2907369459, 3029312804,
   2820112398, 1965028045, 35518606, 2478379033, 643747771, 1924139484, 4123405127, 3811735531,
   3429660832, 3285177704, 1948416081, 1311525291, 1183517742, 1739192232, 3979815115, 2567840007,
   4116821529, 213304419, 4125718577, 1473064925, 2442436592, 1893310111, 4195361916, 3747569474,
   828465101, 2991227658, 750582866, 1205170309, 1409813056, 678418130, 1171531016, 3821236156,
   354504587, 4202874632, 3882511497, 1893248677, 1903078632, 26340130, 2069166240, 3657122492,
   3725758099, 831344905, 811453383, 3447711422, 2434543565, 4166886888, 3358210805, 4142984013,
   2988152326, 3527824853, 982082992, 2809155763, 190157081, 3340214818, 2365432395, 2548636180,
   2894533366, 3474657421, 2372634704, 2845748389, 43024175, 2774226648, 1987702864, 3186502468,
   453610222, 4204736567, 1392892630, 2471323686, 2470534280, 3541393095, 4269885866, 3909911300,
   759132955, 1482612480, 667715263, 1795580598, 2337923983, 3390586366, 581426223, 1515718634,
   476374295, 705213300, 363062054, 2084697697, 2407503428, 2292957699, 2426213835, 2199989172,
   1987356470, 4026755612, 2147252133, 270400031, 1367820199, 2369854699, 2844269403, 79981964]

/-- The block seeded with 5489 after the first 338 iterations of the twist
loop; reference data staging the C1 evaluation. -/
def mtTwistStage13_5489 : List ℕ :=
  [2601187879, 3919438689, 2270374771, 3254473187, 705526435, 752899028, 4259895275, 1635503293,
   287311810, 3348146311, 587101971, 1133963260, 197444494, 1569747226, 2853653046, 3654449492,
   3823320007, 1939491435, 191871982, 2550916200, 2586577334, 1836795533, 2550787344, 3774101499,
   499856526, 4035163043, 969324510, 502882529, 3747915135, 3677962142, 4247339488, 668043123,
   3114378363, 585508492, 542098765, 4155704470, 3660917119, 126230230, 1522675206, 153049183,
   1637257449, 3281868928, 979462891, 1058287769, 61525060, 3887730846, 3905100104, 1956723994,
   4085220955, 3202629445, 4112745420, 877772572, 3341645661, 331737137, 2270305335, 159419296,
   2503600762, 451751822, 1083485811, 1445113017, 150608331, 422828708, 2507709208, 3804045526,
   2086909439, 4090458745, 1662894632, 2371871123, 3266028938, 3412874573, 1564584271, 4167008239,
   319160793, 1225298391, 4161956981, 3585990452, 2573113091, 1630884103, 997591457, 996494329,
   2686829642, 3651385850, 300660150, 251233608, 2731448254, 3271745554, 1133669415, 2602763402,
   3609598910, 3119890150, 2068448659, 2512941629, 2192028056, 3536672045, 1605585867, 987929371,
   3628305377, 3597455410, 3551228490, 4133937922, 2490571536, 3920924840, 3569243872, 3272512015,
   1796837098, 1735422750, 3686651765, 3897135636, 1148857629, 783899959, 2380757210, 1621036080,
   2512995685, 1314946383, 195879552, 1712690214, 134121293, 2558246413, 1909295793, 4011814961,
   3584678033, 3552917322, 2895522131, 2197479543, 599948941, 3054641120, 1896938373, 3039964013,
   1872754348, 3148850798, 2107216694, 1457074081, 2885919429, 2673983641, 3439943002, 870488328,
   3207188349, 2106353973, 3677712338, 858424175, 1253591073, 2543671298, 2173076892, 4241262707,
   3125777792, 937639453, 3794644771, 1031184467, 1762096386, 1582522796, 2401451448, 1923687658,
   3041175264, 1553520828, 1499754517, 3874023455, 2605056296, 3039888102, 1303021756, 1642751373,
   1823333037, 1633927268, 3515841308, 3444633309, 3781936666, 2809133915, 3605157463, 2111775741,
   4189224133, 1541376461, 2404717080, 4269480857, 977189618, 1665607742, 1629250805, 2457077617,
   239411934, 3667589811, 1869810277, 1786963907, 2464100961, 2087821940, 1259003512, 276996953,
   797806588, 3071924361, 2277580686, 4202707827, 1388129925, 2102369776, 1628022127, 2487208107,
   3087861794, 1052589112, 419878642, 130232609, 109631040, 2052113021, 2352638891, 3505327656,
   1245960092, 1830675294, 3601635339, 3493669978, 2998128382, 1669215416, 4294454851, 2093225537,
   1094833212, 3273688535, 3217483090, 2119564735, 1480278974, 2437451062, 1653704104, 3486785552,
   87986508, 429079035, 3325830834, 1173159674, 3117122078, 58610491, 861618023, 3127089575,
   788511071, 3165761011, 3504889677, 1407514791, 2912129370, 2669842377, 65597446, 2809811316,
   1936888672, 2735813429, 2992168722, 2213185349, 2759840193, 3953154784, 1561769082, 2042753077,
   1431122408, 2948426693, 222113656, 1532323091, 3465951077, 531543838, 463855516, 259721548,
   595116526, 3129247900, 2801040682, 538274173, 3291042483, 3080595328, 1887205203, 158727281,
   3040111581, 218801154, 3984624257, 2054350644, 2080133350, 637187864, 2040737093, 616990199,
   3893926523, 79368930, 2444288761, 2454929062, 816464100, 1797157122, 2590520370, 1517945845,
   585466041, 2048644740, 1148006305, 232096794, 1288445919, 2815085715, 3360592226, 2612544241,
   3735001635, 1982293843, 2437762859, 1380875628, 1511870631, 1503310543, 3124191302, 672465147,
   1097623, 2986124200, 3488182882, 3458056040, 960516857, 2873195180, 4198947675, 21992134,
   3918247947, 3659648629, 3966894158, 1603926895, 3947065708, 4064432254, 314205538, 872618379,
   3563243059, 304253681, 783558693, 2503271980, 3495646321, 1290872763, 3121520939, 2942098806,
   641090084, 2040744877, 2641640520, 2822298419, 2885259028, 1013302765, 2006133592, 3672833023,
   266147116, 2422267738, 501894401, 345672645, 2384900549, 3593315420, 168531307, 3138115426,
   2559469854, 878370741, 567096748, 1342975608, 1929917421, 3815079155, 3887969580, 379967032,
   3933320244, 1022246178, 1342433871, 4195430425, 607905174, 3902331779, 2454067926, 1708133115,
   1170874362, 2008609376, 3260320415, 2211196135, 433538229, 2728786374, 2189520818, 262554063,
   1182318347, 3710237267, 1221022450, 715966018, 2417068910, 2591870721, 2870691989, 3418190842,
   4238214053, 1540704231, 1575580968, 2095917976, 4078310857, 2313532447, 2110690783, 4056346629,
   4061784526, 1123218514, 551538993, 597148360, 4120175196, 3581618160, 3181170517, 422862282,
   3227524138, 1713114790, 662317149, 1230418732, 928171837, 1324564878, 1928816105, 1786535431,
   2878099422, 3290185549, 539474248, 1657512683, 552370646, 1671741683, 3655312128, 1552739510,
   2605208763, 1441755014, 181878989, 3124053868, 1447103986, 3183906156, 1728556020, 3502241336,
   3055466967, 1013272474, 818402132, 1715099063, 2900113506, 397254517, 4194863039, 1009068739,
   232864647, 2540223708, 2608288560, 2415367765, 478404847, 3455100648, 3182600021, 2115988978,
   434269567, 4117179324, 3461774077, 887256537, 3545801025, 286388911, 3451742129, 1981164769,
   786667016, 3310123729, 3097811076, 2224235657, 2959658883, 3370969234, 2514770915, 3345656436,
   2677010851, 2206236470, 271648054, 2342188545, 4292848611, 3646533909, 3754009956, 3803931226,
   4160647125, 1477814055, 4043852216, 1876372354, 3133294443, 3871104810, 3177020907, 2074304428,
   3479393793, 759562891, 164128153, 1839069216, 2114162633, 3989947309, 3611054956, 1333547922,
   835429831, 494987340, 171987910, 1252001001, 370809172, 3508925425, 2535703112, 1276855041,
   1922855120, 835673414, 3030664304, 613287117, 171219893, 3423096126, 3376881639, 2287770315,
   1658692645, 1262815245, 3957234326, 1168096164, 2968737525, 2655813712, 2132313144, 3976047964,
   326516571, 353088456, 3679188938, 3205649712, 2654036126, 1249024881, 880166166, 691800469,
   2229503665, 1673458056, 4032208375, 1851778863, 2563757330, 376742205, 1794655231, 340247333,
   1505873033, 396524441, 879666767, 3335579166, 3260764261, 3335999539, 506221798, 4214658741,
   975887814, 2080536343, 3360539560, 571586418, 138896374, 4234352651, 2737620262, 3928362291,
   1516365296, 38056726, 3599462320, 3585007266, 3850961033, 471667319, 1536883193, 2310166751,
   1861637689, 2530999841, 4139843801, 2710569485, 827578615, 2012334720, 2907369459, 3029312804,
   2820112398, 1965028045, 35518606, 2478379033, 643747771, 1924139484, 4123405127, 3811735531,
   3429660832, 3285177704, 1948416081, 1311525291, 1183517742, 1739192232, 3979815115, 2567840007,
   4116821529, 213304419, 4125718577, 1473064925, 2442436592, 1893310111, 4195361916, 3747569474,
   828465101, 2991227658, 750582866, 1205170309, 1409813056, 678418130, 1171531016, 3821236156,
   354504587, 4202874632, 3882511497, 1893248677, 1903078632, 26340130, 2069166240, 3657122492,
   3725758099, 831344905, 811453383, 3447711422, 2434543565, 4166886888, 3358210805, 4142984013,
   2988152326, 3527824853, 982082992, 2809155763, 190157081, 3340214818, 2365432395, 2548636180,
   2894533366, 3474657421, 2372634704, 2845748389, 43024175, 2774226648, 1987702864, 3186502468,
   453610222, 4204736567, 1392892630, 2471323686, 2470534280, 3541393095, 4269885866, 3909911300,
   759132955, 1482612480, 667715263, 1795580598, 2337923983, 3390586366, 581426223, 1515718634,
   476374295, 705213300, 363062054, 2084697697, 2407503428, 2292957699, 2426213835, 2199989172,
   1987356470, 4026755612, 2147252133, 270400031, 1367820199, 2369854699, 2844269403, 79981964]

/-- The block seeded with 5489 after the first 364 iterations of the twist
loop; reference data staging the C1 evaluation. -/
def mtTwistStage14_5489 : List ℕ :=
  [2601187879, 3919438689, 2270374771, 3254473187, 705526435, 752899028, 4259895275, 1635503293,
   287311810, 3348146311, 587101971, 1133963260, 197444494, 1569747226, 2853653046, 3654449492,
   3823320007, 1939491435, 191871982, 2550916200, 2586577334, 1836795533, 2550787344, 3774101499,
   499856526, 4035163043, 969324510, 502882529, 3747915135, 3677962142, 4247339488, 668043123,
   3114378363, 585508492, 542098765, 4155704470, 3660917119, 126230230, 1522675206, 153049183,
   1637257449, 3281868928, 979462891, 1058287769, 61525060, 3887730846, 3905100104, 1956723994,
   4085220955, 3202629445, 4112745420, 877772572, 3341645661, 331737137, 2270305335, 159419296,
   2503600762, 451751822, 1083485811, 1445113017, 150608331, 422828708, 2507709208, 3804045526,
   2086909439, 4090458745, 1662894632, 2371871123, 3266028938, 3412874573, 1564584271, 4167008239,
   319160793, 1225298391, 4161956981, 3585990452, 2573113091, 1630884103, 997591457, 996494329,
   2686829642, 3651385850, 300660150, 251233608, 2731448254, 3271745554, 1133669415, 2602763402,
   3609598910, 3119890150, 2068448659, 2512941629, 2192028056, 3536672045, 1605585867, 987929371,
   3628305377, 3597455410, 3551228490, 4133937922, 2490571536, 3920924840, 3569243872, 3272512015,
   1796837098, 1735422750, 3686651765, 3897135636, 1148857629, 783899959, 2380757210, 1621036080,
   2512995685, 1314946383, 195879552, 1712690214, 134121293, 2558246413, 1909295793, 4011814961,
   3584678033, 3552917322, 2895522131, 2197479543, 599948941, 3054641120, 1896938373, 3039964013,
   1872754348, 3148850798, 2107216694, 1457074081, 2885919429, 2673983641, 3439943002, 870488328,
   3207188349, 2106353973, 3677712338, 858424175, 1253591073, 2543671298, 2173076892, 4241262707,
   3125777792, 937639453, 3794644771, 1031184467, 1762096386, 1582522796, 2401451448, 1923687658,
   3041175264, 1553520828, 1499754517, 3874023455, 2605056296, 3039888102, 1303021756, 1642751373,
   1823333037, 1633927268, 3515841308, 3444633309, 3781936666, 2809133915, 3605157463, 2111775741,
   4189224133, 1541376461, 2404717080, 4269480857, 977189618, 1665607742, 1629250805, 2457077617,
   239411934, 3667589811, 1869810277, 1786963907, 2464100961, 2087821940, 1259003512, 276996953,
   797806588, 3071924361, 2277580686, 4202707827, 1388129925, 2102369776, 1628022127, 2487208107,
   3087861794, 1052589112, 419878642, 130232609, 109631040, 2052113021, 2352638891, 3505327656,
   1245960092, 1830675294, 3601635339, 3493669978, 2998128382, 1669215416, 4294454851, 2093225537,
   1094833212, 3273688535, 3217483090, 2119564735, 1480278974, 2437451062, 1653704104, 3486785552,
   87986508, 429079035, 3325830834, 1173159674, 3117122078, 58610491, 861618023, 3127089575,
   788511071, 3165761011, 3504889677, 1407514791, 2912129370, 2669842377, 65597446, 2809811316,
   1936888672, 2735813429, 2992168722, 2213185349, 2759840193, 3953154784, 1561769082, 2042753077,
   1431122408, 2948426693, 222113656, 1532323091, 3465951077, 531543838, 463855516, 259721548,
   595116526, 3129247900, 2801040682, 538274173, 3291042483, 3080595328, 1887205203, 158727281,
   3040111581, 218801154, 3984624257, 2054350644, 2080133350, 637187864, 2040737093, 616990199,
   3893926523, 79368930, 2444288761, 2454929062, 816464100, 1797157122, 2590520370, 1517945845,
   585466041, 2048644740, 1148006305, 232096794, 1288445919, 2815085715, 3360592226, 2612544241,
   3735001635, 1982293843, 2437762859, 1380875628, 1511870631, 1503310543, 3124191302, 672465147,
   1097623, 2986124200, 3488182882, 3458056040, 960516857, 2873195180, 4198947675, 21992134,
   3918247947, 3659648629, 3966894158, 1603926895, 3947065708, 4064432254, 314205538, 872618379,
   3563243059, 304253681, 783558693, 2503271980, 3495646321, 1290872763, 3121520939, 2942098806,
   641090084, 2040744877, 2641640520, 2822298419, 2885259028, 1013302765, 2006133592, 3672833023,
   266147116, 2422267738, 501894401, 345672645, 2384900549, 3593315420, 168531307, 3138115426,
   2559469854, 878370741, 567096748, 1342975608, 1929917421, 3815079155, 3887969580, 379967032,
   3933320244, 1022246178, 3298764003, 3352606638, 3810828369, 1116729323, 2381652356, 622561456,
   2745681725, 3387916065, 938595997, 4901396, 3264727977, 3990265482, 1545695311, 2583073239,
   25719318, 359879420, 2690926668, 1737962267, 1872326961, 2971436963, 856135260, 1262752712,
   1803801525, 3825067982, 227806404, 531264838, 4078310857, 2313532447, 2110690783, 4056346629,
   4061784526, 1123218514, 551538993, 597148360, 4120175196, 3581618160, 3181170517, 422862282,
   3227524138, 1713114790, 662317149, 1230418732, 928171837, 1324564878, 1928816105, 1786535431,
   2878099422, 3290185549, 539474248, 1657512683, 552370646, 1671741683, 3655312128, 1552739510,
   2605208763, 1441755014, 181878989, 3124053868, 1447103986, 3183906156, 1728556020, 3502241336,
   3055466967, 1013272474, 818402132, 1715099063, 2900113506, 397254517, 4194863039, 1009068739,
   232864647, 2540223708, 2608288560, 2415367765, 478404847, 3455100648, 3182600021, 2115988978,
   434269567, 4117179324, 3461774077, 887256537, 3545801025, 286388911, 3451742129, 1981164769,
   786667016, 3310123729, 3097811076, 2224235657, 2959658883, 3370969234, 2514770915, 3345656436,
   2677010851, 2206236470, 271648054, 2342188545, 4292848611, 3646533909, 3754009956, 3803931226,
   4160647125, 1477814055, 4043852216, 1876372354, 3133294443, 3871104810, 3177020907, 2074304428,
   3479393793, 759562891, 164128153, 1839069216, 2114162633, 3989947309, 3611054956, 1333547922,
   835429831, 494987340, 171987910, 1252001001, 370809172, 3508925425, 2535703112, 1276855041,
   1922855120, 835673414, 3030664304, 613287117, 171219893, 3423096126, 3376881639, 2287770315,
   1658692645, 1262815245, 3957234326, 1168096164, 2968737525, 2655813712, 2132313144, 3976047964,
   326516571, 353088456, 3679188938, 3205649712, 2654036126, 1249024881, 880166166, 691800469,
   2229503665, 1673458056, 4032208375, 1851778863, 2563757330, 376742205, 1794655231, 340247333,
   1505873033, 396524441, 879666767, 3335579166, 3260764261, 3335999539, 506221798, 4214658741,
   975887814, 2080536343, 3360539560, 571586418, 138896374, 4234352651, 2737620262, 3928362291,
   1516365296, 38056726, 3599462320, 3585007266, 3850961033, 471667319, 1536883193, 2310166751,
   1861637689, 2530999841, 4139843801, 2710569485, 827578615, 2012334720, 2907369459, 3029312804,
   2820112398, 1965028045, 35518606, 2478379033, 643747771, 1924139484, 4123405127, 3811735531,
   3429660832, 3285177704, 1948416081, 1311525291, 1183517742, 1739192232, 3979815115, 2567840007,
   4116821529, 213304419, 4125718577, 1473064925, 2442436592, 1893310111, 4195361916, 3747569474,
   828465101, 2991227658, 750582866, 1205170309, 1409813056, 678418130, 1171531016, 3821236156,
   354504587, 4202874632, 3882511497, 1893248677, 1903078632, 26340130, 2069166240, 3657122492,
   3725758099, 831344905, 811453383, 3447711422, 2434543565, 4166886888, 3358210805, 4142984013,
   2988152326, 3527824853, 982082992, 2809155763, 190157081, 3340214818, 2365432395, 2548636180,
   2894533366, 3474657421, 2372634704, 2845748389, 43024175, 2774226648, 1987702864, 3186502468,
   453610222, 4204736567, 1392892630, 2471323686, 2470534280, 3541393095, 4269885866, 3909911300,
   759132955, 1482612480, 667715263, 1795580598, 2337923983, 3390586366, 581426223, 1515718634,
   476374295, 705213300, 363062054, 2084697697, 2407503428, 2292957699, 2426213835, 2199989172,
   1987356470, 4026755612, 2147252133, 270400031, 1367820199, 2369854699, 2844269403, 79981964]

/-- The block seeded with 5489 after the first 390 iterations of the twist
loop; reference data staging the C1 evaluation. -/
def mtTwistStage15_5489 : List ℕ :=
  [2601187879, 3919438689, 2270374771, 3254473187, 705526435, 752899028, 4259895275, 1635503293,
   287311810, 3348146311, 587101971, 1133963260, 197444494, 1569747226, 2853653046, 3654449492,
   3823320007, 1939491435, 191871982, 2550916200, 2586577334, 1836795533, 2550787344, 3774101499,
   499856526, 4035163043, 969324510, 502882529, 3747915135, 3677962142, 4247339488, 668043123,
   3114378363, 585508492, 542098765, 4155704470, 3660917119, 126230230, 1522675206, 153049183,
   1637257449, 3281868928, 979462891, 1058287769, 61525060, 3887730846, 3905100104, 1956723994,
   4085220955, 3202629445, 4112745420, 877772572, 3341645661, 331737137, 2270305335, 159419296,
   2503600762, 451751822, 1083485811, 1445113017, 150608331, 422828708, 2507709208, 3804045526,
   2086909439, 4090458745, 1662894632, 2371871123, 3266028938, 3412874573, 1564584271, 4167008239,
   319160793, 1225298391, 4161956981, 3585990452, 2573113091, 1630884103, 997591457, 996494329,
   2686829642, 3651385850, 300660150, 251233608, 2731448254, 3271745554, 1133669415, 2602763402,
   3609598910, 3119890150, 2068448659, 2512941629, 2192028056, 3536672045, 1605585867, 987929371,
   3628305377, 3597455410, 3551228490, 4133937922, 2490571536, 3920924840, 3569243872, 3272512015,
   1796837098, 1735422750, 3686651765, 3897135636, 1148857629, 783899959, 2380757210, 1621036080,
   2512995685, 1314946383, 195879552, 1712690214, 134121293, 2558246413, 1909295793, 4011814961,
   3584678033, 3552917322, 2895522131, 2197479543, 599948941, 3054641120, 1896938373, 3039964013,
   1872754348, 3148850798, 2107216694, 1457074081, 2885919429, 2673983641, 3439943002, 870488328,
   3207188349, 2106353973, 3677712338, 858424175, 1253591073, 2543671298, 2173076892, 4241262707,
   3125777792, 937639453, 3794644771, 1031184467, 1762096386, 1582522796, 2401451448, 1923687658,
   3041175264, 1553520828, 1499754517, 3874023455, 2605056296, 3039888102, 1303021756, 1642751373,
   1823333037, 1633927268, 3515841308, 3444633309, 3781936666, 2809133915, 3605157463, 2111775741,
   4189224133, 1541376461, 2404717080, 4269480857, 977189618, 1665607742, 1629250805, 2457077617,
   239411934, 3667589811, 1869810277, 1786963907, 2464100961, 2087821940, 1259003512, 276996953,
   797806588, 3071924361, 2277580686, 4202707827, 1388129925, 2102369776, 1628022127, 2487208107,
   3087861794, 1052589112, 419878642, 130232609, 109631040, 2052113021, 2352638891, 3505327656,
   1245960092, 1830675294, 3601635339, 3493669978, 2998128382, 1669215416, 4294454851, 2093225537,
   1094833212, 3273688535, 3217483090, 2119564735, 1480278974, 2437451062, 1653704104, 3486785552,
   87986508, 429079035, 3325830834, 1173159674, 3117122078, 58610491, 861618023, 3127089575,
   788511071, 3165761011, 3504889677, 1407514791, 2912129370, 2669842377, 65597446, 2809811316,
   1936888672, 2735813429, 2992168722, 2213185349, 2759840193, 3953154784, 1561769082, 2042753077,
   1431122408, 2948426693, 222113656, 1532323091, 3465951077, 531543838, 463855516, 259721548,
   595116526, 3129247900, 2801040682, 538274173, 3291042483, 3080595328, 1887205203, 158727281,
   3040111581, 218801154, 3984624257, 2054350644, 2080133350, 637187864, 2040737093, 616990199,
   3893926523, 79368930, 2444288761, 2454929062, 816464100, 1797157122, 2590520370, 1517945845,
   585466041, 2048644740, 1148006305, 232096794, 1288445919, 2815085715, 3360592226, 2612544241,
   3735001635, 1982293843, 2437762859, 1380875628, 1511870631, 1503310543, 3124191302, 672465147,
   1097623, 2986124200, 3488182882, 3458056040, 960516857, 2873195180, 4198947675, 21992134,
   3918247947, 3659648629, 3966894158, 1603926895, 3947065708, 4064432254, 314205538, 872618379,
   3563243059, 304253681, 783558693, 2503271980, 3495646321, 1290872763, 3121520939, 2942098806,
   641090084, 2040744877, 2641640520, 2822298419, 2885259028, 1013302765, 2006133592, 3672833023,
   266147116, 2422267738, 501894401, 345672645, 2384900549, 3593315420, 168531307, 3138115426,
   2559469854, 878370741, 567096748, 1342975608, 1929917421, 3815079155, 3887969580, 379967032,
   3933320244, 1022246178, 3298764003, 3352606638, 3810828369, 1116729323, 2381652356, 622561456,
   2745681725, 3387916065, 938595997, 4901396, 3264727977, 3990265482, 1545695311, 2583073239,
   25719318, 359879420, 2690926668, 1737962267, 1872326961, 2971436963, 856135260, 1262752712,
   1803801525, 3825067982, 227806404, 531264838, 2692088805, 1020958178, 2462141362, 867482822,
   4142146091, 149020123, 3976685847, 2156258478, 1566485989, 636188758, 1911328438, 1228372759,
   761095935, 93755721, 1443003772, 937784737, 2078374011, 4179063358, 1256093635, 2390763207,
   1312271775, 498684952, 3381068839, 2094766662, 3384348866, 4250970780, 3655312128, 1552739510,
   2605208763, 1441755014, 181878989, 3124053868, 1447103986, 3183906156, 1728556020, 3502241336,
   3055466967, 1013272474, 818402132, 1715099063, 2900113506, 397254517, 4194863039, 1009068739,
   232864647, 2540223708, 2608288560, 2415367765, 478404847, 3455100648, 3182600021, 2115988978,
   434269567, 4117179324, 3461774077, 887256537, 3545801025, 286388911, 3451742129, 1981164769,
   786667016, 3310123729, 3097811076, 2224235657, 2959658883, 3370969234, 2514770915, 3345656436,
   2677010851, 2206236470, 271648054, 2342188545, 4292848611, 3646533909, 3754009956, 3803931226,
   4160647125, 1477814055, 4043852216, 1876372354, 3133294443, 3871104810, 3177020907, 2074304428,
   3479393793, 759562891, 164128153, 1839069216, 2114162633, 3989947309, 3611054956, 1333547922,
   835429831, 494987340, 171987910, 1252001001, 370809172, 3508925425, 2535703112, 1276855041,
   1922855120, 835673414, 3030664304, 613287117, 171219893, 3423096126, 3376881639, 2287770315,
   1658692645, 1262815245, 3957234326, 1168096164, 2968737525, 2655813712, 2132313144, 3976047964,
   326516571, 353088456, 3679188938, 3205649712, 2654036126, 1249024881, 880166166, 691800469,
   2229503665, 1673458056, 4032208375, 1851778863, 2563757330, 376742205, 1794655231, 340247333,
   1505873033, 396524441, 879666767, 3335579166, 3260764261, 3335999539, 506221798, 4214658741,
   975887814, 2080536343, 3360539560, 571586418, 138896374, 4234352651, 2737620262, 3928362291,
   1516365296, 38056726, 3599462320, 3585007266, 3850961033, 471667319, 1536883193, 2310166751,
   1861637689, 2530999841, 4139843801, 2710569485, 827578615, 2012334720, 2907369459, 3029312804,
   2820112398, 1965028045, 35518606, 2478379033, 643747771, 1924139484, 4123405127, 3811735531,
   3429660832, 3285177704, 1948416081, 1311525291, 1183517742, 1739192232, 3979815115, 2567840007,
   4116821529, 213304419, 4125718577, 1473064925, 2442436592, 1893310111, 4195361916, 3747569474,
   828465101, 2991227658, 750582866, 1205170309, 1409813056, 678418130, 1171531016, 3821236156,
   354504587, 4202874632, 3882511497, 1893248677, 1903078632, 26340130, 2069166240, 3657122492,
   3725758099, 831344905, 811453383, 3447711422, 2434543565, 4166886888, 3358210805, 4142984013,
   2988152326, 3527824853, 982082992, 2809155763, 190157081, 3340214818, 2365432395, 2548636180,
   2894533366, 3474657421, 2372634704, 2845748389, 43024175, 2774226648, 1987702864, 3186502468,
   453610222, 4204736567, 1392892630, 2471323686, 2470534280, 3541393095, 4269885866, 3909911300,
   759132955, 1482612480, 667715263, 1795580598, 2337923983, 3390586366, 581426223, 1515718634,
   476374295, 705213300, 363062054, 2084697697, 2407503428, 2292957699, 2426213835, 2199989172,
   1987356470, 4026755612, 2147252133, 270400031, 1367820199, 2369854699, 2844269403, 79981964]

/-- The block seeded with 5489 after the first 416 iterations of the twist
loop; reference data staging the C1 evaluation. -/
def mtTwistStage16_5489 : List ℕ :=
  [2601187879, 3919438689, 2270374771, 3254473187, 705526435, 752899028, 4259895275, 1635503293,
   287311810, 3348146311, 587101971, 1133963260, 197444494, 1569747226, 2853653046, 3654449492,
   3823320007, 1939491435, 191871982, 2550916200, 2586577334, 1836795533, 2550787344, 3774101499,
   499856526, 4035163043, 969324510, 502882529, 3747915135, 3677962142, 4247339488, 668043123,
   3114378363, 585508492, 542098765, 4155704470, 3660917119, 126230230, 1522675206, 153049183,
   1637257449, 3281868928, 979462891, 1058287769, 61525060, 3887730846, 3905100104, 1956723994,
   4085220955, 3202629445, 4112745420, 877772572, 3341645661, 331737137, 2270305335, 159419296,
   2503600762, 451751822, 1083485811, 1445113017, 150608331, 422828708, 2507709208, 3804045526,
   2086909439, 4090458745, 1662894632, 2371871123, 3266028938, 3412874573, 1564584271, 4167008239,
   319160793, 1225298391, 4161956981, 3585990452, 2573113091, 1630884103, 997591457, 996494329,
   2686829642, 3651385850, 300660150, 251233608, 2731448254, 3271745554, 1133669415, 2602763402,
   3609598910, 3119890150, 2068448659, 2512941629, 2192028056, 3536672045, 1605585867, 987929371,
   3628305377, 3597455410, 3551228490, 4133937922, 2490571536, 3920924840, 3569243872, 3272512015,
   1796837098, 1735422750, 3686651765, 3897135636, 1148857629, 783899959, 2380757210, 1621036080,
   2512995685, 1314946383, 195879552, 1712690214, 134121293, 2558246413, 1909295793, 4011814961,
   3584678033, 3552917322, 2895522131, 2197479543, 599948941, 3054641120, 1896938373, 3039964013,
   1872754348, 3148850798, 2107216694, 1457074081, 2885919429, 2673983641, 3439943002, 870488328,
   3207188349, 2106353973, 3677712338, 858424175, 1253591073, 2543671298, 2173076892, 4241262707,
   3125777792, 937639453, 3794644771, 1031184467, 1762096386, 1582522796, 2401451448, 1923687658,
   3041175264, 1553520828, 1499754517, 3874023455, 2605056296, 3039888102, 1303021756, 1642751373,
   1823333037, 1633927268, 3515841308, 3444633309, 3781936666, 2809133915, 3605157463, 2111775741,
   4189224133, 1541376461, 2404717080, 4269480857, 977189618, 1665607742, 1629250805, 2457077617,
   239411934, 3667589811, 1869810277, 1786963907, 2464100961, 2087821940, 1259003512, 276996953,
   797806588, 3071924361, 2277580686, 4202707827, 1388129925, 2102369776, 1628022127, 2487208107,
   3087861794, 1052589112, 419878642, 130232609, 109631040, 2052113021, 2352638891, 3505327656,
   1245960092, 1830675294, 3601635339, 3493669978, 2998128382, 1669215416, 4294454851, 2093225537,
   1094833212, 3273688535, 3217483090, 2119564735, 1480278974, 2437451062, 1653704104, 3486785552,
   87986508, 429079035, 3325830834, 1173159674, 3117122078, 58610491, 861618023, 3127089575,
   788511071, 3165761011, 3504889677, 1407514791, 2912129370, 2669842377, 65597446, 2809811316,
   1936888672, 2735813429, 2992168722, 2213185349, 2759840193, 3953154784, 1561769082, 2042753077,
   1431122408, 2948426693, 222113656, 1532323091, 3465951077, 531543838, 463855516, 259721548,
   595116526, 3129247900, 2801040682, 538274173, 3291042483, 3080595328, 1887205203, 158727281,
   3040111581, 218801154, 3984624257, 2054350644, 2080133350, 637187864, 2040737093, 616990199,
   3893926523, 79368930, 2444288761, 2454929062, 816464100, 1797157122, 2590520370, 1517945845,
   585466041, 2048644740, 1148006305, 232096794, 1288445919, 2815085715, 3360592226, 2612544241,
   3735001635, 1982293843, 2437762859, 1380875628, 1511870631, 1503310543, 3124191302, 672465147,
   1097623, 2986124200, 3488182882, 3458056040, 960516857, 2873195180, 4198947675, 21992134,
   3918247947, 3659648629, 3966894158, 1603926895, 3947065708, 4064432254, 314205538, 872618379,
   3563243059, 304253681, 783558693, 2503271980, 3495646321, 1290872763, 3121520939, 2942098806,
   641090084, 2040744877, 2641640520, 2822298419, 2885259028, 1013302765, 2006133592, 3672833023,
   266147116, 2422267738, 501894401, 345672645, 2384900549, 3593315420, 168531307, 3138115426,
   2559469854, 878370741, 567096748, 1342975608, 1929917421, 3815079155, 3887969580, 379967032,
   3933320244, 1022246178, 3298764003, 3352606638, 3810828369, 1116729323, 2381652356, 622561456,
   2745681725, 3387916065, 938595997, 4901396, 3264727977, 3990265482, 1545695311, 2583073239,
   25719318, 359879420, 2690926668, 1737962267, 1872326961, 2971436963, 856135260, 1262752712,
   1803801525, 3825067982, 227806404, 531264838, 2692088805, 1020958178, 2462141362, 867482822,
   4142146091, 149020123, 3976685847, 2156258478, 1566485989, 636188758, 1911328438, 1228372759,
   761095935, 93755721, 1443003772, 937784737, 2078374011, 4179063358, 1256093635, 2390763207,
   1312271775, 498684952, 3381068839, 2094766662, 3384348866, 4250970780, 2736167046, 1975999640,
   3449310360, 1249986286, 1623556171, 2459105852, 1161613179, 4241934306, 3592740997, 4164507334,
   1031114739, 2038402399, 945921397, 405487343, 138708438, 3414161765, 2912469629, 220667773,
   2009463834, 112293856, 3463567532, 4173647700, 2447477757, 1074847995, 2240777610, 3343165669,
   434269567, 4117179324, 3461774077, 887256537, 3545801025, 286388911, 3451742129, 1981164769,
   786667016, 3310123729, 3097811076, 2224235657, 2959658883, 3370969234, 2514770915, 3345656436,
   2677010851, 2206236470, 271648054, 2342188545, 4292848611, 3646533909, 3754009956, 3803931226,
   4160647125, 1477814055, 4043852216, 1876372354, 3133294443, 3871104810, 3177020907, 2074304428,
   3479393793, 759562891, 164128153, 1839069216, 2114162633, 3989947309, 3611054956, 1333547922,
   835429831, 494987340, 171987910, 1252001001, 370809172, 3508925425, 2535703112, 1276855041,
   1922855120, 835673414, 3030664304, 613287117, 171219893, 3423096126, 3376881639, 2287770315,
   1658692645, 1262815245, 3957234326, 1168096164, 2968737525, 2655813712, 2132313144, 3976047964,
   326516571, 353088456, 3679188938, 3205649712, 2654036126, 1249024881, 880166166, 691800469,
   2229503665, 1673458056, 4032208375, 1851778863, 2563757330, 376742205, 1794655231, 340247333,
   1505873033, 396524441, 879666767, 3335579166, 3260764261, 3335999539, 506221798, 4214658741,
   975887814, 2080536343, 3360539560, 571586418, 138896374, 4234352651, 2737620262, 3928362291,
   1516365296, 38056726, 3599462320, 3585007266, 3850961033, 471667319, 1536883193, 2310166751,
   1861637689, 2530999841, 4139843801, 2710569485, 827578615, 2012334720, 2907369459, 3029312804,
   2820112398, 1965028045, 35518606, 2478379033, 643747771, 1924139484, 4123405127, 3811735531,
   3429660832, 3285177704, 1948416081, 1311525291, 1183517742, 1739192232, 3979815115, 2567840007,
   4116821529, 213304419, 4125718577, 1473064925, 2442436592, 1893310111, 4195361916, 3747569474,
   828465101, 2991227658, 750582866, 1205170309, 1409813056, 678418130, 1171531016, 3821236156,
   354504587, 4202874632, 3882511497, 1893248677, 1903078632, 26340130, 2069166240, 3657122492,
   3725758099, 831344905, 811453383, 3447711422, 2434543565, 4166886888, 3358210805, 4142984013,
   2988152326, 3527824853, 982082992, 2809155763, 190157081, 3340214818, 2365432395, 2548636180,
   2894533366, 3474657421, 2372634704, 2845748389, 43024175, 2774226648, 1987702864, 3186502468,
   453610222, 4204736567, 1392892630, 2471323686, 2470534280, 3541393095, 4269885866, 3909911300,
   759132955, 1482612480, 667715263, 1795580598, 2337923983, 3390586366, 581426223, 1515718634,
   476374295, 705213300, 363062054, 2084697697, 2407503428, 2292957699, 2426213835, 2199989172,
   1987356470, 4026755612, 2147252133, 270400031, 1367820199, 2369854699, 2844269403, 79981964]

/-- The block seeded with 5489 after the first 442 iterations of the twist
loop; reference data staging the C1 evaluation. -/
def mtTwistStage17_5489 : List ℕ :=
  [2601187879, 3919438689, 2270374771, 3254473187, 705526435, 752899028, 4259895275, 1635503293,
   287311810, 3348146311, 587101971, 1133963260, 197444494, 1569747226, 2853653046, 3654449492,
   3823320007, 1939491435, 191871982, 2550916200, 2586577334, 1836795533, 2550787344, 3774101499,
   499856526, 4035163043, 969324510, 502882529, 3747915135, 3677962142, 4247339488, 668043123,
   3114378363, 585508492, 542098765, 4155704470, 3660917119, 126230230, 1522675206, 153049183,
   1637257449, 3281868928, 979462891, 1058287769, 61525060, 3887730846, 3905100104, 1956723994,
   4085220955, 3202629445, 4112745420, 877772572, 3341645661, 331737137, 2270305335, 159419296,
   2503600762, 451751822, 1083485811, 1445113017, 150608331, 422828708, 2507709208, 3804045526,
   2086909439, 4090458745, 1662894632, 2371871123, 3266028938, 3412874573, 1564584271, 4167008239,
   319160793, 1225298391, 4161956981, 3585990452, 2573113091, 1630884103, 997591457, 996494329,
   2686829642, 3651385850, 300660150, 251233608, 2731448254, 3271745554, 1133669415, 2602763402,
   3609598910, 3119890150, 2068448659, 2512941629, 2192028056, 3536672045, 1605585867, 987929371,
   3628305377, 3597455410, 3551228490, 4133937922, 2490571536, 3920924840, 3569243872, 3272512015,
   1796837098, 1735422750, 3686651765, 3897135636, 1148857629, 783899959, 2380757210, 1621036080,
   2512995685, 1314946383, 195879552, 1712690214, 134121293, 2558246413, 1909295793, 4011814961,
   3584678033, 3552917322, 2895522131, 2197479543, 599948941, 3054641120, 1896938373, 3039964013,
   1872754348, 3148850798, 2107216694, 1457074081, 2885919429, 2673983641, 3439943002, 870488328,
   3207188349, 2106353973, 3677712338, 858424175, 1253591073, 2543671298, 2173076892, 4241262707,
   3125777792, 937639453, 3794644771, 1031184467, 1762096386, 1582522796, 2401451448, 1923687658,
   3041175264, 1553520828, 1499754517, 3874023455, 2605056296, 3039888102, 1303021756, 1642751373,
   1823333037, 1633927268, 3515841308, 3444633309, 3781936666, 2809133915, 3605157463, 2111775741,
   4189224133, 1541376461, 2404717080, 4269480857, 977189618, 1665607742, 1629250805, 2457077617,
   239411934, 3667589811, 1869810277, 1786963907, 2464100961, 2087821940, 1259003512, 276996953,
   797806588, 3071924361, 2277580686, 4202707827, 1388129925, 2102369776, 1628022127, 2487208107,
   3087861794, 1052589112, 419878642, 130232609, 109631040, 2052113021, 2352638891, 3505327656,
   1245960092, 1830675294, 3601635339, 3493669978, 2998128382, 1669215416, 4294454851, 2093225537,
   1094833212, 3273688535, 3217483090, 2119564735, 1480278974, 2437451062, 1653704104, 3486785552,
   87986508, 429079035, 3325830834, 1173159674, 3117122078, 58610491, 861618023, 3127089575,
   788511071, 3165761011, 3504889677, 1407514791, 2912129370, 2669842377, 65597446, 2809811316,
   1936888672, 2735813429, 2992168722, 2213185349, 2759840193, 3953154784, 1561769082, 2042753077,
   1431122408, 2948426693, 222113656, 1532323091, 3465951077, 531543838, 463855516, 259721548,
   595116526, 3129247900, 2801040682, 538274173, 3291042483, 3080595328, 1887205203, 158727281,
   3040111581, 218801154, 3984624257, 2054350644, 2080133350, 637187864, 2040737093, 616990199,
   3893926523, 79368930, 2444288761, 2454929062, 816464100, 1797157122, 2590520370, 1517945845,
   585466041, 2048644740, 1148006305, 232096794, 1288445919, 2815085715, 3360592226, 2612544241,
   3735001635, 1982293843, 2437762859, 1380875628, 1511870631, 1503310543, 3124191302, 672465147,
   1097623, 2986124200, 3488182882, 3458056040, 960516857, 2873195180, 4198947675, 21992134,
   3918247947, 3659648629, 3966894158, 1603926895, 3947065708, 4064432254, 314205538, 872618379,
   3563243059, 304253681, 783558693, 2503271980, 3495646321, 1290872763, 3121520939, 2942098806,
   641090084, 2040744877, 2641640520, 2822298419, 2885259028, 1013302765, 2006133592, 3672833023,
   266147116, 2422267738, 501894401, 345672645, 2384900549, 3593315420, 168531307, 3138115426,
   2559469854, 878370741, 567096748, 1342975608, 1929917421, 3815079155, 3887969580, 379967032,
   3933320244, 1022246178, 3298764003, 3352606638, 3810828369, 1116729323, 2381652356, 622561456,
   2745681725, 3387916065, 938595997, 4901396, 3264727977, 3990265482, 1545695311, 2583073239,
   25719318, 359879420, 2690926668, 1737962267, 1872326961, 2971436963, 856135260, 1262752712,
   1803801525, 3825067982, 227806404, 531264838, 2692088805, 1020958178, 2462141362, 867482822,
   4142146091, 149020123, 3976685847, 2156258478, 1566485989, 636188758, 1911328438, 1228372759,
   761095935, 93755721, 1443003772, 937784737, 2078374011, 4179063358, 1256093635, 2390763207,
   1312271775, 498684952, 3381068839, 2094766662, 3384348866, 4250970780, 2736167046, 1975999640,
   3449310360, 1249986286, 1623556171, 2459105852, 1161613179, 4241934306, 3592740997, 4164507334,
   1031114739, 2038402399, 945921397, 405487343, 138708438, 3414161765, 2912469629, 220667773,
   2009463834, 112293856, 3463567532, 4173647700, 2447477757, 1074847995, 2240777610, 3343165669,
   1207699502, 2670340302, 1464222360, 145352797, 4013782448, 2798704117, 3854604174, 301538628,
   3254669258, 3496478697, 195964083, 2340356226, 158045975, 89523493, 3012065632, 1685882608,
   582880035, 3084954840, 3758218654, 2812719378, 914681218, 3492165600, 252202130, 3133981835,
   1682632314, 1511367028, 4043852216, 1876372354, 3133294443, 3871104810, 3177020907, 2074304428,
   3479393793, 759562891, 164128153, 1839069216, 2114162633, 3989947309, 3611054956, 1333547922,
   835429831, 494987340, 171987910, 1252001001, 370809172, 3508925425, 2535703112, 1276855041,
   1922855120, 835673414, 3030664304, 613287117, 171219893, 3423096126, 3376881639, 2287770315,
   1658692645, 1262815245, 3957234326, 1168096164, 2968737525, 2655813712, 2132313144, 3976047964,
   326516571, 353088456, 3679188938, 3205649712, 2654036126, 1249024881, 880166166, 691800469,
   2229503665, 1673458056, 4032208375, 1851778863, 2563757330, 376742205, 1794655231, 340247333,
   1505873033, 396524441, 879666767, 3335579166, 3260764261, 3335999539, 506221798, 4214658741,
   975887814, 2080536343, 3360539560, 571586418, 138896374, 4234352651, 2737620262, 3928362291,
   1516365296, 38056726, 3599462320, 3585007266, 3850961033, 471667319, 1536883193, 2310166751,
   1861637689, 2530999841, 4139843801, 2710569485, 827578615, 2012334720, 2907369459, 3029312804,
   2820112398, 1965028045, 35518606, 2478379033, 643747771, 1924139484, 4123405127, 3811735531,
   3429660832, 3285177704, 1948416081, 1311525291, 1183517742, 1739192232, 3979815115, 2567840007,
   4116821529, 213304419, 4125718577, 1473064925, 2442436592, 1893310111, 4195361916, 3747569474,
   828465101, 2991227658, 750582866, 1205170309, 1409813056, 678418130, 1171531016, 3821236156,
   354504587, 4202874632, 3882511497, 1893248677, 1903078632, 26340130, 2069166240, 3657122492,
   3725758099, 831344905, 811453383, 3447711422, 2434543565, 4166886888, 3358210805, 4142984013,
   2988152326, 3527824853, 982082992, 2809155763, 190157081, 3340214818, 2365432395, 2548636180,
   2894533366, 3474657421, 2372634704, 2845748389, 43024175, 2774226648, 1987702864, 3186502468,
   453610222, 4204736567, 1392892630, 2471323686, 2470534280, 3541393095, 4269885866, 3909911300,
   759132955, 1482612480, 667715263, 1795580598, 2337923983, 3390586366, 581426223, 1515718634,
   476374295, 705213300, 363062054, 2084697697, 2407503428, 2292957699, 2426213835, 2199989172,
   1987356470, 4026755612, 2147252133, 270400031, 1367820199, 2369854699, 2844269403, 79981964]

/-- The block seeded with 5489 after the first 468 iterations of the twist
loop; reference data staging the C1 evaluation. -/
def mtTwistStage18_5489 : List ℕ :=
  [2601187879, 3919438689, 2270374771, 3254473187, 705526435, 752899028, 4259895275, 1635503293,
   287311810, 3348146311, 587101971, 1133963260, 197444494, 1569747226, 2853653046, 3654449492,
   3823320007, 1939491435, 191871982, 2550916200, 2586577334, 1836795533, 2550787344, 3774101499,
   499856526, 4035163043, 969324510, 502882529, 3747915135, 3677962142, 4247339488, 668043123,
   3114378363, 585508492, 542098765, 4155704470, 3660917119, 126230230, 1522675206, 153049183,
   1637257449, 3281868928, 979462891, 1058287769, 61525060, 3887730846, 3905100104, 1956723994,
   4085220955, 3202629445, 4112745420, 877772572, 3341645661, 331737137, 2270305335, 159419296,
   2503600762, 451751822, 1083485811, 1445113017, 150608331, 422828708, 2507709208, 3804045526,
   2086909439, 4090458745, 1662894632, 2371871123, 3266028938, 3412874573, 1564584271, 4167008239,
   319160793, 1225298391, 4161956981, 3585990452, 2573113091, 1630884103, 997591457, 996494329,
   2686829642, 3651385850, 300660150, 251233608, 2731448254, 3271745554, 1133669415, 2602763402,
   3609598910, 3119890150, 2068448659, 2512941629, 2192028056, 3536672045, 1605585867, 987929371,
   3628305377, 3597455410, 3551228490, 4133937922, 2490571536, 3920924840, 3569243872, 3272512015,
   1796837098, 1735422750, 3686651765, 3897135636, 1148857629, 783899959, 2380757210, 1621036080,
   2512995685, 1314946383, 195879552, 1712690214, 134121293, 2558246413, 1909295793, 4011814961,
   3584678033, 3552917322, 2895522131, 2197479543, 599948941, 3054641120, 1896938373, 3039964013,
   1872754348, 3148850798, 2107216694, 1457074081, 2885919429, 2673983641, 3439943002, 870488328,
   3207188349, 2106353973, 3677712338, 858424175, 1253591073, 2543671298, 2173076892, 4241262707,
   3125777792, 937639453, 3794644771, 1031184467, 1762096386, 1582522796, 2401451448, 1923687658,
   3041175264, 1553520828, 1499754517, 3874023455, 2605056296, 3039888102, 1303021756, 1642751373,
   1823333037, 1633927268, 3515841308, 3444633309, 3781936666, 2809133915, 3605157463, 2111775741,
   4189224133, 1541376461, 2404717080, 4269480857, 977189618, 1665607742, 1629250805, 2457077617,
   239411934, 3667589811, 1869810277, 1786963907, 2464100961, 2087821940, 1259003512, 276996953,
   797806588, 3071924361, 2277580686, 4202707827, 1388129925, 2102369776, 1628022127, 2487208107,
   3087861794, 1052589112, 419878642, 130232609, 109631040, 2052113021, 2352638891, 3505327656,
   1245960092, 1830675294, 3601635339, 3493669978, 2998128382, 1669215416, 4294454851, 2093225537,
   1094833212, 3273688535, 3217483090, 2119564735, 1480278974, 2437451062, 1653704104, 3486785552,
   87986508, 429079035, 3325830834, 1173159674, 3117122078, 58610491, 861618023, 3127089575,
   788511071, 3165761011, 3504889677, 1407514791, 2912129370, 2669842377, 65597446, 2809811316,
   1936888672, 2735813429, 2992168722, 2213185349, 2759840193, 3953154784, 1561769082, 2042753077,
   1431122408, 2948426693, 222113656, 1532323091, 3465951077, 531543838, 463855516, 259721548,
   595116526, 3129247900, 2801040682, 538274173, 3291042483, 3080595328, 1887205203, 158727281,
   3040111581, 218801154, 3984624257, 2054350644, 2080133350, 637187864, 2040737093, 616990199,
   3893926523, 79368930, 2444288761, 2454929062, 816464100, 1797157122, 2590520370, 1517945845,
   585466041, 2048644740, 1148006305, 232096794, 1288445919, 2815085715, 3360592226, 2612544241,
   3735001635, 1982293843, 2437762859, 1380875628, 1511870631, 1503310543, 3124191302, 672465147,
   1097623, 2986124200, 3488182882, 3458056040, 960516857, 2873195180, 4198947675, 21992134,
   3918247947, 3659648629, 3966894158, 1603926895, 3947065708, 4064432254, 314205538, 872618379,
   3563243059, 304253681, 783558693, 2503271980, 3495646321, 1290872763, 3121520939, 2942098806,
   641090084, 2040744877, 2641640520, 2822298419, 2885259028, 1013302765, 2006133592, 3672833023,
   266147116, 2422267738, 501894401, 345672645, 2384900549, 3593315420, 168531307, 3138115426,
   2559469854, 878370741, 567096748, 1342975608, 1929917421, 3815079155, 3887969580, 379967032,
   3933320244, 1022246178, 3298764003, 3352606638, 3810828369, 1116729323, 2381652356, 622561456,
   2745681725, 3387916065, 938595997, 4901396, 3264727977, 3990265482, 1545695311, 2583073239,
   25719318, 359879420, 2690926668, 1737962267, 1872326961, 2971436963, 856135260, 1262752712,
   1803801525, 3825067982, 227806404, 531264838, 2692088805, 1020958178, 2462141362, 867482822,
   4142146091, 149020123, 3976685847, 2156258478, 1566485989, 636188758, 1911328438, 1228372759,
   761095935, 93755721, 1443003772, 937784737, 2078374011, 4179063358, 1256093635, 2390763207,
   1312271775, 498684952, 3381068839, 2094766662, 3384348866, 4250970780, 2736167046, 1975999640,
   3449310360, 1249986286, 1623556171, 2459105852, 1161613179, 4241934306, 3592740997, 4164507334,
   1031114739, 2038402399, 945921397, 405487343, 138708438, 3414161765, 2912469629, 220667773,
   2009463834, 112293856, 3463567532, 4173647700, 2447477757, 1074847995, 2240777610, 3343165669,
   1207699502, 2670340302, 1464222360, 145352797, 4013782448, 2798704117, 3854604174, 301538628,
   3254669258, 3496478697, 195964083, 2340356226, 158045975, 89523493, 3012065632, 1685882608,
   582880035, 3084954840, 3758218654, 2812719378, 914681218, 3492165600, 252202130, 3133981835,
   1682632314, 1511367028, 3091183057, 2169963046, 1791825518, 26880152, 943542572, 124950977,
   3436569249, 2931277172, 2360174007, 2297876068, 324140282, 3145103099, 878367086, 746517350,
   2447571951, 113826277, 455271391, 2021629898, 311130642, 4190715446, 2096076314, 2637293993,
   4081579075, 1195677250, 2995667596, 3378498797, 171219893, 3423096126, 3376881639, 2287770315,
   1658692645, 1262815245, 3957234326, 1168096164, 2968737525, 2655813712, 2132313144, 3976047964,
   326516571, 353088456, 3679188938, 3205649712, 2654036126, 1249024881, 880166166, 691800469,
   2229503665, 1673458056, 4032208375, 1851778863, 2563757330, 376742205, 1794655231, 340247333,
   1505873033, 396524441, 879666767, 3335579166, 3260764261, 3335999539, 506221798, 4214658741,
   975887814, 2080536343, 3360539560, 571586418, 138896374, 4234352651, 2737620262, 3928362291,
   1516365296, 38056726, 3599462320, 3585007266, 3850961033, 471667319, 1536883193, 2310166751,
   1861637689, 2530999841, 4139843801, 2710569485, 827578615, 2012334720, 2907369459, 3029312804,
   2820112398, 1965028045, 35518606, 2478379033, 643747771, 1924139484, 4123405127, 3811735531,
   3429660832, 3285177704, 1948416081, 1311525291, 1183517742, 1739192232, 3979815115, 2567840007,
   4116821529, 213304419, 4125718577, 1473064925, 2442436592, 1893310111, 4195361916, 3747569474,
   828465101, 2991227658, 750582866, 1205170309, 1409813056, 678418130, 1171531016, 3821236156,
   354504587, 4202874632, 3882511497, 1893248677, 1903078632, 26340130, 2069166240, 3657122492,
   3725758099, 831344905, 811453383, 3447711422, 2434543565, 4166886888, 3358210805, 4142984013,
   2988152326, 3527824853, 982082992, 2809155763, 190157081, 3340214818, 2365432395, 2548636180,
   2894533366, 3474657421, 2372634704, 2845748389, 43024175, 2774226648, 1987702864, 3186502468,
   453610222, 4204736567, 1392892630, 2471323686, 2470534280, 3541393095, 4269885866, 3909911300,
   759132955, 1482612480, 667715263, 1795580598, 2337923983, 3390586366, 581426223, 1515718634,
   476374295, 705213300, 363062054, 2084697697, 2407503428, 2292957699, 2426213835, 2199989172,
   1987356470, 4026755612, 2147252133, 270400031, 1367820199, 2369854699, 2844269403, 79981964]

/-- The block seeded with 5489 after the first 494 iterations of the twist
loop; reference data staging the C1 evaluation. -/
def mtTwistStage19_5489 : List ℕ :=
  [2601187879, 3919438689, 2270374771, 3254473187, 705526435, 752899028, 4259895275, 1635503293,
   287311810, 3348146311, 587101971, 1133963260, 197444494, 1569747226, 2853653046, 3654449492,
   3823320007, 1939491435, 191871982, 2550916200, 2586577334, 1836795533, 2550787344, 3774101499,
   499856526, 4035163043, 969324510, 502882529, 3747915135, 3677962142, 4247339488, 668043123,
   3114378363, 585508492, 542098765, 4155704470, 3660917119, 126230230, 1522675206, 153049183,
   1637257449, 3281868928, 979462891, 1058287769, 61525060, 3887730846, 3905100104, 1956723994,
   4085220955, 3202629445, 4112745420, 877772572, 3341645661, 331737137, 2270305335, 159419296,
   2503600762, 451751822, 1083485811, 1445113017, 150608331, 422828708, 2507709208, 3804045526,
   2086909439, 4090458745, 1662894632, 2371871123, 3266028938, 3412874573, 1564584271, 4167008239,
   319160793, 1225298391, 4161956981, 3585990452, 2573113091, 1630884103, 997591457, 996494329,
   2686829642, 3651385850, 300660150, 251233608, 2731448254, 3271745554, 1133669415, 2602763402,
   3609598910, 3119890150, 2068448659, 2512941629, 2192028056, 3536672045, 1605585867, 987929371,
   3628305377, 3597455410, 3551228490, 4133937922, 2490571536, 3920924840, 3569243872, 3272512015,
   1796837098, 1735422750, 3686651765, 3897135636, 1148857629, 783899959, 2380757210, 1621036080,
   2512995685, 1314946383, 195879552, 1712690214, 134121293, 2558246413, 1909295793, 4011814961,
   3584678033, 3552917322, 2895522131, 2197479543, 599948941, 3054641120, 1896938373, 3039964013,
   1872754348, 3148850798, 2107216694, 1457074081, 2885919429, 2673983641, 3439943002, 870488328,
   3207188349, 2106353973, 3677712338, 858424175, 1253591073, 2543671298, 2173076892, 4241262707,
   3125777792, 937639453, 3794644771, 1031184467, 1762096386, 1582522796, 2401451448, 1923687658,
   3041175264, 1553520828, 1499754517, 3874023455, 2605056296, 3039888102, 1303021756, 1642751373,
   1823333037, 1633927268, 3515841308, 3444633309, 3781936666, 2809133915, 3605157463, 2111775741,
   4189224133, 1541376461, 2404717080, 4269480857, 977189618, 1665607742, 1629250805, 2457077617,
   239411934, 3667589811, 1869810277, 1786963907, 2464100961, 2087821940, 1259003512, 276996953,
   797806588, 3071924361, 2277580686, 4202707827, 1388129925, 2102369776, 1628022127, 2487208107,
   3087861794, 1052589112, 419878642, 130232609, 109631040, 2052113021, 2352638891, 3505327656,
   1245960092, 1830675294, 3601635339, 3493669978, 2998128382, 1669215416, 4294454851, 2093225537,
   1094833212, 3273688535, 3217483090, 2119564735, 1480278974, 2437451062, 1653704104, 3486785552,
   87986508, 429079035, 3325830834, 1173159674, 3117122078, 58610491, 861618023, 3127089575,
   788511071, 3165761011, 3504889677, 1407514791, 2912129370, 2669842377, 65597446, 2809811316,
   1936888672, 2735813429, 2992168722, 2213185349, 2759840193, 3953154784, 1561769082, 2042753077,
   1431122408, 2948426693, 222113656, 1532323091, 3465951077, 531543838, 463855516, 259721548,
   595116526, 3129247900, 2801040682, 538274173, 3291042483, 3080595328, 1887205203, 158727281,
   3040111581, 218801154, 3984624257, 2054350644, 2080133350, 637187864, 2040737093, 616990199,
   3893926523, 79368930, 2444288761, 2454929062, 816464100, 1797157122, 2590520370, 1517945845,
   585466041, 2048644740, 1148006305, 232096794, 1288445919, 2815085715, 3360592226, 2612544241,
   3735001635, 1982293843, 2437762859, 1380875628, 1511870631, 1503310543, 3124191302, 672465147,
   1097623, 2986124200, 3488182882, 3458056040, 960516857, 2873195180, 4198947675, 21992134,
   3918247947, 3659648629, 3966894158, 1603926895, 3947065708, 4064432254, 314205538, 872618379,
   3563243059, 304253681, 783558693, 2503271980, 3495646321, 1290872763, 3121520939, 2942098806,
   641090084, 2040744877, 2641640520, 2822298419, 2885259028, 1013302765, 2006133592, 3672833023,
   266147116, 2422267738, 501894401, 345672645, 2384900549, 3593315420, 168531307, 3138115426,
   2559469854, 878370741, 567096748, 1342975608, 1929917421, 3815079155, 3887969580, 379967032,
   3933320244, 1022246178, 3298764003, 3352606638, 3810828369, 1116729323, 2381652356, 622561456,
   2745681725, 3387916065, 938595997, 4901396, 3264727977, 3990265482, 1545695311, 2583073239,
   25719318, 359879420, 2690926668, 1737962267, 1872326961, 2971436963, 856135260, 1262752712,
   1803801525, 3825067982, 227806404, 531264838, 2692088805, 1020958178, 2462141362, 867482822,
   4142146091, 149020123, 3976685847, 2156258478, 1566485989, 636188758, 1911328438, 1228372759,
   761095935, 93755721, 1443003772, 937784737, 2078374011, 4179063358, 1256093635, 2390763207,
   1312271775, 498684952, 3381068839, 2094766662, 3384348866, 4250970780, 2736167046, 1975999640,
   3449310360, 1249986286, 1623556171, 2459105852, 1161613179, 4241934306, 3592740997, 4164507334,
   1031114739, 2038402399, 945921397, 405487343, 138708438, 3414161765, 2912469629, 220667773,
   2009463834, 112293856, 3463567532, 4173647700, 2447477757, 1074847995, 2240777610, 3343165669,
   1207699502, 2670340302, 1464222360, 145352797, 4013782448, 2798704117, 3854604174, 301538628,
   3254669258, 3496478697, 195964083, 2340356226, 158045975, 89523493, 3012065632, 1685882608,
   582880035, 3084954840, 3758218654, 2812719378, 914681218, 3492165600, 252202130, 3133981835,
   1682632314, 1511367028, 3091183057, 2169963046, 1791825518, 26880152, 943542572, 124950977,
   3436569249, 2931277172, 2360174007, 2297876068, 324140282, 3145103099, 878367086, 746517350,
   2447571951, 113826277, 455271391, 2021629898, 311130642, 4190715446, 2096076314, 2637293993,
   4081579075, 1195677250, 2995667596, 3378498797, 2310622554, 4036366420, 2255722665, 653284776,
   2734982087, 776639191, 1840567454, 2718554699, 4121086132, 3648536374, 376160211, 345701825,
   3172728420, 1574538422, 1459410665, 4197243794, 4047198565, 4156270602, 4158935841, 3766821729,
   1411764188, 3632321377, 3403794111, 3833557234, 3599364771, 1036284889, 1794655231, 340247333,
   1505873033, 396524441, 879666767, 3335579166, 3260764261, 3335999539, 506221798, 4214658741,
   975887814, 2080536343, 3360539560, 571586418, 138896374, 4234352651, 2737620262, 3928362291,
   1516365296, 38056726, 3599462320, 3585007266, 3850961033, 471667319, 1536883193, 2310166751,
   1861637689, 2530999841, 4139843801, 2710569485, 827578615, 2012334720, 2907369459, 3029312804,
   2820112398, 1965028045, 35518606, 2478379033, 643747771, 1924139484, 4123405127, 3811735531,
   3429660832, 3285177704, 1948416081, 1311525291, 1183517742, 1739192232, 3979815115, 2567840007,
   4116821529, 213304419, 4125718577, 1473064925, 2442436592, 1893310111, 4195361916, 3747569474,
   828465101, 2991227658, 750582866, 1205170309, 1409813056, 678418130, 1171531016, 3821236156,
   354504587, 4202874632, 3882511497, 1893248677, 1903078632, 26340130, 2069166240, 3657122492,
   3725758099, 831344905, 811453383, 3447711422, 2434543565, 4166886888, 3358210805, 4142984013,
   2988152326, 3527824853, 982082992, 2809155763, 190157081, 3340214818, 2365432395, 2548636180,
   2894533366, 3474657421, 2372634704, 2845748389, 43024175, 2774226648, 1987702864, 3186502468,
   453610222, 4204736567, 1392892630, 2471323686, 2470534280, 3541393095, 4269885866, 3909911300,
   759132955, 1482612480, 667715263, 1795580598, 2337923983, 3390586366, 581426223, 1515718634,
   476374295, 705213300, 363062054, 2084697697, 2407503428, 2292957699, 2426213835, 2199989172,
   1987356470, 4026755612, 2147252133, 270400031, 1367820199, 2369854699, 2844269403, 79981964]

/-- The block seeded with 5489 after the first 520 iterations of the twist
loop; reference data staging the C1 evaluation. -/
def mtTwistStage20_5489 : List ℕ :=
  [2601187879, 3919438689, 2270374771, 3254473187, 705526435, 752899028, 4259895275, 1635503293,
   287311810, 3348146311, 587101971, 1133963260, 197444494, 1569747226, 2853653046, 3654449492,
   3823320007, 1939491435, 191871982, 2550916200, 2586577334, 1836795533, 2550787344, 3774101499,
   499856526, 4035163043, 969324510, 502882529, 3747915135, 3677962142, 4247339488, 668043123,
   3114378363, 585508492, 542098765, 4155704470, 3660917119, 126230230, 1522675206, 153049183,
   1637257449, 3281868928, 979462891, 1058287769, 61525060, 3887730846, 3905100104, 1956723994,
   4085220955, 3202629445, 4112745420, 877772572, 3341645661, 331737137, 2270305335, 159419296,
   2503600762, 451751822, 1083485811, 1445113017, 150608331, 422828708, 2507709208, 3804045526,
   2086909439, 4090458745, 1662894632, 2371871123, 3266028938, 3412874573, 1564584271, 4167008239,
   319160793, 1225298391, 4161956981, 3585990452, 2573113091, 1630884103, 997591457, 996494329,
   2686829642, 3651385850, 300660150, 251233608, 2731448254, 3271745554, 1133669415, 2602763402,
   3609598910, 3119890150, 2068448659, 2512941629, 2192028056, 3536672045, 1605585867, 987929371,
   3628305377, 3597455410, 3551228490, 4133937922, 2490571536, 3920924840, 3569243872, 3272512015,
   1796837098, 1735422750, 3686651765, 3897135636, 1148857629, 783899959, 2380757210, 1621036080,
   2512995685, 1314946383, 195879552, 1712690214, 134121293, 2558246413, 1909295793, 4011814961,
   3584678033, 3552917322, 2895522131, 2197479543, 599948941, 3054641120, 1896938373, 3039964013,
   1872754348, 3148850798, 2107216694, 1457074081, 2885919429, 2673983641, 3439943002, 870488328,
   3207188349, 2106353973, 3677712338, 858424175, 1253591073, 2543671298, 2173076892, 4241262707,
   3125777792, 937639453, 3794644771, 1031184467, 1762096386, 1582522796, 2401451448, 1923687658,
   3041175264, 1553520828, 1499754517, 3874023455, 2605056296, 3039888102, 1303021756, 1642751373,
   1823333037, 1633927268, 3515841308, 3444633309, 3781936666, 2809133915, 3605157463, 2111775741,
   4189224133, 1541376461, 2404717080, 4269480857, 977189618, 1665607742, 1629250805, 2457077617,
   239411934, 3667589811, 1869810277, 1786963907, 2464100961, 2087821940, 1259003512, 276996953,
   797806588, 3071924361, 2277580686, 4202707827, 1388129925, 2102369776, 1628022127, 2487208107,
   3087861794, 1052589112, 419878642, 130232609, 109631040, 2052113021, 2352638891, 3505327656,
   1245960092, 1830675294, 3601635339, 3493669978, 2998128382, 1669215416, 4294454851, 2093225537,
   1094833212, 3273688535, 3217483090, 2119564735, 1480278974, 2437451062, 1653704104, 3486785552,
   87986508, 429079035, 3325830834, 1173159674, 3117122078, 58610491, 861618023, 3127089575,
   788511071, 3165761011, 3504889677, 1407514791, 2912129370, 2669842377, 65597446, 2809811316,
   1936888672, 2735813429, 2992168722, 2213185349, 2759840193, 3953154784, 1561769082, 2042753077,
   1431122408, 2948426693, 222113656, 1532323091, 3465951077, 531543838, 463855516, 259721548,
   595116526, 3129247900, 2801040682, 538274173, 3291042483, 3080595328, 1887205203, 158727281,
   3040111581, 218801154, 3984624257, 2054350644, 2080133350, 637187864, 2040737093, 616990199,
   3893926523, 79368930, 2444288761, 2454929062, 816464100, 1797157122, 2590520370, 1517945845,
   585466041, 2048644740, 1148006305, 232096794, 1288445919, 2815085715, 3360592226, 2612544241,
   3735001635, 1982293843, 2437762859, 1380875628, 1511870631, 1503310543, 3124191302, 672465147,
   1097623, 2986124200, 3488182882, 3458056040, 960516857, 2873195180, 4198947675, 21992134,
   3918247947, 3659648629, 3966894158, 1603926895, 3947065708, 4064432254, 314205538, 872618379,
   3563243059, 304253681, 783558693, 2503271980, 3495646321, 1290872763, 3121520939, 2942098806,
   641090084, 2040744877, 2641640520, 2822298419, 2885259028, 1013302765, 2006133592, 3672833023,
   266147116, 2422267738, 501894401, 345672645, 2384900549, 3593315420, 168531307, 3138115426,
   2559469854, 878370741, 567096748, 1342975608, 1929917421, 3815079155, 3887969580, 379967032,
   3933320244, 1022246178, 3298764003, 3352606638, 3810828369, 1116729323, 2381652356, 622561456,
   2745681725, 3387916065, 938595997, 4901396, 3264727977, 3990265482, 1545695311, 2583073239,
   25719318, 359879420, 2690926668, 1737962267, 1872326961, 2971436963, 856135260, 1262752712,
   1803801525, 3825067982, 227806404, 531264838, 2692088805, 1020958178, 2462141362, 867482822,
   4142146091, 149020123, 3976685847, 2156258478, 1566485989, 636188758, 1911328438, 1228372759,
   761095935, 93755721, 1443003772, 937784737, 2078374011, 4179063358, 1256093635, 2390763207,
   1312271775, 498684952, 3381068839, 2094766662, 3384348866, 4250970780, 2736167046, 1975999640,
   3449310360, 1249986286, 1623556171, 2459105852, 1161613179, 4241934306, 3592740997, 4164507334,
   1031114739, 2038402399, 945921397, 405487343, 138708438, 3414161765, 2912469629, 220667773,
   2009463834, 112293856, 3463567532, 4173647700, 2447477757, 1074847995, 2240777610, 3343165669,
   1207699502, 2670340302, 1464222360, 145352797, 4013782448, 2798704117, 3854604174, 301538628,
   3254669258, 3496478697, 195964083, 2340356226, 158045975, 89523493, 3012065632, 1685882608,
   582880035, 3084954840, 3758218654, 2812719378, 914681218, 3492165600, 252202130, 3133981835,
   1682632314, 1511367028, 3091183057, 2169963046, 1791825518, 26880152, 943542572, 124950977,
   3436569249, 2931277172, 2360174007, 2297876068, 324140282, 3145103099, 878367086, 746517350,
   2447571951, 113826277, 455271391, 2021629898, 311130642, 4190715446, 2096076314, 2637293993,
   4081579075, 1195677250, 2995667596, 3378498797, 2310622554, 4036366420, 2255722665, 653284776,
   2734982087, 776639191, 1840567454, 2718554699, 4121086132, 3648536374, 376160211, 345701825,
   3172728420, 1574538422, 1459410665, 4197243794, 4047198565, 4156270602, 4158935841, 3766821729,
   1411764188, 3632321377, 3403794111, 3833557234, 3599364771, 1036284889, 24670187, 2235700863,
   4190632977, 425187274, 2031251706, 3670054996, 2155400770, 192611794, 2839969695, 299462972,
   12797895, 3966267574, 3400571208, 3669765080, 3508427657, 3235589560, 3193293610, 925737567,
   1488513860, 2440222622, 1120038826, 3957100300, 1727699532, 2066529857, 1405887448, 3610495290,
   1861637689, 2530999841, 4139843801, 2710569485, 827578615, 2012334720, 2907369459, 3029312804,
   2820112398, 1965028045, 35518606, 2478379033, 643747771, 1924139484, 4123405127, 3811735531,
   3429660832, 3285177704, 1948416081, 1311525291, 1183517742, 1739192232, 3979815115, 2567840007,
   4116821529, 213304419, 4125718577, 1473064925, 2442436592, 1893310111, 4195361916, 3747569474,
   828465101, 2991227658, 750582866, 1205170309, 1409813056, 678418130, 1171531016, 3821236156,
   354504587, 4202874632, 3882511497, 1893248677, 1903078632, 26340130, 2069166240, 3657122492,
   3725758099, 831344905, 811453383, 3447711422, 2434543565, 4166886888, 3358210805, 4142984013,
   2988152326, 3527824853, 982082992, 2809155763, 190157081, 3340214818, 2365432395, 2548636180,
   2894533366, 3474657421, 2372634704, 2845748389, 43024175, 2774226648, 1987702864, 3186502468,
   453610222, 4204736567, 1392892630, 2471323686, 2470534280, 3541393095, 4269885866, 3909911300,
   759132955, 1482612480, 667715263, 1795580598, 2337923983, 3390586366, 581426223, 1515718634,
   476374295, 705213300, 363062054, 2084697697, 2407503428, 2292957699, 2426213835, 2199989172,
   1987356470, 4026755612, 2147252133, 270400031, 1367820199, 2369854699, 2844269403, 79981964]

/-- The block seeded with 5489 after the first 546 iterations of the twist
loop; reference data staging the C1 evaluation. -/
def mtTwistStage21_5489 : List ℕ :=
  [2601187879, 3919438689, 2270374771, 3254473187, 705526435, 752899028, 4259895275, 1635503293,
   287311810, 3348146311, 587101971, 1133963260, 197444494, 1569747226, 2853653046, 3654449492,
   3823320007, 1939491435, 191871982, 2550916200, 2586577334, 1836795533, 2550787344, 3774101499,
   499856526, 4035163043, 969324510, 502882529, 3747915135, 3677962142, 4247339488, 668043123,
   3114378363, 585508492, 542098765, 4155704470, 3660917119, 126230230, 1522675206, 153049183,
   1637257449, 3281868928, 979462891, 1058287769, 61525060, 3887730846, 3905100104, 1956723994,
   4085220955, 3202629445, 4112745420, 877772572, 3341645661, 331737137, 2270305335, 159419296,
   2503600762, 451751822, 1083485811, 1445113017, 150608331, 422828708, 2507709208, 3804045526,
   2086909439, 4090458745, 1662894632, 2371871123, 3266028938, 3412874573, 1564584271, 4167008239,
   319160793, 1225298391, 4161956981, 3585990452, 2573113091, 1630884103, 997591457, 996494329,
   2686829642, 3651385850, 300660150, 251233608, 2731448254, 3271745554, 1133669415, 2602763402,
   3609598910, 3119890150, 2068448659, 2512941629, 2192028056, 3536672045, 1605585867, 987929371,
   3628305377, 3597455410, 3551228490, 4133937922, 2490571536, 3920924840, 3569243872, 3272512015,
   1796837098, 1735422750, 3686651765, 3897135636, 1148857629, 783899959, 2380757210, 1621036080,
   2512995685, 1314946383, 195879552, 1712690214, 134121293, 2558246413, 1909295793, 4011814961,
   3584678033, 3552917322, 2895522131, 2197479543, 599948941, 3054641120, 1896938373, 3039964013,
   1872754348, 3148850798, 2107216694, 1457074081, 2885919429, 2673983641, 3439943002, 870488328,
   3207188349, 2106353973, 3677712338, 858424175, 1253591073, 2543671298, 2173076892, 4241262707,
   3125777792, 937639453, 3794644771, 1031184467, 1762096386, 1582522796, 2401451448, 1923687658,
   3041175264, 1553520828, 1499754517, 3874023455, 2605056296, 3039888102, 1303021756, 1642751373,
   1823333037, 1633927268, 3515841308, 3444633309, 3781936666, 2809133915, 3605157463, 2111775741,
   4189224133, 1541376461, 2404717080, 4269480857, 977189618, 1665607742, 1629250805, 2457077617,
   239411934, 3667589811, 1869810277, 1786963907, 2464100961, 2087821940, 1259003512, 276996953,
   797806588, 3071924361, 2277580686, 4202707827, 1388129925, 2102369776, 1628022127, 2487208107,
   3087861794, 1052589112, 419878642, 130232609, 109631040, 2052113021, 2352638891, 3505327656,
   1245960092, 1830675294, 3601635339, 3493669978, 2998128382, 1669215416, 4294454851, 2093225537,
   1094833212, 3273688535, 3217483090, 2119564735, 1480278974, 2437451062, 1653704104, 3486785552,
   87986508, 429079035, 3325830834, 1173159674, 3117122078, 58610491, 861618023, 3127089575,
   788511071, 3165761011, 3504889677, 1407514791, 2912129370, 2669842377, 65597446, 2809811316,
   1936888672, 2735813429, 2992168722, 2213185349, 2759840193, 3953154784, 1561769082, 2042753077,
   1431122408, 2948426693, 222113656, 1532323091, 3465951077, 531543838, 463855516, 259721548,
   595116526, 3129247900, 2801040682, 538274173, 3291042483, 3080595328, 1887205203, 158727281,
   3040111581, 218801154, 3984624257, 2054350644, 2080133350, 637187864, 2040737093, 616990199,
   3893926523, 79368930, 2444288761, 2454929062, 816464100, 1797157122, 2590520370, 1517945845,
   585466041, 2048644740, 1148006305, 232096794, 1288445919, 2815085715, 3360592226, 2612544241,
   3735001635, 1982293843, 2437762859, 1380875628, 1511870631, 1503310543, 3124191302, 672465147,
   1097623, 2986124200, 3488182882, 3458056040, 960516857, 2873195180, 4198947675, 21992134,
   3918247947, 3659648629, 3966894158, 1603926895, 3947065708, 4064432254, 314205538, 872618379,
   3563243059, 304253681, 783558693, 2503271980, 3495646321, 1290872763, 3121520939, 2942098806,
   641090084, 2040744877, 2641640520, 2822298419, 2885259028, 1013302765, 2006133592, 3672833023,
   266147116, 2422267738, 501894401, 345672645, 2384900549, 3593315420, 168531307, 3138115426,
   2559469854, 878370741, 567096748, 1342975608, 1929917421, 3815079155, 3887969580, 379967032,
   3933320244, 1022246178, 3298764003, 3352606638, 3810828369, 1116729323, 2381652356, 622561456,
   2745681725, 3387916065, 938595997, 4901396, 3264727977, 3990265482, 1545695311, 2583073239,
   25719318, 359879420, 2690926668, 1737962267, 1872326961, 2971436963, 856135260, 1262752712,
   1803801525, 3825067982, 227806404, 531264838, 2692088805, 1020958178, 2462141362, 867482822,
   4142146091, 149020123, 3976685847, 2156258478, 1566485989, 636188758, 1911328438, 1228372759,
   761095935, 93755721, 1443003772, 937784737, 2078374011, 4179063358, 1256093635, 2390763207,
   1312271775, 498684952, 3381068839, 2094766662, 3384348866, 4250970780, 2736167046, 1975999640,
   3449310360, 1249986286, 1623556171, 2459105852, 1161613179, 4241934306, 3592740997, 4164507334,
   1031114739, 2038402399, 945921397, 405487343, 138708438, 3414161765, 2912469629, 220667773,
   2009463834, 112293856, 3463567532, 4173647700, 2447477757, 1074847995, 2240777610, 3343165669,
   1207699502, 2670340302, 1464222360, 145352797, 4013782448, 2798704117, 3854604174, 301538628,
   3254669258, 3496478697, 195964083, 2340356226, 158045975, 89523493, 3012065632, 1685882608,
   582880035, 3084954840, 3758218654, 2812719378, 914681218, 3492165600, 252202130, 3133981835,
   1682632314, 1511367028, 3091183057, 2169963046, 1791825518, 26880152, 943542572, 124950977,
   3436569249, 2931277172, 2360174007, 2297876068, 324140282, 3145103099, 878367086, 746517350,
   2447571951, 113826277, 455271391, 2021629898, 311130642, 4190715446, 2096076314, 2637293993,
   4081579075, 1195677250, 2995667596, 3378498797, 2310622554, 4036366420, 2255722665, 653284776,
   2734982087, 776639191, 1840567454, 2718554699, 4121086132, 3648536374, 376160211, 345701825,
   3172728420, 1574538422, 1459410665, 4197243794, 4047198565, 4156270602, 4158935841, 3766821729,
   1411764188, 3632321377, 3403794111, 3833557234, 3599364771, 1036284889, 24670187, 2235700863,
   4190632977, 425187274, 2031251706, 3670054996, 2155400770, 192611794, 2839969695, 299462972,
   12797895, 3966267574, 3400571208, 3669765080, 3508427657, 3235589560, 3193293610, 925737567,
   1488513860, 2440222622, 1120038826, 3957100300, 1727699532, 2066529857, 1405887448, 3610495290,
   958674275, 405728232, 3364823839, 673899695, 3789105973, 1675609960, 98445821, 3209212267,
   298129863, 330602789, 2765562200, 507842865, 729452063, 2371849561, 2107993350, 3060623393,
   756469007, 1494691292, 289556860, 91472947, 1249357945, 854006002, 2109176687, 1212277959,
   3811972867, 3564054431, 4125718577, 1473064925, 2442436592, 1893310111, 4195361916, 3747569474,
   828465101, 2991227658, 750582866, 1205170309, 1409813056, 678418130, 1171531016, 3821236156,
   354504587, 4202874632, 3882511497, 1893248677, 1903078632, 26340130, 2069166240, 3657122492,
   3725758099, 831344905, 811453383, 3447711422, 2434543565, 4166886888, 3358210805, 4142984013,
   2988152326, 3527824853, 982082992, 2809155763, 190157081, 3340214818, 2365432395, 2548636180,
   2894533366, 3474657421, 2372634704, 2845748389, 43024175, 2774226648, 1987702864, 3186502468,
   453610222, 4204736567, 1392892630, 2471323686, 2470534280, 3541393095, 4269885866, 3909911300,
   759132955, 1482612480, 667715263, 1795580598, 2337923983, 3390586366, 581426223, 1515718634,
   476374295, 705213300, 363062054, 2084697697, 2407503428, 2292957699, 2426213835, 2199989172,
   1987356470, 4026755612, 2147252133, 270400031, 1367820199, 2369854699, 2844269403, 79981964]

/-- The block seeded with 5489 after the first 572 iterations of the twist
loop; reference data staging the C1 evaluation. -/
def mtTwistStage22_5489 : List ℕ :=
  [2601187879, 3919438689, 2270374771, 3254473187, 705526435, 752899028, 4259895275, 1635503293,
   287311810, 3348146311, 587101971, 1133963260, 197444494, 1569747226, 2853653046, 3654449492,
   3823320007, 1939491435, 191871982, 2550916200, 2586577334, 1836795533, 2550787344, 3774101499,
   499856526, 4035163043, 969324510, 502882529, 3747915135, 3677962142, 4247339488, 668043123,
   3114378363, 585508492, 542098765, 4155704470, 3660917119, 126230230, 1522675206, 153049183,
   1637257449, 3281868928, 979462891, 1058287769, 61525060, 3887730846, 3905100104, 1956723994,
   4085220955, 3202629445, 4112745420, 877772572, 3341645661, 331737137, 2270305335, 159419296,
   2503600762, 451751822, 1083485811, 1445113017, 150608331, 422828708, 2507709208, 3804045526,
   2086909439, 4090458745, 1662894632, 2371871123, 3266028938, 3412874573, 1564584271, 4167008239,
   319160793, 1225298391, 4161956981, 3585990452, 2573113091, 1630884103, 997591457, 996494329,
   2686829642, 3651385850, 300660150, 251233608, 2731448254, 3271745554, 1133669415, 2602763402,
   3609598910, 3119890150, 2068448659, 2512941629, 2192028056, 3536672045, 1605585867, 987929371,
   3628305377, 3597455410, 3551228490, 4133937922, 2490571536, 3920924840, 3569243872, 3272512015,
   1796837098, 1735422750, 3686651765, 3897135636, 1148857629, 783899959, 2380757210, 1621036080,
   2512995685, 1314946383, 195879552, 1712690214, 134121293, 2558246413, 1909295793, 4011814961,
   3584678033, 3552917322, 2895522131, 2197479543, 599948941, 3054641120, 1896938373, 3039964013,
   1872754348, 3148850798, 2107216694, 1457074081, 2885919429, 2673983641, 3439943002, 870488328,
   3207188349, 2106353973, 3677712338, 858424175, 1253591073, 2543671298, 2173076892, 4241262707,
   3125777792, 937639453, 3794644771, 1031184467, 1762096386, 1582522796, 2401451448, 1923687658,
   3041175264, 1553520828, 1499754517, 3874023455, 2605056296, 3039888102, 1303021756, 1642751373,
   1823333037, 1633927268, 3515841308, 3444633309, 3781936666, 2809133915, 3605157463, 2111775741,
   4189224133, 1541376461, 2404717080, 4269480857, 977189618, 1665607742, 1629250805, 2457077617,
   239411934, 3667589811, 1869810277, 1786963907, 2464100961, 2087821940, 1259003512, 276996953,
   797806588, 3071924361, 2277580686, 4202707827, 1388129925, 2102369776, 1628022127, 2487208107,
   3087861794, 1052589112, 419878642, 130232609, 109631040, 2052113021, 2352638891, 3505327656,
   1245960092, 1830675294, 3601635339, 3493669978, 2998128382, 1669215416, 4294454851, 2093225537,
   1094833212, 3273688535, 3217483090, 2119564735, 1480278974, 2437451062, 1653704104, 3486785552,
   87986508, 429079035, 3325830834, 1173159674, 3117122078, 58610491, 861618023, 3127089575,
   788511071, 3165761011, 3504889677, 1407514791, 2912129370, 2669842377, 65597446, 2809811316,
   1936888672, 2735813429, 2992168722, 2213185349, 2759840193, 3953154784, 1561769082, 2042753077,
   1431122408, 2948426693, 222113656, 1532323091, 3465951077, 531543838, 463855516, 259721548,
   595116526, 3129247900, 2801040682, 538274173, 3291042483, 3080595328, 1887205203, 158727281,
   3040111581, 218801154, 3984624257, 2054350644, 2080133350, 637187864, 2040737093, 616990199,
   3893926523, 79368930, 2444288761, 2454929062, 816464100, 1797157122, 2590520370, 1517945845,
   585466041, 2048644740, 1148006305, 232096794, 1288445919, 2815085715, 3360592226, 2612544241,
   3735001635, 1982293843, 2437762859, 1380875628, 1511870631, 1503310543, 3124191302, 672465147,
   1097623, 2986124200, 3488182882, 3458056040, 960516857, 2873195180, 4198947675, 21992134,
   3918247947, 3659648629, 3966894158, 1603926895, 3947065708, 4064432254, 314205538, 872618379,
   3563243059, 304253681, 783558693, 2503271980, 3495646321, 1290872763, 3121520939, 2942098806,
   641090084, 2040744877, 2641640520, 2822298419, 2885259028, 1013302765, 2006133592, 3672833023,
   266147116, 2422267738, 501894401, 345672645, 2384900549, 3593315420, 168531307, 3138115426,
   2559469854, 878370741, 567096748, 1342975608, 1929917421, 3815079155, 3887969580, 379967032,
   3933320244, 1022246178, 3298764003, 3352606638, 3810828369, 1116729323, 2381652356, 622561456,
   2745681725, 3387916065, 938595997, 4901396, 3264727977, 3990265482, 1545695311, 2583073239,
   25719318, 359879420, 2690926668, 1737962267, 1872326961, 2971436963, 856135260, 1262752712,
   1803801525, 3825067982, 227806404, 531264838, 2692088805, 1020958178, 2462141362, 867482822,
   4142146091, 149020123, 3976685847, 2156258478, 1566485989, 636188758, 1911328438, 1228372759,
   761095935, 93755721, 1443003772, 937784737, 2078374011, 4179063358, 1256093635, 2390763207,
   1312271775, 498684952, 3381068839, 2094766662, 3384348866, 4250970780, 2736167046, 1975999640,
   3449310360, 1249986286, 1623556171, 2459105852, 1161613179, 4241934306, 3592740997, 4164507334,
   1031114739, 2038402399, 945921397, 405487343, 138708438, 3414161765, 2912469629, 220667773,
   2009463834, 112293856, 3463567532, 4173647700, 2447477757, 1074847995, 2240777610, 3343165669,
   1207699502, 2670340302, 1464222360, 145352797, 4013782448, 2798704117, 3854604174, 301538628,
   3254669258, 3496478697, 195964083, 2340356226, 158045975, 89523493, 3012065632, 1685882608,
   582880035, 3084954840, 3758218654, 2812719378, 914681218, 3492165600, 252202130, 3133981835,
   1682632314, 1511367028, 3091183057, 2169963046, 1791825518, 26880152, 943542572, 124950977,
   3436569249, 2931277172, 2360174007, 2297876068, 324140282, 3145103099, 878367086, 746517350,
   2447571951, 113826277, 455271391, 2021629898, 311130642, 4190715446, 2096076314, 2637293993,
   4081579075, 1195677250, 2995667596, 3378498797, 2310622554, 4036366420, 2255722665, 653284776,
   2734982087, 776639191, 1840567454, 2718554699, 4121086132, 3648536374, 376160211, 345701825,
   3172728420, 1574538422, 1459410665, 4197243794, 4047198565, 4156270602, 4158935841, 3766821729,
   1411764188, 3632321377, 3403794111, 3833557234, 3599364771, 1036284889, 24670187, 2235700863,
   4190632977, 425187274, 2031251706, 3670054996, 2155400770, 192611794, 2839969695, 299462972,
   12797895, 3966267574, 3400571208, 3669765080, 3508427657, 3235589560, 3193293610, 925737567,
   1488513860, 2440222622, 1120038826, 3957100300, 1727699532, 2066529857, 1405887448, 3610495290,
   958674275, 405728232, 3364823839, 673899695, 3789105973, 1675609960, 98445821, 3209212267,
   298129863, 330602789, 2765562200, 507842865, 729452063, 2371849561, 2107993350, 3060623393,
   756469007, 1494691292, 289556860, 91472947, 1249357945, 854006002, 2109176687, 1212277959,
   3811972867, 3564054431, 671407310, 118971092, 1896128714, 551706431, 2067080292, 1335799548,
   3473466841, 1549134658, 32104447, 2995416126, 544027868, 52897576, 1642961318, 2693801207,
   3726909303, 218117047, 4156633525, 3536249408, 1009174707, 4181022899, 3945338608, 354768839,
   2202138544, 215184568, 61111279, 1914789892, 2434543565, 4166886888, 3358210805, 4142984013,
   2988152326, 3527824853, 982082992, 2809155763, 190157081, 3340214818, 2365432395, 2548636180,
   2894533366, 3474657421, 2372634704, 2845748389, 43024175, 2774226648, 1987702864, 3186502468,
   453610222, 4204736567, 1392892630, 2471323686, 2470534280, 3541393095, 4269885866, 3909911300,
   759132955, 1482612480, 667715263, 1795580598, 2337923983, 3390586366, 581426223, 1515718634,
   476374295, 705213300, 363062054, 2084697697, 2407503428, 2292957699, 2426213835, 2199989172,
   1987356470, 4026755612, 2147252133, 270400031, 1367820199, 2369854699, 2844269403, 79981964]

/-- The block seeded with 5489 after the first 598 iterations of the twist
loop; reference data staging the C1 evaluation. -/
def mtTwistStage23_5489 : List ℕ :=
  [2601187879, 3919438689, 2270374771, 3254473187, 705526435, 752899028, 4259895275, 1635503293,
   287311810, 3348146311, 587101971, 1133963260, 197444494, 1569747226, 2853653046, 3654449492,
   3823320007, 1939491435, 191871982, 2550916200, 2586577334, 1836795533, 2550787344, 3774101499,
   499856526, 4035163043, 969324510, 502882529, 3747915135, 3677962142, 4247339488, 668043123,
   3114378363, 585508492, 542098765, 4155704470, 3660917119, 126230230, 1522675206, 153049183,
   1637257449, 3281868928, 979462891, 1058287769, 61525060, 3887730846, 3905100104, 1956723994,
   4085220955, 3202629445, 4112745420, 877772572, 3341645661, 331737137, 2270305335, 159419296,
   2503600762, 451751822, 1083485811, 1445113017, 150608331, 422828708, 2507709208, 3804045526,
   2086909439, 4090458745, 1662894632, 2371871123, 3266028938, 3412874573, 1564584271, 4167008239,
   319160793, 1225298391, 4161956981, 3585990452, 2573113091, 1630884103, 997591457, 996494329,
   2686829642, 3651385850, 300660150, 251233608, 2731448254, 3271745554, 1133669415, 2602763402,
   3609598910, 3119890150, 2068448659, 2512941629, 2192028056, 3536672045, 1605585867, 987929371,
   3628305377, 3597455410, 3551228490, 4133937922, 2490571536, 3920924840, 3569243872, 3272512015,
   1796837098, 1735422750, 3686651765, 3897135636, 1148857629, 783899959, 2380757210, 1621036080,
   2512995685, 1314946383, 195879552, 1712690214, 134121293, 2558246413, 1909295793, 4011814961,
   3584678033, 3552917322, 2895522131, 2197479543, 599948941, 3054641120, 1896938373, 3039964013,
   1872754348, 3148850798, 2107216694, 1457074081, 2885919429, 2673983641, 3439943002, 870488328,
   3207188349, 2106353973, 3677712338, 858424175, 1253591073, 2543671298, 2173076892, 4241262707,
   3125777792, 937639453, 3794644771, 1031184467, 1762096386, 1582522796, 2401451448, 1923687658,
   3041175264, 1553520828, 1499754517, 3874023455, 2605056296, 3039888102, 1303021756, 1642751373,
   1823333037, 1633927268, 3515841308, 3444633309, 3781936666, 2809133915, 3605157463, 2111775741,
   4189224133, 1541376461, 2404717080, 4269480857, 977189618, 1665607742, 1629250805, 2457077617,
   239411934, 3667589811, 1869810277, 1786963907, 2464100961, 2087821940, 1259003512, 276996953,
   797806588, 3071924361, 2277580686, 4202707827, 1388129925, 2102369776, 1628022127, 2487208107,
   3087861794, 1052589112, 419878642, 130232609, 109631040, 2052113021, 2352638891, 3505327656,
   1245960092, 1830675294, 3601635339, 3493669978, 2998128382, 1669215416, 4294454851, 2093225537,
   1094833212, 3273688535, 3217483090, 2119564735, 1480278974, 2437451062, 1653704104, 3486785552,
   87986508, 429079035, 3325830834, 1173159674, 3117122078, 58610491, 861618023, 3127089575,
   788511071, 3165761011, 3504889677, 1407514791, 2912129370, 2669842377, 65597446, 2809811316,
   1936888672, 2735813429, 2992168722, 2213185349, 2759840193, 3953154784, 1561769082, 2042753077,
   1431122408, 2948426693, 222113656, 1532323091, 3465951077, 531543838, 463855516, 259721548,
   595116526, 3129247900, 2801040682, 538274173, 3291042483, 3080595328, 1887205203, 158727281,
   3040111581, 218801154, 3984624257, 2054350644, 2080133350, 637187864, 2040737093, 616990199,
   3893926523, 79368930, 2444288761, 2454929062, 816464100, 1797157122, 2590520370, 1517945845,
   585466041, 2048644740, 1148006305, 232096794, 1288445919, 2815085715, 3360592226, 2612544241,
   3735001635, 1982293843, 2437762859, 1380875628, 1511870631, 1503310543, 3124191302, 672465147,
   1097623, 2986124200, 3488182882, 3458056040, 960516857, 2873195180, 4198947675, 21992134,
   3918247947, 3659648629, 3966894158, 1603926895, 3947065708, 4064432254, 314205538, 872618379,
   3563243059, 304253681, 783558693, 2503271980, 3495646321, 1290872763, 3121520939, 2942098806,
   641090084, 2040744877, 2641640520, 2822298419, 2885259028, 1013302765, 2006133592, 3672833023,
   266147116, 2422267738, 501894401, 345672645, 2384900549, 3593315420, 168531307, 3138115426,
   2559469854, 878370741, 567096748, 1342975608, 1929917421, 3815079155, 3887969580, 379967032,
   3933320244, 1022246178, 3298764003, 3352606638, 3810828369, 1116729323, 2381652356, 622561456,
   2745681725, 3387916065, 938595997, 4901396, 3264727977, 3990265482, 1545695311, 2583073239,
   25719318, 359879420, 2690926668, 1737962267, 1872326961, 2971436963, 856135260, 1262752712,
   1803801525, 3825067982, 227806404, 531264838, 2692088805, 1020958178, 2462141362, 867482822,
   4142146091, 149020123, 3976685847, 2156258478, 1566485989, 636188758, 1911328438, 1228372759,
   761095935, 93755721, 1443003772, 937784737, 2078374011, 4179063358, 1256093635, 2390763207,
   1312271775, 498684952, 3381068839, 2094766662, 3384348866, 4250970780, 2736167046, 1975999640,
   3449310360, 1249986286, 1623556171, 2459105852, 1161613179, 4241934306, 3592740997, 4164507334,
   1031114739, 2038402399, 945921397, 405487343, 138708438, 3414161765, 2912469629, 220667773,
   2009463834, 112293856, 3463567532, 4173647700, 2447477757, 1074847995, 2240777610, 3343165669,
   1207699502, 2670340302, 1464222360, 145352797, 4013782448, 2798704117, 3854604174, 301538628,
   3254669258, 3496478697, 195964083, 2340356226, 158045975, 89523493, 3012065632, 1685882608,
   582880035, 3084954840, 3758218654, 2812719378, 914681218, 3492165600, 252202130, 3133981835,
   1682632314, 1511367028, 3091183057, 2169963046, 1791825518, 26880152, 943542572, 124950977,
   3436569249, 2931277172, 2360174007, 2297876068, 324140282, 3145103099, 878367086, 746517350,
   2447571951, 113826277, 455271391, 2021629898, 311130642, 4190715446, 2096076314, 2637293993,
   4081579075, 1195677250, 2995667596, 3378498797, 2310622554, 4036366420, 2255722665, 653284776,
   2734982087, 776639191, 1840567454, 2718554699, 4121086132, 3648536374, 376160211, 345701825,
   3172728420, 1574538422, 1459410665, 4197243794, 4047198565, 4156270602, 4158935841, 3766821729,
   1411764188, 3632321377, 3403794111, 3833557234, 3599364771, 1036284889, 24670187, 2235700863,
   4190632977, 425187274, 2031251706, 3670054996, 2155400770, 192611794, 2839969695, 299462972,
   12797895, 3966267574, 3400571208, 3669765080, 3508427657, 3235589560, 3193293610, 925737567,
   1488513860, 2440222622, 1120038826, 3957100300, 1727699532, 2066529857, 1405887448, 3610495290,
   958674275, 405728232, 3364823839, 673899695, 3789105973, 1675609960, 98445821, 3209212267,
   298129863, 330602789, 2765562200, 507842865, 729452063, 2371849561, 2107993350, 3060623393,
   756469007, 1494691292, 289556860, 91472947, 1249357945, 854006002, 2109176687, 1212277959,
   3811972867, 3564054431, 671407310, 118971092, 1896128714, 551706431, 2067080292, 1335799548,
   3473466841, 1549134658, 32104447, 2995416126, 544027868, 52897576, 1642961318, 2693801207,
   3726909303, 218117047, 4156633525, 3536249408, 1009174707, 4181022899, 3945338608, 354768839,
   2202138544, 215184568, 61111279, 1914789892, 3049369045, 3404495672, 3795455853, 2610561194,
   503121087, 23446167, 323357009, 3710519877, 922256365, 2131896758, 744734225, 970651722,
   1335476026, 1974620788, 2256794949, 3015924989, 4048571554, 1990784236, 22896868, 3992110738,
   2560474406, 4215514841, 974260437, 3208940655, 4167287399, 2454179266, 4269885866, 3909911300,
   759132955, 1482612480, 667715263, 1795580598, 2337923983, 3390586366, 581426223, 1515718634,
   476374295, 705213300, 363062054, 2084697697, 2407503428, 2292957699, 2426213835, 2199989172,
   1987356470, 4026755612, 2147252133, 270400031, 1367820199, 2369854699, 2844269403, 79981964]

/-- The block seeded with 5489 after the first 624 iterations of the twist
loop; reference data staging the C1 evaluation. -/
def mtTwistStage24_5489 : List ℕ :=
  [2601187879, 3919438689, 2270374771, 3254473187, 705526435, 752899028, 4259895275, 1635503293,
   287311810, 3348146311, 587101971, 1133963260, 197444494, 1569747226, 2853653046, 3654449492,
   3823320007, 1939491435, 191871982, 2550916200, 2586577334, 1836795533, 2550787344, 3774101499,
   499856526, 4035163043, 969324510, 502882529, 3747915135, 3677962142, 4247339488, 668043123,
   3114378363, 585508492, 542098765, 4155704470, 3660917119, 126230230, 1522675206, 153049183,
   1637257449, 3281868928, 979462891, 1058287769, 61525060, 3887730846, 3905100104, 1956723994,
   4085220955, 3202629445, 4112745420, 877772572, 3341645661, 331737137, 2270305335, 159419296,
   2503600762, 451751822, 1083485811, 1445113017, 150608331, 422828708, 2507709208, 3804045526,
   2086909439, 4090458745, 1662894632, 2371871123, 3266028938, 3412874573, 1564584271, 4167008239,
   319160793, 1225298391, 4161956981, 3585990452, 2573113091, 1630884103, 997591457, 996494329,
   2686829642, 3651385850, 300660150, 251233608, 2731448254, 3271745554, 1133669415, 2602763402,
   3609598910, 3119890150, 2068448659, 2512941629, 2192028056, 3536672045, 1605585867, 987929371,
   3628305377, 3597455410, 3551228490, 4133937922, 2490571536, 3920924840, 3569243872, 3272512015,
   1796837098, 1735422750, 3686651765, 3897135636, 1148857629, 783899959, 2380757210, 1621036080,
   2512995685, 1314946383, 195879552, 1712690214, 134121293, 2558246413, 1909295793, 4011814961,
   3584678033, 3552917322, 2895522131, 2197479543, 599948941, 3054641120, 1896938373, 3039964013,
   1872754348, 3148850798, 2107216694, 1457074081, 2885919429, 2673983641, 3439943002, 870488328,
   3207188349, 2106353973, 3677712338, 858424175, 1253591073, 2543671298, 2173076892, 4241262707,
   3125777792, 937639453, 3794644771, 1031184467, 1762096386, 1582522796, 2401451448, 1923687658,
   3041175264, 1553520828, 1499754517, 3874023455, 2605056296, 3039888102, 1303021756, 1642751373,
   1823333037, 1633927268, 3515841308, 3444633309, 3781936666, 2809133915, 3605157463, 2111775741,
   4189224133, 1541376461, 2404717080, 4269480857, 977189618, 1665607742, 1629250805, 2457077617,
   239411934, 3667589811, 1869810277, 1786963907, 2464100961, 2087821940, 1259003512, 276996953,
   797806588, 3071924361, 2277580686, 4202707827, 1388129925, 2102369776, 1628022127, 2487208107,
   3087861794, 1052589112, 419878642, 130232609, 109631040, 2052113021, 2352638891, 3505327656,
   1245960092, 1830675294, 3601635339, 3493669978, 2998128382, 1669215416, 4294454851, 2093225537,
   1094833212, 3273688535, 3217483090, 2119564735, 1480278974, 2437451062, 1653704104, 3486785552,
   87986508, 429079035, 3325830834, 1173159674, 3117122078, 58610491, 861618023, 3127089575,
   788511071, 3165761011, 3504889677, 1407514791, 2912129370, 2669842377, 65597446, 2809811316,
   1936888672, 2735813429, 2992168722, 2213185349, 2759840193, 3953154784, 1561769082, 2042753077,
   1431122408, 2948426693, 222113656, 1532323091, 3465951077, 531543838, 463855516, 259721548,
   595116526, 3129247900, 2801040682, 538274173, 3291042483, 3080595328, 1887205203, 158727281,
   3040111581, 218801154, 3984624257, 2054350644, 2080133350, 637187864, 2040737093, 616990199,
   3893926523, 79368930, 2444288761, 2454929062, 816464100, 1797157122, 2590520370, 1517945845,
   585466041, 2048644740, 1148006305, 232096794, 1288445919, 2815085715, 3360592226, 2612544241,
   3735001635, 1982293843, 2437762859, 1380875628, 1511870631, 1503310543, 3124191302, 672465147,
   1097623, 2986124200, 3488182882, 3458056040, 960516857, 2873195180, 4198947675, 21992134,
   3918247947, 3659648629, 3966894158, 1603926895, 3947065708, 4064432254, 314205538, 872618379,
   3563243059, 304253681, 783558693, 2503271980, 3495646321, 1290872763, 3121520939, 2942098806,
   641090084, 2040744877, 2641640520, 2822298419, 2885259028, 1013302765, 2006133592, 3672833023,
   266147116, 2422267738, 501894401, 345672645, 2384900549, 3593315420, 168531307, 3138115426,
   2559469854, 878370741, 567096748, 1342975608, 1929917421, 3815079155, 3887969580, 379967032,
   3933320244, 1022246178, 3298764003, 3352606638, 3810828369, 1116729323, 2381652356, 622561456,
   2745681725, 3387916065, 938595997, 4901396, 3264727977, 3990265482, 1545695311, 2583073239,
   25719318, 359879420, 2690926668, 1737962267, 1872326961, 2971436963, 856135260, 1262752712,
   1803801525, 3825067982, 227806404, 531264838, 2692088805, 1020958178, 2462141362, 867482822,
   4142146091, 149020123, 3976685847, 2156258478, 1566485989, 636188758, 1911328438, 1228372759,
   761095935, 93755721, 1443003772, 937784737, 2078374011, 4179063358, 1256093635, 2390763207,
   1312271775, 498684952, 3381068839, 2094766662, 3384348866, 4250970780, 2736167046, 1975999640,
   3449310360, 1249986286, 1623556171, 2459105852, 1161613179, 4241934306, 3592740997, 4164507334,
   1031114739, 2038402399, 945921397, 405487343, 138708438, 3414161765, 2912469629, 220667773,
   2009463834, 112293856, 3463567532, 4173647700, 2447477757, 1074847995, 2240777610, 3343165669,
   1207699502, 2670340302, 1464222360, 145352797, 4013782448, 2798704117, 3854604174, 301538628,
   3254669258, 3496478697, 195964083, 2340356226, 158045975, 89523493, 3012065632, 1685882608,
   582880035, 3084954840, 3758218654, 2812719378, 914681218, 3492165600, 252202130, 3133981835,
   1682632314, 1511367028, 3091183057, 2169963046, 1791825518, 26880152, 943542572, 124950977,
   3436569249, 2931277172, 2360174007, 2297876068, 324140282, 3145103099, 878367086, 746517350,
   2447571951, 113826277, 455271391, 2021629898, 311130642, 4190715446, 2096076314, 2637293993,
   4081579075, 1195677250, 2995667596, 3378498797, 2310622554, 4036366420, 2255722665, 653284776,
   2734982087, 776639191, 1840567454, 2718554699, 4121086132, 3648536374, 376160211, 345701825,
   3172728420, 1574538422, 1459410665, 4197243794, 4047198565, 4156270602, 4158935841, 3766821729,
   1411764188, 3632321377, 3403794111, 3833557234, 3599364771, 1036284889, 24670187, 2235700863,
   4190632977, 425187274, 2031251706, 3670054996, 2155400770, 192611794, 2839969695, 299462972,
   12797895, 3966267574, 3400571208, 3669765080, 3508427657, 3235589560, 3193293610, 925737567,
   1488513860, 2440222622, 1120038826, 3957100300, 1727699532, 2066529857, 1405887448, 3610495290,
   958674275, 405728232, 3364823839, 673899695, 3789105973, 1675609960, 98445821, 3209212267,
   298129863, 330602789, 2765562200, 507842865, 729452063, 2371849561, 2107993350, 3060623393,
   756469007, 1494691292, 289556860, 91472947, 1249357945, 854006002, 2109176687, 1212277959,
   3811972867, 3564054431, 671407310, 118971092, 1896128714, 551706431, 2067080292, 1335799548,
   3473466841, 1549134658, 32104447, 2995416126, 544027868, 52897576, 1642961318, 2693801207,
   3726909303, 218117047, 4156633525, 3536249408, 1009174707, 4181022899, 3945338608, 354768839,
   2202138544, 215184568, 61111279, 1914789892, 3049369045, 3404495672, 3795455853, 2610561194,
   503121087, 23446167, 323357009, 3710519877, 922256365, 2131896758, 744734225, 970651722,
   1335476026, 1974620788, 2256794949, 3015924989, 4048571554, 1990784236, 22896868, 3992110738,
   2560474406, 4215514841, 974260437, 3208940655, 4167287399, 2454179266, 4093879596, 2462688439,
   163846102, 4211244342, 2092190284, 2985895911, 1620740022, 2656641972, 449410644, 3973823023,
   3960679300, 1074759248, 698903848, 1233675965, 3236169158, 415317533, 1028329372, 2994946905,
   3311476626, 1172312971, 3837858120, 2085838740, 3576264772, 2903063865, 3505442042, 3518038711]

/-- Helper: `_int32` always returns a 32-bit word. -/
lemma int32_lt (x : ℕ) : MersenneTwister._int32 x < 2 ^ 32 :=
  lt_of_le_of_lt Nat.and_le_left (by norm_num)

/-- C9: the division inside `random()` is unguarded: the `lehmer` LCG constructed
with seed 0 draws 0 twice, so `random()` raises `ZeroDivisionError`. -/
theorem c9_random_division_by_zero :
    (Randomizer.random LCG._random (LCG.init 0 "lehmer")).1 =
      Except.error PyErr.zeroDivisionError := rfl

/-- Helper: an LCG whose increment is 0 fixes the zero state: the raw draw
returns 0 and leaves the generator unchanged. -/
lemma lcg_zero_fixed (g : LCG) (hinc : g.increment = 0) (hseed : g.seed = 0) :
    LCG._random g = (0, g) := by
  obtain ⟨s, m, c, md⟩ := g
  simp only at hinc hseed
  subst hinc hseed
  simp [LCG._random]

/-- Helper: iterating from a zero-fixed LCG stays put. -/
lemma lcg_iter_zero_fixed (g : LCG) (hinc : g.increment = 0) (hseed : g.seed = 0) (n : ℕ) :
    LCG.iter g n = g := by
  induction n with
  | zero => rfl
  | succ m ih => show (LCG._random (LCG.iter g m)).2 = g; rw [ih, lcg_zero_fixed g hinc hseed]

/-- C10: for the zero-increment profiles `lehmer` and `nag`, the zero state is
preserved by the raw draw, so seeding with 0 yields the all-zero output sequence. -/
theorem c10_zero_increment_absorbing (name : String)
    (hname : name = "lehmer" ∨ name = "nag") (n : ℕ) :
    (LCG.init 0 name).increment = 0 ∧
      (LCG.iter (LCG.init 0 name) n).seed = 0 ∧
      LCG.output (LCG.init 0 name) n = 0 := by
  have key : ∀ g : LCG, g.increment = 0 → g.seed = 0 →
      g.increment = 0 ∧ (LCG.iter g n).seed = 0 ∧ LCG.output g n = 0 := by
    intro g hinc hseed
    refine ⟨hinc, ?_, ?_⟩
    · rw [lcg_iter_zero_fixed g hinc hseed n, hseed]
    · show (LCG._random (LCG.iter g n)).1 = 0
      rw [lcg_iter_zero_fixed g hinc hseed n, lcg_zero_fixed g hinc hseed]
  rcases hname with h | h <;> subst h <;> exact key _ rfl rfl

/-- C10 witness: the `lehmer` generator with seed 0 concretely. -/
theorem c10_zero_increment_absorbing_witness :
    ("lehmer" = "lehmer" ∨ "lehmer" = "nag") ∧
      ((LCG.init 0 "lehmer").increment = 0 ∧
        (LCG.iter (LCG.init 0 "lehmer") 3).seed = 0 ∧
        LCG.output (LCG.init 0 "lehmer") 3 = 0) :=
  ⟨Or.inl rfl, c10_zero_increment_absorbing "lehmer" (Or.inl rfl) 3⟩

/-- C2 fails as stated: the `borlandc` LCG seeded with 0 draws 1; then
`randrange(5, 3)` (with stop = 3 > 0) returns `(1 + 5) mod 3 = 0`,
and 0 does not satisfy `start ≤ x`. -/
theorem c2_randrange_counterexample :
    (Randomizer.randrange LCG._random (LCG.init 0 "borlandc") 5 3).1 = Except.ok 0 ∧
      ¬ (5 : ℤ) ≤ 0 := ⟨rfl, by decide⟩

/-- C2 (amended): for stop > 0, `randrange(start, stop)` consumes one raw draw and
returns `(raw + start) mod stop`, and this value lies in `[0, stop)` (the claimed
lower bound `start ≤ x` does not hold in general). -/
theorem c2_randrange_amended {σ : Type} (rand : σ → ℤ × σ) (s : σ) (start stop : ℤ)
    (h : 0 < stop) :
    (Randomizer.randrange rand s start stop).1 =
        Except.ok (Int.fmod ((rand s).1 + start) stop) ∧
      (Randomizer.randrange rand s start stop).2 = (rand s).2 ∧
      0 ≤ Int.fmod ((rand s).1 + start) stop ∧
      Int.fmod ((rand s).1 + start) stop < stop := by
  have hs : ¬ stop = 0 := by omega
  refine ⟨?_, ?_, Int.fmod_nonneg' _ h, Int.fmod_lt_of_pos _ h⟩ <;>
    simp [Randomizer.randrange, hs]

/-- C2 witness: the amended statement at the `ansic` LCG seeded 7, start 2, stop 10. -/
theorem c2_randrange_amended_witness :
    (0 : ℤ) < 10 ∧
      ((Randomizer.randrange LCG._random (LCG.init 7 "ansic") 2 10).1 =
          Except.ok (Int.fmod ((LCG._random (LCG.init 7 "ansic")).1 + 2) 10) ∧
        (Randomizer.randrange LCG._random (LCG.init 7 "ansic") 2 10).2 =
          (LCG._random (LCG.init 7 "ansic")).2 ∧
        0 ≤ Int.fmod ((LCG._random (LCG.init 7 "ansic")).1 + 2) 10 ∧
        Int.fmod ((LCG._random (LCG.init 7 "ansic")).1 + 2) 10 < 10) :=
  ⟨by decide, c2_randrange_amended LCG._random (LCG.init 7 "ansic") 2 10 (by decide)⟩

/-- C4: the claim describes the intent, but the code cannot deliver it: on a
one-element sequence `randrange(0, 0)` raises `ZeroDivisionError` (`x % 0`), and
on the empty sequence the reference of the body to the undefined global `seq` raises
`NameError` instead of an InvalidArgument failure — for every generator state. -/
theorem c4_choice_code_bug {σ : Type} (rand : σ → ℤ × σ) (s : σ) (x : ℤ) :
    (Randomizer.choice rand s [x]).1 = Except.error PyErr.zeroDivisionError ∧
      (Randomizer.choice rand s ([] : List ℤ)).1 = Except.error PyErr.nameError :=
  ⟨rfl, rfl⟩

/-- Helper: the raw draw never changes the profile parameters. -/
lemma lcg_random_params (g : LCG) :
    (LCG._random g).2.multiplier = g.multiplier ∧
      (LCG._random g).2.increment = g.increment ∧
      (LCG._random g).2.modulus = g.modulus :=
  ⟨rfl, rfl, rfl⟩

/-- Helper: the modulus is constant along the draw sequence. -/
lemma lcg_iter_modulus (g : LCG) (n : ℕ) : (LCG.iter g n).modulus = g.modulus := by
  induction n with
  | zero => rfl
  | succ m ih => show (LCG._random (LCG.iter g m)).2.modulus = g.modulus; rw [(lcg_random_params _).2.2, ih]

set_option maxHeartbeats 1600000 in
/-- Helper: every profile (named or fallback) has a positive modulus. -/
lemma lcg_init_modulus_pos (seed : ℤ) (name : String) : 0 < (LCG.init seed name).modulus := by
  simp only [LCG.init]
  split_ifs <;>
    first
    | exact (by norm_num : (0:ℤ) < 2 ^ 32)
    | exact (by norm_num : (0:ℤ) < 2 ^ 24)
    | exact (by norm_num : (0:ℤ) < 2 ^ 59)
    | exact (by norm_num : (0:ℤ) < 2 ^ 64)
    | exact (by norm_num : (0:ℤ) < 2 ^ 48)
    | exact (by norm_num : (0:ℤ) < 2 ^ 31 - 1)
    | exact (by norm_num : (0:ℤ) < 2 ^ 31)

/-- C5: every raw draw of every LCG updates the state to
`(multiplier * state + increment) mod modulus` and returns the new state; hence
every state produced after at least one draw lies in `[0, modulus)`. -/
theorem c5_lcg_step_and_range (name : String) (seed : ℤ) (hseed : 0 ≤ seed) (k : ℕ) :
    (LCG._random (LCG.iter (LCG.init seed name) k)).1 =
        Int.fmod
          ((LCG.iter (LCG.init seed name) k).multiplier *
              (LCG.iter (LCG.init seed name) k).seed +
            (LCG.iter (LCG.init seed name) k).increment)
          (LCG.iter (LCG.init seed name) k).modulus ∧
      (LCG._random (LCG.iter (LCG.init seed name) k)).2.seed =
        (LCG._random (LCG.iter (LCG.init seed name) k)).1 ∧
      (LCG.iter (LCG.init seed name) (k + 1)).seed =
        (LCG._random (LCG.iter (LCG.init seed name) k)).1 ∧
      0 ≤ (LCG.iter (LCG.init seed name) (k + 1)).seed ∧
      (LCG.iter (LCG.init seed name) (k + 1)).seed < (LCG.init seed name).modulus := by
  have hmod : 0 < (LCG.iter (LCG.init seed name) k).modulus := by
    rw [lcg_iter_modulus]; exact lcg_init_modulus_pos seed name
  refine ⟨rfl, rfl, rfl, Int.fmod_nonneg' _ hmod, ?_⟩
  show Int.fmod _ _ < (LCG.init seed name).modulus
  rw [← lcg_iter_modulus (LCG.init seed name) k]
  exact Int.fmod_lt_of_pos _ hmod

/-- C5 witness: the `vb6` LCG seeded 3, around its second draw. -/
theorem c5_lcg_step_and_range_witness :
    (0 : ℤ) ≤ 3 ∧
      ((LCG._random (LCG.iter (LCG.init 3 "vb6") 1)).1 =
          Int.fmod
            ((LCG.iter (LCG.init 3 "vb6") 1).multiplier * (LCG.iter (LCG.init 3 "vb6") 1).seed +
              (LCG.iter (LCG.init 3 "vb6") 1).increment)
            (LCG.iter (LCG.init 3 "vb6") 1).modulus ∧
        (LCG._random (LCG.iter (LCG.init 3 "vb6") 1)).2.seed =
          (LCG._random (LCG.iter (LCG.init 3 "vb6") 1)).1 ∧
        (LCG.iter (LCG.init 3 "vb6") 2).seed =
          (LCG._random (LCG.iter (LCG.init 3 "vb6") 1)).1 ∧
        0 ≤ (LCG.iter (LCG.init 3 "vb6") 2).seed ∧
        (LCG.iter (LCG.init 3 "vb6") 2).seed < (LCG.init 3 "vb6").modulus) :=
  ⟨by decide, c5_lcg_step_and_range "vb6" 3 (by decide) 1⟩

/-- C8: constructing an LCG with a name outside the recognized set falls back to
the MMIX parameters, so its output sequence coincides, draw for draw, with the
`mmix` construction on the same seed. -/
theorem c8_profile_fallback (name : String) (h : name ∉ recognizedProfiles) (seed : ℤ)
    (n : ℕ) :
    LCG.output (LCG.init seed name) n = LCG.output (LCG.init seed "mmix") n := by
  have h1 : ¬ name = "nr" := fun he => h (by rw [he]; decide)
  have h2 : ¬ name = "borlandc" := fun he => h (by rw [he]; decide)
  have h3 : ¬ name = "pascal" := fun he => h (by rw [he]; decide)
  have h4 : ¬ name = "visualc" := fun he => h (by rw [he]; decide)
  have h5 : ¬ name = "vb6" := fun he => h (by rw [he]; decide)
  have h6 : ¬ name = "nag" := fun he => h (by rw [he]; decide)
  have h7 : ¬ name = "newlib" := fun he => h (by rw [he]; decide)
  have h8 : ¬ name = "java" := fun he => h (by rw [he]; decide)
  have h9 : ¬ name = "lehmer" := fun he => h (by rw [he]; decide)
  have h10 : ¬ name = "ansic" := fun he => h (by rw [he]; decide)
  have e : LCG.init seed name = LCG.init seed "mmix" := by
    simp only [LCG.init, if_neg h1, if_neg h2, if_neg h3, if_neg h4, if_neg h5, if_neg h6,
      if_neg h7, if_neg h8, if_neg h9, if_neg h10]
    rfl
  rw [e]

/-- C8 witness: the unknown name "gauss" behaves as `mmix` on seed 7. -/
theorem c8_profile_fallback_witness :
    "gauss" ∉ recognizedProfiles ∧
      LCG.output (LCG.init 7 "gauss") 2 = LCG.output (LCG.init 7 "mmix") 2 :=
  ⟨by decide, c8_profile_fallback "gauss" (by decide) 7 2⟩

/-- Helper: the `nag` LCG seeded with 2^57 is a fixed point of the raw draw:
`13^13 * 2^57 mod 2^59 = 2^57`. -/
lemma lcg_nag_fixed :
    LCG._random (LCG.init (2 ^ 57) "nag") = (2 ^ 57, LCG.init (2 ^ 57) "nag") := by decide

/-- C3 fails as stated: with the `nag` LCG seeded 2^57 both raw draws equal 2^57,
so `random()` returns `abs(2^57 / 2^57) mod 1 = 0`, and 0 is not in `(0, 1]`. -/
theorem c3_random_counterexample :
    (Randomizer.random LCG._random (LCG.init (2 ^ 57) "nag")).1 = Except.ok 0 ∧
      ¬ (0 : ℚ) < 0 := by
  constructor
  · simp only [Randomizer.random, lcg_nag_fixed]
    rw [if_neg (by norm_num : ¬ (2 ^ 57 : ℤ) = 0)]
    rw [div_self (by norm_num : ((2 ^ 57 : ℤ) : ℚ) ≠ 0), abs_one, Int.fract_one]
  · norm_num

/-- C3 (amended): `random()` consumes exactly two raw draws and, when the second
draw is nonzero, returns `abs(first/second) mod 1`; the returned value lies in
`[0, 1)` — it can be 0 and is never 1, contrary to the claimed `(0, 1]`. -/
theorem c3_random_amended {σ : Type} (rand : σ → ℤ × σ) (s : σ)
    (h : (rand (rand s).2).1 ≠ 0) :
    (Randomizer.random rand s).2 = (rand (rand s).2).2 ∧
      (Randomizer.random rand s).1 =
        Except.ok (Int.fract |((rand s).1 : ℚ) / ((rand (rand s).2).1 : ℚ)|) ∧
      0 ≤ Int.fract |((rand s).1 : ℚ) / ((rand (rand s).2).1 : ℚ)| ∧
      Int.fract |((rand s).1 : ℚ) / ((rand (rand s).2).1 : ℚ)| < 1 := by
  refine ⟨?_, ?_, Int.fract_nonneg _, Int.fract_lt_one _⟩ <;>
    simp [Randomizer.random, h]

/-- C3 witness: the amended statement at the `ansic` LCG seeded 1. -/
theorem c3_random_amended_witness :
    (LCG._random (LCG._random (LCG.init 1 "ansic")).2).1 ≠ 0 ∧
      ((Randomizer.random LCG._random (LCG.init 1 "ansic")).2 =
          (LCG._random (LCG._random (LCG.init 1 "ansic")).2).2 ∧
        (Randomizer.random LCG._random (LCG.init 1 "ansic")).1 =
          Except.ok
            (Int.fract
              |((LCG._random (LCG.init 1 "ansic")).1 : ℚ) /
                ((LCG._random (LCG._random (LCG.init 1 "ansic")).2).1 : ℚ)|) ∧
        0 ≤ Int.fract
              |((LCG._random (LCG.init 1 "ansic")).1 : ℚ) /
                ((LCG._random (LCG._random (LCG.init 1 "ansic")).2).1 : ℚ)| ∧
        Int.fract
              |((LCG._random (LCG.init 1 "ansic")).1 : ℚ) /
                ((LCG._random (LCG._random (LCG.init 1 "ansic")).2).1 : ℚ)| < 1) :=
  ⟨by decide, c3_random_amended LCG._random (LCG.init 1 "ansic") (by decide)⟩

/-- Helper: the seeding loop produces exactly `n` words. -/
lemma seedFrom_length (prev i n : ℕ) : (MersenneTwister.seedFrom prev i n).length = n := by
  induction n generalizing prev i with
  | zero => rfl
  | succ m ih => simpa [MersenneTwister.seedFrom] using ih (MersenneTwister.seedStep prev i) (i + 1)

/-- Helper: the head of the seeding loop output. -/
lemma seedFrom_getD_zero (prev i n : ℕ) (hn : 0 < n) :
    (MersenneTwister.seedFrom prev i n).getD 0 0 = MersenneTwister.seedStep prev i := by
  cases n with
  | zero => omega
  | succ m => rfl

/-- Helper: each later word of the seeding loop output comes from its predecessor
by `seedStep` at the corresponding index. -/
lemma seedFrom_getD_succ (n j prev i : ℕ) (h : j + 1 < n) :
    (MersenneTwister.seedFrom prev i n).getD (j + 1) 0 =
      MersenneTwister.seedStep ((MersenneTwister.seedFrom prev i n).getD j 0) (i + j + 1) := by
  induction n generalizing prev i j with
  | zero => omega
  | succ m ih =>
    cases j with
    | zero =>
      have hm : 0 < m := by omega
      show (MersenneTwister.seedFrom (MersenneTwister.seedStep prev i) (i + 1) m).getD 0 0 =
        MersenneTwister.seedStep
          ((MersenneTwister.seedFrom prev i (m + 1)).getD 0 0) (i + 0 + 1)
      rw [seedFrom_getD_zero _ _ _ hm, seedFrom_getD_zero prev i (m + 1) (by omega),
        show i + 0 + 1 = i + 1 from by omega]
    | succ jj =>
      have h2 : jj + 1 < m := by omega
      show (MersenneTwister.seedFrom (MersenneTwister.seedStep prev i) (i + 1) m).getD
            (jj + 1) 0 =
        MersenneTwister.seedStep
          ((MersenneTwister.seedFrom (MersenneTwister.seedStep prev i) (i + 1) m).getD jj 0)
          (i + (jj + 1) + 1)
      rw [ih jj (MersenneTwister.seedStep prev i) (i + 1) h2,
        show i + 1 + jj + 1 = i + (jj + 1) + 1 from by omega]

/-- C6: construction seeds the block as the seeding loop of the code prescribes: `index = 624`,
624 words, `block[0] = seed`, and for `1 ≤ i < 624`
`block[i] = _int32(1812433253 * (block[i-1] XOR (block[i-1] >> 30)) + i)`. -/
theorem c6_mt_seeding (s i : ℕ) (h1 : 1 ≤ i) (h2 : i < 624) :
    (MersenneTwister.init s).index = 624 ∧
      (MersenneTwister.init s).block.length = 624 ∧
      (MersenneTwister.init s).block.getD 0 0 = s ∧
      (MersenneTwister.init s).block.getD i 0 =
        MersenneTwister._int32
          (1812433253 *
              ((MersenneTwister.init s).block.getD (i - 1) 0 ^^^
                ((MersenneTwister.init s).block.getD (i - 1) 0 >>> 30)) +
            i) := by
  refine ⟨rfl, ?_, rfl, ?_⟩
  · show (s :: MersenneTwister.seedFrom s 1 623).length = 624
    rw [List.length_cons, seedFrom_length]
  · obtain ⟨j, rfl⟩ : ∃ j, i = j + 1 := ⟨i - 1, by omega⟩
    show (MersenneTwister.seedFrom s 1 623).getD j 0 = _
    cases j with
    | zero =>
      rw [seedFrom_getD_zero s 1 623 (by omega)]
      rfl
    | succ jj =>
      have h3 : jj + 1 < 623 := by omega
      rw [seedFrom_getD_succ 623 jj s 1 h3]
      show MersenneTwister.seedStep ((MersenneTwister.seedFrom s 1 623).getD jj 0)
          (1 + jj + 1) = _
      rw [show 1 + jj + 1 = jj + 1 + 1 from by omega]
      rfl

/-- C6 witness: the seeding recurrence holds concretely at seed 5 and index 2. -/
theorem c6_mt_seeding_witness :
    ((1 : ℕ) ≤ 2 ∧ (2 : ℕ) < 624) ∧
      ((MersenneTwister.init 5).index = 624 ∧
        (MersenneTwister.init 5).block.length = 624 ∧
        (MersenneTwister.init 5).block.getD 0 0 = 5 ∧
        (MersenneTwister.init 5).block.getD 2 0 =
          MersenneTwister._int32
            (1812433253 *
                ((MersenneTwister.init 5).block.getD (2 - 1) 0 ^^^
                  ((MersenneTwister.init 5).block.getD (2 - 1) 0 >>> 30)) +
              2)) :=
  ⟨⟨by decide, by decide⟩, c6_mt_seeding 5 2 (by decide) (by decide)⟩

/-- Helper: right shift never increases a natural number. -/
lemma shiftRight_le_self (y k : ℕ) : y >>> k ≤ y := by
  rw [Nat.shiftRight_eq_div_pow]
  exact Nat.div_le_self _ _

/-- Helper: `getD` after `set`, with default 0. -/
lemma getD_set (l : List ℕ) (i j v : ℕ) :
    (l.set i v).getD j 0 = if i = j ∧ i < l.length then v else l.getD j 0 := by
  by_cases h : i = j
  · subst h
    by_cases hl : i < l.length
    · simp [List.getD_eq_getElem?_getD, List.getElem?_set, hl]
    · have hn : l[i]? = none := List.getElem?_eq_none (by omega)
      simp [List.getD_eq_getElem?_getD, List.getElem?_set, hl, hn]
  · simp [List.getD_eq_getElem?_getD, List.getElem?_set, h]

/-- Helper: writing a 32-bit word into an all-32-bit list keeps it all-32-bit. -/
lemma set_getD_lt (l : List ℕ) (i v j : ℕ) (hl : ∀ j, l.getD j 0 < 2 ^ 32)
    (hv : v < 2 ^ 32) : (l.set i v).getD j 0 < 2 ^ 32 := by
  rw [getD_set]
  split_ifs with h
  · exact hv
  · exact hl j

/-- Helper: every word of the seeding loop output is a 32-bit word. -/
lemma seedFrom_getD_lt (n : ℕ) :
    ∀ prev i j, (MersenneTwister.seedFrom prev i n).getD j 0 < 2 ^ 32 := by
  induction n with
  | zero => intro prev i j; simp [MersenneTwister.seedFrom]
  | succ m ih =>
    intro prev i j
    cases j with
    | zero => exact int32_lt _
    | succ jj => exact ih _ _ jj

/-- Helper: after construction all words except possibly `block[0]` are 32-bit. -/
lemma initBlock_tail_lt (s j : ℕ) (hj : 1 ≤ j) :
    (MersenneTwister.init s).block.getD j 0 < 2 ^ 32 := by
  obtain ⟨jj, rfl⟩ : ∃ m, j = m + 1 := ⟨j - 1, by omega⟩
  exact seedFrom_getD_lt 623 s 1 jj

/-- Helper: one twist-loop body applied to an all-32-bit block yields an
all-32-bit block. -/
lemma twistStep_getD_lt (b : List ℕ) (i : ℕ) (hb : ∀ j, b.getD j 0 < 2 ^ 32) (j : ℕ) :
    (MersenneTwister.twistStep b i).getD j 0 < 2 ^ 32 := by
  have hb1 : ∀ j2, (b.set i (b.getD ((i + 397) % 624) 0 ^^^
      (MersenneTwister._int32 ((b.getD i 0 &&& 0x80000000) +
        (b.getD ((i + 1) % 624) 0 &&& 0x7fffffff)) >>> 1))).getD j2 0 < 2 ^ 32 := by
    intro j2
    exact set_getD_lt _ _ _ _ hb
      (Nat.xor_lt_two_pow (hb _) (lt_of_le_of_lt (shiftRight_le_self _ 1) (int32_lt _)))
  simp only [MersenneTwister.twistStep]
  split
  · exact set_getD_lt _ _ _ _ hb1 (Nat.xor_lt_two_pow (hb1 i) (by norm_num))
  · exact hb1 j

/-- Helper: the first twist-loop body (at index 0) masks the whole block, even
when `block[0]` (the raw seed) is out of range, because position 0 is rewritten
from in-range words before anything reads it. -/
lemma twistStep_zero_getD_lt (b : List ℕ)
    (htail : ∀ j, 1 ≤ j → b.getD j 0 < 2 ^ 32) (j : ℕ) :
    (MersenneTwister.twistStep b 0).getD j 0 < 2 ^ 32 := by
  have hb1 : ∀ j2, (b.set 0 (b.getD ((0 + 397) % 624) 0 ^^^
      (MersenneTwister._int32 ((b.getD 0 0 &&& 0x80000000) +
        (b.getD ((0 + 1) % 624) 0 &&& 0x7fffffff)) >>> 1))).getD j2 0 < 2 ^ 32 := by
    intro j2
    rw [getD_set]
    split_ifs with h
    · exact Nat.xor_lt_two_pow (htail _ (by norm_num))
        (lt_of_le_of_lt (shiftRight_le_self _ 1) (int32_lt _))
    · rcases Nat.eq_zero_or_pos j2 with rfl | hpos
      · have hlen : b.length = 0 := by
          by_contra hc
          exact h ⟨rfl, by omega⟩
        rw [List.eq_nil_of_length_eq_zero hlen]
        simp
      · exact htail j2 hpos
  simp only [MersenneTwister.twistStep]
  split
  · exact set_getD_lt _ _ _ _ hb1 (Nat.xor_lt_two_pow (hb1 0) (by norm_num))
  · exact hb1 j

/-- Helper: the twist loop preserves the all-32-bit property of the block. -/
lemma twistLoop_getD_lt (n : ℕ) :
    ∀ b i, (∀ j, b.getD j 0 < 2 ^ 32) →
      ∀ j, (MersenneTwister.twistLoop b i n).getD j 0 < 2 ^ 32 := by
  induction n with
  | zero => intro b i hb j; exact hb j
  | succ m ih => intro b i hb j; exact ih _ _ (twistStep_getD_lt b i hb) j

/-- Helper: one unfolding of the twist loop. -/
lemma twistLoop_succ (b : List ℕ) (i n : ℕ) :
    MersenneTwister.twistLoop b i (n + 1) =
      MersenneTwister.twistLoop (MersenneTwister.twistStep b i) (i + 1) n := rfl

/-- Helper: a full `_twist` masks every word, needing only the tail of the input
block to be in range. -/
lemma twist_block_getD_lt (st : MersenneTwister.State)
    (htail : ∀ j, 1 ≤ j → st.block.getD j 0 < 2 ^ 32) (j : ℕ) :
    (MersenneTwister._twist st).block.getD j 0 < 2 ^ 32 := by
  simp only [MersenneTwister._twist]
  rw [show (624 : ℕ) = 623 + 1 from rfl, twistLoop_succ]
  exact twistLoop_getD_lt 623 _ _ (twistStep_zero_getD_lt st.block htail) j

/-- Helper: after any positive number of twists, every word of the block is 32-bit. -/
lemma twistIter_getD_lt (s k : ℕ) (hk : 1 ≤ k) :
    ∀ j, (MersenneTwister.twistIter (MersenneTwister.init s) k).block.getD j 0 < 2 ^ 32 := by
  induction k with
  | zero => omega
  | succ m ih =>
    intro j
    show (MersenneTwister._twist
        (MersenneTwister.twistIter (MersenneTwister.init s) m)).block.getD j 0 < 2 ^ 32
    rcases Nat.eq_zero_or_pos m with rfl | hm
    · exact twist_block_getD_lt _ (fun jj hjj => initBlock_tail_lt s jj hjj) j
    · exact twist_block_getD_lt _ (fun jj hjj => ih hm jj) j

/-- C7 fails as stated: constructing with seed 2^32 leaves `block[0] = 2^32`
immediately after construction (the code never masks `block[0]`), outside
[0, 2^32 − 1]. -/
theorem c7_word_masking_counterexample :
    (MersenneTwister.init (2 ^ 32)).block.getD 0 0 = 2 ^ 32 ∧
      ¬ (MersenneTwister.init (2 ^ 32)).block.getD 0 0 ≤ 2 ^ 32 - 1 :=
  ⟨rfl, by decide⟩

/-- C7 (amended): every word of the block is within [0, 2^32 − 1] after every
twist, and after construction this holds for every word except `block[0]`, which
holds the unmasked seed. -/
theorem c7_word_masking_amended (seed k j : ℕ) (hj : j < 624) (hkj : 1 ≤ k ∨ 1 ≤ j) :
    (MersenneTwister.twistIter (MersenneTwister.init seed) k).block.getD j 0 < 2 ^ 32 ∧
      (MersenneTwister.init seed).block.getD 0 0 = seed := by
  refine ⟨?_, rfl⟩
  rcases hkj with hk | hj1
  · exact twistIter_getD_lt seed k hk j
  · cases k with
    | zero => exact initBlock_tail_lt seed j hj1
    | succ m => exact twistIter_getD_lt seed (m + 1) (by omega) j

/-- C7 witness: the amended statement at seed 5, no twist yet, word 1. -/
theorem c7_word_masking_amended_witness :
    ((1 : ℕ) < 624 ∧ ((1 : ℕ) ≤ 0 ∨ (1 : ℕ) ≤ 1)) ∧
      ((MersenneTwister.twistIter (MersenneTwister.init 5) 0).block.getD 1 0 < 2 ^ 32 ∧
        (MersenneTwister.init 5).block.getD 0 0 = 5) :=
  ⟨⟨by decide, by decide⟩, c7_word_masking_amended 5 0 1 (by decide) (by decide)⟩

/-- Helper: splitting the twist loop into two runs. -/
lemma twistLoop_add (m n : ℕ) :
    ∀ b i, MersenneTwister.twistLoop b i (m + n) =
      MersenneTwister.twistLoop (MersenneTwister.twistLoop b i m) (i + m) n := by
  induction m with
  | zero =>
    intro b i
    rw [Nat.zero_add, Nat.add_zero]
    rfl
  | succ k ih =>
    intro b i
    rw [show k + 1 + n = (k + n) + 1 from by omega, twistLoop_succ, ih, twistLoop_succ,
      show i + 1 + k = i + (k + 1) from by omega]

/-- Helper: one unfolding of `draws`. -/
lemma draws_succ (st : MersenneTwister.State) (n : ℕ) :
    MersenneTwister.draws st (n + 1) =
      (MersenneTwister._random st).1 ::
        MersenneTwister.draws (MersenneTwister._random st).2 n := rfl

set_option maxRecDepth 80000 in
set_option maxHeartbeats 4000000 in
/-- Helper: the block constructed from seed 5489 is `mtSeedBlock5489`; the
auxiliary conjuncts let the evaluation proceed in shallow stages. -/
lemma mtSeedBlock5489_eq :
    (5489 : ℕ) :: MersenneTwister.seedFrom 5489 1 623 = mtSeedBlock5489 :=
  (show (((5489 : ℕ) :: MersenneTwister.seedFrom 5489 1 623).getD 50 0 = 124945756 ∧
         ((5489 : ℕ) :: MersenneTwister.seedFrom 5489 1 623).getD 100 0 = 1834958505 ∧
         ((5489 : ℕ) :: MersenneTwister.seedFrom 5489 1 623).getD 150 0 = 3848622725 ∧
         ((5489 : ℕ) :: MersenneTwister.seedFrom 5489 1 623).getD 200 0 = 123512128 ∧
         ((5489 : ℕ) :: MersenneTwister.seedFrom 5489 1 623).getD 250 0 = 3306867480 ∧
         ((5489 : ℕ) :: MersenneTwister.seedFrom 5489 1 623).getD 300 0 = 423621996 ∧
         ((5489 : ℕ) :: MersenneTwister.seedFrom 5489 1 623).getD 350 0 = 2189520818 ∧
         ((5489 : ℕ) :: MersenneTwister.seedFrom 5489 1 623).getD 400 0 = 3055466967 ∧
         ((5489 : ℕ) :: MersenneTwister.seedFrom 5489 1 623).getD 450 0 = 164128153 ∧
         ((5489 : ℕ) :: MersenneTwister.seedFrom 5489 1 623).getD 500 0 = 3260764261 ∧
         ((5489 : ℕ) :: MersenneTwister.seedFrom 5489 1 623).getD 550 0 = 4195361916 ∧
         ((5489 : ℕ) :: MersenneTwister.seedFrom 5489 1 623).getD 600 0 = 759132955) ∧
       (5489 : ℕ) :: MersenneTwister.seedFrom 5489 1 623 = mtSeedBlock5489
   from by decide).right

set_option maxRecDepth 20000 in
set_option maxHeartbeats 1000000 in
/-- Helper: twist-loop iterations 0 to 25 on the staged block. -/
lemma mtTwistStage1_5489_eq :
    MersenneTwister.twistLoop mtSeedBlock5489 0 26 = mtTwistStage1_5489 := by decide

set_option maxRecDepth 20000 in
set_option maxHeartbeats 1000000 in
/-- Helper: twist-loop iterations 26 to 51 on the staged block. -/
lemma mtTwistStage2_5489_eq :
    MersenneTwister.twistLoop mtTwistStage1_5489 26 26 = mtTwistStage2_5489 := by decide

set_option maxRecDepth 20000 in
set_option maxHeartbeats 1000000 in
/-- Helper: twist-loop iterations 52 to 77 on the staged block. -/
lemma mtTwistStage3_5489_eq :
    MersenneTwister.twistLoop mtTwistStage2_5489 52 26 = mtTwistStage3_5489 := by decide

set_option maxRecDepth 20000 in
set_option maxHeartbeats 1000000 in
/-- Helper: twist-loop iterations 78 to 103 on the staged block. -/
lemma mtTwistStage4_5489_eq :
    MersenneTwister.twistLoop mtTwistStage3_5489 78 26 = mtTwistStage4_5489 := by decide

set_option maxRecDepth 20000 in
set_option maxHeartbeats 1000000 in
/-- Helper: twist-loop iterations 104 to 129 on the staged block. -/
lemma mtTwistStage5_5489_eq :
    MersenneTwister.twistLoop mtTwistStage4_5489 104 26 = mtTwistStage5_5489 := by decide

set_option maxRecDepth 20000 in
set_option maxHeartbeats 1000000 in
/-- Helper: twist-loop iterations 130 to 155 on the staged block. -/
lemma mtTwistStage6_5489_eq :
    MersenneTwister.twistLoop mtTwistStage5_5489 130 26 = mtTwistStage6_5489 := by decide

set_option maxRecDepth 20000 in
set_option maxHeartbeats 1000000 in
/-- Helper: twist-loop iterations 156 to 181 on the staged block. -/
lemma mtTwistStage7_5489_eq :
    MersenneTwister.twistLoop mtTwistStage6_5489 156 26 = mtTwistStage7_5489 := by decide

set_option maxRecDepth 20000 in
set_option maxHeartbeats 1000000 in
/-- Helper: twist-loop iterations 182 to 207 on the staged block. -/
lemma mtTwistStage8_5489_eq :
    MersenneTwister.twistLoop mtTwistStage7_5489 182 26 = mtTwistStage8_5489 := by decide

set_option maxRecDepth 20000 in
set_option maxHeartbeats 1000000 in
/-- Helper: twist-loop iterations 208 to 233 on the staged block. -/
lemma mtTwistStage9_5489_eq :
    MersenneTwister.twistLoop mtTwistStage8_5489 208 26 = mtTwistStage9_5489 := by decide

set_option maxRecDepth 20000 in
set_option maxHeartbeats 1000000 in
/-- Helper: twist-loop iterations 234 to 259 on the staged block. -/
lemma mtTwistStage10_5489_eq :
    MersenneTwister.twistLoop mtTwistStage9_5489 234 26 = mtTwistStage10_5489 := by decide

set_option maxRecDepth 20000 in
set_option maxHeartbeats 1000000 in
/-- Helper: twist-loop iterations 260 to 285 on the staged block. -/
lemma mtTwistStage11_5489_eq :
    MersenneTwister.twistLoop mtTwistStage10_5489 260 26 = mtTwistStage11_5489 := by decide

set_option maxRecDepth 20000 in
set_option maxHeartbeats 1000000 in
/-- Helper: twist-loop iterations 286 to 311 on the staged block. -/
lemma mtTwistStage12_5489_eq :
    MersenneTwister.twistLoop mtTwistStage11_5489 286 26 = mtTwistStage12_5489 := by decide

set_option maxRecDepth 20000 in
set_option maxHeartbeats 1000000 in
/-- Helper: twist-loop iterations 312 to 337 on the staged block. -/
lemma mtTwistStage13_5489_eq :
    MersenneTwister.twistLoop mtTwistStage12_5489 312 26 = mtTwistStage13_5489 := by decide

set_option maxRecDepth 20000 in
set_option maxHeartbeats 1000000 in
/-- Helper: twist-loop iterations 338 to 363 on the staged block. -/
lemma mtTwistStage14_5489_eq :
    MersenneTwister.twistLoop mtTwistStage13_5489 338 26 = mtTwistStage14_5489 := by decide

set_option maxRecDepth 20000 in
set_option maxHeartbeats 1000000 in
/-- Helper: twist-loop iterations 364 to 389 on the staged block. -/
lemma mtTwistStage15_5489_eq :
    MersenneTwister.twistLoop mtTwistStage14_5489 364 26 = mtTwistStage15_5489 := by decide

set_option maxRecDepth 20000 in
set_option maxHeartbeats 1000000 in
/-- Helper: twist-loop iterations 390 to 415 on the staged block. -/
lemma mtTwistStage16_5489_eq :
    MersenneTwister.twistLoop mtTwistStage15_5489 390 26 = mtTwistStage16_5489 := by decide

set_option maxRecDepth 20000 in
set_option maxHeartbeats 1000000 in
/-- Helper: twist-loop iterations 416 to 441 on the staged block. -/
lemma mtTwistStage17_5489_eq :
    MersenneTwister.twistLoop mtTwistStage16_5489 416 26 = mtTwistStage17_5489 := by decide

set_option maxRecDepth 20000 in
set_option maxHeartbeats 1000000 in
/-- Helper: twist-loop iterations 442 to 467 on the staged block. -/
lemma mtTwistStage18_5489_eq :
    MersenneTwister.twistLoop mtTwistStage17_5489 442 26 = mtTwistStage18_5489 := by decide

set_option maxRecDepth 20000 in
set_option maxHeartbeats 1000000 in
/-- Helper: twist-loop iterations 468 to 493 on the staged block. -/
lemma mtTwistStage19_5489_eq :
    MersenneTwister.twistLoop mtTwistStage18_5489 468 26 = mtTwistStage19_5489 := by decide

set_option maxRecDepth 20000 in
set_option maxHeartbeats 1000000 in
/-- Helper: twist-loop iterations 494 to 519 on the staged block. -/
lemma mtTwistStage20_5489_eq :
    MersenneTwister.twistLoop mtTwistStage19_5489 494 26 = mtTwistStage20_5489 := by decide

set_option maxRecDepth 20000 in
set_option maxHeartbeats 1000000 in
/-- Helper: twist-loop iterations 520 to 545 on the staged block. -/
lemma mtTwistStage21_5489_eq :
    MersenneTwister.twistLoop mtTwistStage20_5489 520 26 = mtTwistStage21_5489 := by decide

set_option maxRecDepth 20000 in
set_option maxHeartbeats 1000000 in
/-- Helper: twist-loop iterations 546 to 571 on the staged block. -/
lemma mtTwistStage22_5489_eq :
    MersenneTwister.twistLoop mtTwistStage21_5489 546 26 = mtTwistStage22_5489 := by decide

set_option maxRecDepth 20000 in
set_option maxHeartbeats 1000000 in
/-- Helper: twist-loop iterations 572 to 597 on the staged block. -/
lemma mtTwistStage23_5489_eq :
    MersenneTwister.twistLoop mtTwistStage22_5489 572 26 = mtTwistStage23_5489 := by decide

set_option maxRecDepth 20000 in
set_option maxHeartbeats 1000000 in
/-- Helper: twist-loop iterations 598 to 623 on the staged block. -/
lemma mtTwistStage24_5489_eq :
    MersenneTwister.twistLoop mtTwistStage23_5489 598 26 = mtTwistStage24_5489 := by decide

/-- Helper: the full twist of the seeded block, assembled from the staged runs. -/
lemma mtTwistFull5489_eq :
    MersenneTwister.twistLoop mtSeedBlock5489 0 624 = mtTwistStage24_5489 := by
  rw [show (624 : ℕ) = 26 + 598 from rfl, twistLoop_add 26 598, mtTwistStage1_5489_eq,
    show (0 + 26 : ℕ) = 26 from rfl]
  rw [show (598 : ℕ) = 26 + 572 from rfl, twistLoop_add 26 572, mtTwistStage2_5489_eq,
    show (26 + 26 : ℕ) = 52 from rfl]
  rw [show (572 : ℕ) = 26 + 546 from rfl, twistLoop_add 26 546, mtTwistStage3_5489_eq,
    show (52 + 26 : ℕ) = 78 from rfl]
  rw [show (546 : ℕ) = 26 + 520 from rfl, twistLoop_add 26 520, mtTwistStage4_5489_eq,
    show (78 + 26 : ℕ) = 104 from rfl]
  rw [show (520 : ℕ) = 26 + 494 from rfl, twistLoop_add 26 494, mtTwistStage5_5489_eq,
    show (104 + 26 : ℕ) = 130 from rfl]
  rw [show (494 : ℕ) = 26 + 468 from rfl, twistLoop_add 26 468, mtTwistStage6_5489_eq,
    show (130 + 26 : ℕ) = 156 from rfl]
  rw [show (468 : ℕ) = 26 + 442 from rfl, twistLoop_add 26 442, mtTwistStage7_5489_eq,
    show (156 + 26 : ℕ) = 182 from rfl]
  rw [show (442 : ℕ) = 26 + 416 from rfl, twistLoop_add 26 416, mtTwistStage8_5489_eq,
    show (182 + 26 : ℕ) = 208 from rfl]
  rw [show (416 : ℕ) = 26 + 390 from rfl, twistLoop_add 26 390, mtTwistStage9_5489_eq,
    show (208 + 26 : ℕ) = 234 from rfl]
  rw [show (390 : ℕ) = 26 + 364 from rfl, twistLoop_add 26 364, mtTwistStage10_5489_eq,
    show (234 + 26 : ℕ) = 260 from rfl]
  rw [show (364 : ℕ) = 26 + 338 from rfl, twistLoop_add 26 338, mtTwistStage11_5489_eq,
    show (260 + 26 : ℕ) = 286 from rfl]
  rw [show (338 : ℕ) = 26 + 312 from rfl, twistLoop_add 26 312, mtTwistStage12_5489_eq,
    show (286 + 26 : ℕ) = 312 from rfl]
  rw [show (312 : ℕ) = 26 + 286 from rfl, twistLoop_add 26 286, mtTwistStage13_5489_eq,
    show (312 + 26 : ℕ) = 338 from rfl]
  rw [show (286 : ℕ) = 26 + 260 from rfl, twistLoop_add 26 260, mtTwistStage14_5489_eq,
    show (338 + 26 : ℕ) = 364 from rfl]
  rw [show (260 : ℕ) = 26 + 234 from rfl, twistLoop_add 26 234, mtTwistStage15_5489_eq,
    show (364 + 26 : ℕ) = 390 from rfl]
  rw [show (234 : ℕ) = 26 + 208 from rfl, twistLoop_add 26 208, mtTwistStage16_5489_eq,
    show (390 + 26 : ℕ) = 416 from rfl]
  rw [show (208 : ℕ) = 26 + 182 from rfl, twistLoop_add 26 182, mtTwistStage17_5489_eq,
    show (416 + 26 : ℕ) = 442 from rfl]
  rw [show (182 : ℕ) = 26 + 156 from rfl, twistLoop_add 26 156, mtTwistStage18_5489_eq,
    show (442 + 26 : ℕ) = 468 from rfl]
  rw [show (156 : ℕ) = 26 + 130 from rfl, twistLoop_add 26 130, mtTwistStage19_5489_eq,
    show (468 + 26 : ℕ) = 494 from rfl]
  rw [show (130 : ℕ) = 26 + 104 from rfl, twistLoop_add 26 104, mtTwistStage20_5489_eq,
    show (494 + 26 : ℕ) = 520 from rfl]
  rw [show (104 : ℕ) = 26 + 78 from rfl, twistLoop_add 26 78, mtTwistStage21_5489_eq,
    show (520 + 26 : ℕ) = 546 from rfl]
  rw [show (78 : ℕ) = 26 + 52 from rfl, twistLoop_add 26 52, mtTwistStage22_5489_eq,
    show (546 + 26 : ℕ) = 572 from rfl]
  rw [show (52 : ℕ) = 26 + 26 from rfl, twistLoop_add 26 26, mtTwistStage23_5489_eq,
    show (572 + 26 : ℕ) = 598 from rfl]
  rw [mtTwistStage24_5489_eq]

/-- Helper: `_twist` on the staged construction state. -/
lemma mtTwist5489_eq :
    MersenneTwister._twist ⟨5489, mtSeedBlock5489, 624⟩ =
      (⟨5489, mtTwistStage24_5489, 0⟩ : MersenneTwister.State) := by
  simp only [MersenneTwister._twist]
  rw [mtTwistFull5489_eq]

set_option maxRecDepth 20000 in
set_option maxHeartbeats 1000000 in
/-- Helper: the first raw draw from the staged construction state. -/
lemma mtFirstDraw5489_eq :
    MersenneTwister._random ⟨5489, mtSeedBlock5489, 624⟩ =
      (3499211612, (⟨5489, mtTwistStage24_5489, 1⟩ : MersenneTwister.State)) := by
  simp only [MersenneTwister._random]
  rw [if_pos (le_refl 624), mtTwist5489_eq]
  decide

set_option maxRecDepth 20000 in
set_option maxHeartbeats 1000000 in
/-- C1: for the Mersenne Twister constructed with seed 5489, the first ten raw
draws (`_random`) agree bit-for-bit with the published reference output of the
standard MT19937 algorithm seeded with 5489 (tempering masks 2636928640 and
4022730752). -/
theorem c1_mt_reference_vector :
    MersenneTwister.draws (MersenneTwister.init 5489) 10 =
      [3499211612, 581869302, 3890346734, 3586334585, 545404204,
       4161255391, 3922919429, 949333985, 2715962298, 1323567403] := by
  have e0 : MersenneTwister.init 5489 = ⟨5489, mtSeedBlock5489, 624⟩ := by
    unfold MersenneTwister.init
    rw [mtSeedBlock5489_eq]
  rw [e0, show (10 : ℕ) = 9 + 1 from rfl, draws_succ, mtFirstDraw5489_eq]
  decide
